import Mathlib

/-!
Verification of the libavtp field-accessor core (src/avtp_stream.c,
src/avtp_aaf.c, src/avtp_crf.c, src/avtp_cvf.c, src/avtp_ieciidc.c,
src/avtp_rvf.c, src/avtp_vsf_stream.c) against its specification.

Modelling conventions.
* Machine words are natural numbers.  Every PDU header word is stored in the
  model as the numeric value obtained by decoding its wire bytes big-endian,
  which is exactly the value the C code manipulates between `ntohl`/
  `get_unaligned_be32` and `htonl`/`put_unaligned_be32`.  Those conversion
  functions therefore disappear in the model, and the wire bytes of a stored
  word are recovered by `beByte`.
* A C function returning `0` or `-EINVAL` through `int` and writing its result
  through a `uint64_t *val` out-parameter is modelled as returning
  `Option Nat` (`none` encodes `-EINVAL`).  Setters return `Int × _` keeping
  the final state, so that error paths demonstrably leave the PDU unchanged.
* A possibly-NULL PDU pointer is an `Option` argument.
-/

namespace Avtp

def EINVAL : Int := 22

/-- Modelled from the spec: `util.h` is not under src/.  `BITMASK(len)` is the
`len`-bit all-ones mask: §3.2 requires `(mask >> shift)` to be a contiguous
run of 1-bits starting at bit 0, and every `MASK_*` constant in the sources is
built as `BITMASK(width) << shift`. -/
def BITMASK (len : Nat) : Nat := 2 ^ len - 1

/-- Modelled from the spec: `util.h` is not under src/.  §4.3 get step 3:
return `(word & mask) >> shift`. -/
def BITMAP_GET_VALUE (bitmap mask shift : Nat) : Nat :=
  (bitmap &&& mask) >>> shift

/-- Modelled from the spec: `util.h` is not under src/.  §4.3 set step 2:
clear the masked bits, OR in `(value << shift) & mask`.  `W` is the C type
width of `bitmap` (32 or 64), at which `~mask` complements.  Because every
mask is `< 2^W`, the C intermediate truncations of `value << shift` to the
word width do not change `(value << shift) & mask`, so they are omitted. -/
def BITMAP_SET_VALUE (W bitmap value mask shift : Nat) : Nat :=
  (bitmap &&& (BITMASK W ^^^ mask)) ||| ((value <<< shift) &&& mask)

/-- Modelled from the spec: §4.2/§6.1, byte `i` (0 = most significant) of a
32-bit word as stored big-endian on the wire by `put_unaligned_be32`. -/
def beByte (w i : Nat) : Nat := (w >>> (8 * (3 - i))) &&& 0xFF

/-! Generic bit-field lemmas about the `util.h` primitives. -/

theorem testBit_BITMASK (w i : Nat) :
    (BITMASK w).testBit i = decide (i < w) := by
  simp [BITMASK, Nat.testBit_two_pow_sub_one]

theorem bitfield_roundtrip (W w v wd s : Nat) (hs : s + wd ≤ W)
    (hv : v < 2 ^ wd) :
    BITMAP_GET_VALUE (BITMAP_SET_VALUE W w v (BITMASK wd <<< s) s)
      (BITMASK wd <<< s) s = v := by
  apply Nat.eq_of_testBit_eq
  intro i
  simp only [BITMAP_GET_VALUE, BITMAP_SET_VALUE, Nat.testBit_shiftRight,
    Nat.testBit_land, Nat.testBit_lor, Nat.testBit_xor, Nat.testBit_shiftLeft,
    testBit_BITMASK]
  have h1 : s ≤ s + i := Nat.le_add_right s i
  have h2 : s + i - s = i := by omega
  by_cases hiw : i < wd
  · have hW : s + i < W := by omega
    simp [h1, h2, hiw, hW]
  · have hvi : v.testBit i = false :=
      Nat.testBit_lt_two_pow (Nat.lt_of_lt_of_le hv (Nat.pow_le_pow_right (by omega) (by omega)))
    simp [h1, h2, hvi, hiw]

theorem land_testBit_false {m m' : Nat} (hd : m &&& m' = 0) (j : Nat)
    (h' : m'.testBit j = true) : m.testBit j = false := by
  have h : (m.testBit j && m'.testBit j) = false := by
    rw [← Nat.testBit_land, hd]
    exact Nat.zero_testBit j
  cases hm : m.testBit j
  · rfl
  · rw [hm, h'] at h
    exact absurd h (by simp)

theorem testBit_false_of_lt {m : Nat} {W j : Nat} (hm : m < 2 ^ W) (hj : W ≤ j) :
    m.testBit j = false :=
  Nat.testBit_lt_two_pow (Nat.lt_of_lt_of_le hm (Nat.pow_le_pow_right (by omega) hj))

/-- Read-modify-write at mask `m` does not change the bits selected by any
mask `m'` disjoint from `m`. -/
theorem setValue_and_disjoint (W w v m s m' : Nat) (hd : m &&& m' = 0)
    (hm' : m' < 2 ^ W) :
    BITMAP_SET_VALUE W w v m s &&& m' = w &&& m' := by
  apply Nat.eq_of_testBit_eq
  intro j
  simp only [BITMAP_SET_VALUE, Nat.testBit_land, Nat.testBit_lor,
    Nat.testBit_xor, testBit_BITMASK]
  cases h' : m'.testBit j
  · simp
  · have hjW : j < W := by
      by_contra hj
      rw [testBit_false_of_lt hm' (by omega)] at h'
      exact absurd h' (by simp)
    have hm : m.testBit j = false := land_testBit_false hd j h'
    simp [hm, hjW]

/-- Writing a `wd`-bit field truncates the supplied value to `wd` bits. -/
theorem setValue_mod (W w v wd s : Nat) :
    BITMAP_SET_VALUE W w v (BITMASK wd <<< s) s
      = BITMAP_SET_VALUE W w (v % 2 ^ wd) (BITMASK wd <<< s) s := by
  apply Nat.eq_of_testBit_eq
  intro j
  simp only [BITMAP_SET_VALUE, Nat.testBit_land, Nat.testBit_lor,
    Nat.testBit_xor, Nat.testBit_shiftLeft, testBit_BITMASK,
    Nat.testBit_mod_two_pow]
  by_cases hs : s ≤ j
  · by_cases hw : j - s < wd <;> simp [hs, hw]
  · simp [hs]

/-- Splitting a 64-bit value into its two big-endian 32-bit halves and
rejoining them is the identity below bit 64. -/
theorem split32_rejoin (x : Nat) :
    ((x >>> 32) <<< 32) ||| (x &&& BITMASK 32) = x ||| ((x >>> 64) <<< 64) := by
  apply Nat.eq_of_testBit_eq
  intro j
  simp only [Nat.testBit_lor, Nat.testBit_land, Nat.testBit_shiftLeft,
    Nat.testBit_shiftRight, testBit_BITMASK]
  by_cases h32 : 32 ≤ j
  · have h3 : 32 + (j - 32) = j := by omega
    by_cases h64 : 64 ≤ j
    · have h6 : 64 + (j - 64) = j := by omega
      simp [h32, h64, h3, h6]
    · simp [h32, h64, h3]
  · have hj : j < 32 := by omega
    have h64 : ¬64 ≤ j := by omega
    simp [h32, hj, h64]

theorem split32_rejoin_of_lt {x : Nat} (hx : x < 2 ^ 64) :
    ((x >>> 32) <<< 32) ||| (x &&& BITMASK 32) = x := by
  rw [split32_rejoin]
  have : x >>> 64 = 0 := by
    rw [Nat.shiftRight_eq_div_pow]
    exact Nat.div_eq_of_lt hx
  simp [this]

theorem BITMASK_lt (W : Nat) : BITMASK W < 2 ^ W := by
  have := Nat.pos_pow_of_pos W (show 0 < 2 by omega)
  simp only [BITMASK]
  omega

theorem setValue_lt (W w v m s : Nat) (hm : m < 2 ^ W) :
    BITMAP_SET_VALUE W w v m s < 2 ^ W := by
  have h1 : w &&& (BITMASK W ^^^ m) < 2 ^ W :=
    Nat.lt_of_le_of_lt Nat.and_le_right (Nat.xor_lt_two_pow (BITMASK_lt W) hm)
  have h2 : (v <<< s) &&& m < 2 ^ W :=
    Nat.lt_of_le_of_lt Nat.and_le_right hm
  exact Nat.or_lt_two_pow h1 h2

theorem land_BITMASK_of_lt {m n : Nat} (hm : m < 2 ^ n) :
    m &&& BITMASK n = m := by
  apply Nat.eq_of_testBit_eq
  intro j
  simp only [Nat.testBit_land, testBit_BITMASK]
  by_cases hj : j < n
  · simp [hj]
  · have hb := testBit_false_of_lt hm (Nat.le_of_not_lt hj)
    simp [hj, hb]

theorem mask_ne_zero {wd s : Nat} (h : 0 < wd) : BITMASK wd <<< s ≠ 0 := by
  rw [Nat.shiftLeft_eq, BITMASK]
  have h2 : 2 ≤ 2 ^ wd := by
    calc 2 = 2 ^ 1 := rfl
    _ ≤ 2 ^ wd := Nat.pow_le_pow_right (by omega) h
  have hp : 0 < 2 ^ s := Nat.pos_pow_of_pos s (by omega)
  have : 0 < (2 ^ wd - 1) * 2 ^ s := Nat.mul_pos (by omega) hp
  omega

theorem mask_lt {wd s W : Nat} (h : s + wd ≤ W) : BITMASK wd <<< s < 2 ^ W := by
  rw [Nat.shiftLeft_eq, BITMASK]
  have hp : 0 < 2 ^ s := Nat.pos_pow_of_pos s (by omega)
  have h1 : 2 ^ wd - 1 < 2 ^ wd := by
    have := Nat.pos_pow_of_pos wd (show 0 < 2 by omega)
    omega
  calc (2 ^ wd - 1) * 2 ^ s < 2 ^ wd * 2 ^ s := (mul_lt_mul_right hp).mpr h1
  _ = 2 ^ (wd + s) := by rw [← pow_add]
  _ ≤ 2 ^ W := Nat.pow_le_pow_right (by omega) (by omega)

/-! ## The stream PDU state

The C `struct avtp_stream_pdu` lives in the header `avtp.h`, which is not
under src/; its layout is modelled from §3.1/§6.1 of the spec: five fixed
header words (`subtype_data`, 64-bit `stream_id`, `avtp_time`,
`format_specific`, `packet_info`) followed by the variable `avtp_payload`.
Each component below holds the big-endian-decoded numeric value of the
corresponding wire word.  The first 8 bytes of `avtp_payload` are modelled as
the two 32-bit words `pay0`/`pay1`; they carry, depending on the subtype, the
H.264 header (CVF, `pay0`), the CIP header (IEC 61883/IIDC, `pay0`/`pay1`) or
the 64-bit RAW header (RVF, big-endian `pay0 ++ pay1`). -/

structure StreamPdu where
  subtype_data : Nat
  stream_id : Nat
  avtp_time : Nat
  format_specific : Nat
  packet_info : Nat
  pay0 : Nat
  pay1 : Nat
deriving DecidableEq

/-- The 32-bit words of a stream PDU that the bit-field engine addresses
through its `ptr` selector. -/
inductive W32 where
  | std   -- subtype_data
  | time  -- avtp_time
  | fs    -- format_specific
  | pi    -- packet_info
  | p0    -- first payload word
  | p1    -- second payload word
deriving DecidableEq

/-- `get_unaligned_be32`/`ntohl` on the selected word (identity on the model,
which stores big-endian-decoded values). -/
def getW (p : StreamPdu) : W32 → Nat
  | .std => p.subtype_data
  | .time => p.avtp_time
  | .fs => p.format_specific
  | .pi => p.packet_info
  | .p0 => p.pay0
  | .p1 => p.pay1

/-- `put_unaligned_be32`/`htonl` on the selected word. -/
def setW (p : StreamPdu) : W32 → Nat → StreamPdu
  | .std, x => { p with subtype_data := x }
  | .time, x => { p with avtp_time := x }
  | .fs, x => { p with format_specific := x }
  | .pi, x => { p with packet_info := x }
  | .p0, x => { p with pay0 := x }
  | .p1, x => { p with pay1 := x }

theorem getW_setW_same (p : StreamPdu) (w : W32) (x : Nat) :
    getW (setW p w x) w = x := by
  cases w <;> rfl

theorem getW_setW_ne (p : StreamPdu) {w w' : W32} (h : w ≠ w') (x : Nat) :
    getW (setW p w x) w' = getW p w' := by
  cases w <;> cases w' <;> first | rfl | exact absurd rfl h

theorem stream_id_setW (p : StreamPdu) (w : W32) (x : Nat) :
    (setW p w x).stream_id = p.stream_id := by
  cases w <;> rfl

/-- The 64-bit big-endian RAW header value `be64toh(pay->raw_header)` seen by
the RVF accessor: its high 4 wire bytes are `pay0`, its low 4 are `pay1`. -/
def combined (p : StreamPdu) : Nat := (getW p .p0 <<< 32) ||| getW p .p1

/-! ## Field descriptors

Proof infrastructure (not part of the embedding of the C code): a descriptor
records, for one field of one subtype, which words the accessor pair touches
and with which mask/shift/width, exactly as the registry of §4.1 does.  The
characterization lemmas below prove, case by case, that each C accessor
coincides with the interpretation of its descriptor table. -/

inductive Desc where
  /-- 32-bit read-modify-write bit-field in word `w`. -/
  | b32 (w : W32) (mask shift width : Nat)
  /-- direct 32-bit load/store of word `w` (`TIMESTAMP`, `H264_TIMESTAMP`,
  `GATEWAY_INFO`). -/
  | dir32 (w : W32)
  /-- direct 64-bit load/store of `stream_id`. -/
  | sid
  /-- 64-bit read-modify-write bit-field in the RVF RAW header. -/
  | raw64 (mask shift width : Nat)
  /-- the 48-bit VSF vendor id split across `format_specific`/`packet_info`. -/
  | vend
deriving DecidableEq

def descWidth : Desc → Nat
  | .b32 _ _ _ wd => wd
  | .dir32 _ => 32
  | .sid => 64
  | .raw64 _ _ wd => wd
  | .vend => 48

def descGet (p : StreamPdu) : Desc → Nat
  | .b32 w mask shift _ => BITMAP_GET_VALUE (getW p w) mask shift
  | .dir32 w => getW p w
  | .sid => p.stream_id
  | .raw64 mask shift _ => BITMAP_GET_VALUE (combined p) mask shift
  | .vend => ((getW p .fs &&& BITMASK 32) <<< 16) ||| (getW p .pi &&& BITMASK 16)

def descSet (p : StreamPdu) (v : Nat) : Desc → StreamPdu
  | .b32 w mask shift _ => setW p w (BITMAP_SET_VALUE 32 (getW p w) v mask shift)
  | .dir32 w => setW p w (v % 2 ^ 32)
  | .sid => { p with stream_id := v % 2 ^ 64 }
  | .raw64 mask shift _ =>
      let c := BITMAP_SET_VALUE 64 (combined p) v mask shift
      setW (setW p .p0 (c >>> 32)) .p1 (c &&& BITMASK 32)
  | .vend =>
      let f := BITMAP_SET_VALUE 32 (getW p .fs) (v >>> 16) (BITMASK 32) 0
      let q := BITMAP_SET_VALUE 32 (getW p .pi) (v &&& BITMASK 16) (BITMASK 16) 0
      setW (setW p .fs f) .pi q

/-- Bit footprint of a descriptor inside each 32-bit word. -/
def descFp : Desc → W32 → Nat
  | .b32 w mask _ _, w' => if w' = w then mask else 0
  | .dir32 w, w' => if w' = w then BITMASK 32 else 0
  | .sid, _ => 0
  | .raw64 mask _ _, w' =>
      match w' with
      | .p0 => mask >>> 32
      | .p1 => mask &&& BITMASK 32
      | _ => 0
  | .vend, w' =>
      match w' with
      | .fs => BITMASK 32
      | .pi => BITMASK 16
      | _ => 0

/-- Bit footprint of a descriptor inside `stream_id`. -/
def descFpSid : Desc → Nat
  | .sid => BITMASK 64
  | _ => 0

def descWf : Desc → Bool
  | .b32 _ mask shift wd =>
      decide (mask = BITMASK wd <<< shift ∧ shift + wd ≤ 32 ∧ 0 < wd)
  | .raw64 mask shift wd =>
      decide (mask = BITMASK wd <<< shift ∧ shift + wd ≤ 64 ∧ 0 < wd)
  | _ => true

instance : Fintype W32 :=
  ⟨⟨{.std, .time, .fs, .pi, .p0, .p1}, by decide⟩, by intro x; cases x <;> decide⟩

/-- Two descriptors have disjoint footprints. -/
def fpDisjoint (d1 d2 : Desc) : Bool :=
  decide ((∀ w, descFp d1 w &&& descFp d2 w = 0) ∧ descFpSid d1 &&& descFpSid d2 = 0)

/-- The RAW-header descriptor shares its two payload words with no 32-bit
descriptor of the same subtype (true of every registry table here: the CIP
fields belong to IEC 61883/IIDC, the RAW fields to RVF). -/
def compatible (d1 d2 : Desc) : Bool :=
  match d1, d2 with
  | .raw64 _ _ _, .b32 w _ _ _ => decide (w ≠ .p0 ∧ w ≠ .p1)
  | .raw64 _ _ _, .dir32 w => decide (w ≠ .p0 ∧ w ≠ .p1)
  | .b32 w _ _ _, .raw64 _ _ _ => decide (w ≠ .p0 ∧ w ≠ .p1)
  | .dir32 w, .raw64 _ _ _ => decide (w ≠ .p0 ∧ w ≠ .p1)
  | _, _ => true

theorem fpDisjoint_spec {d1 d2 : Desc} (h : fpDisjoint d1 d2 = true) :
    (∀ w, descFp d1 w &&& descFp d2 w = 0) ∧ descFpSid d1 &&& descFpSid d2 = 0 :=
  of_decide_eq_true h

/-! Update lemmas: what each kind of descriptor write does to each word. -/

theorem upd_b32 (p : StreamPdu) (v : Nat) (w1 : W32) (m s wd : Nat) (w : W32) :
    getW (descSet p v (.b32 w1 m s wd)) w
      = if w = w1 then BITMAP_SET_VALUE 32 (getW p w1) v m s else getW p w := by
  by_cases h : w = w1
  · subst h; simp [descSet, getW_setW_same]
  · simp [descSet, h, getW_setW_ne _ (fun hh => h hh.symm)]

theorem upd_dir32 (p : StreamPdu) (v : Nat) (w1 : W32) (w : W32) :
    getW (descSet p v (.dir32 w1)) w
      = if w = w1 then v % 2 ^ 32 else getW p w := by
  by_cases h : w = w1
  · subst h; simp [descSet, getW_setW_same]
  · simp [descSet, h, getW_setW_ne _ (fun hh => h hh.symm)]

theorem upd_sid_getW (p : StreamPdu) (v : Nat) (w : W32) :
    getW (descSet p v .sid) w = getW p w := by
  cases w <;> rfl

theorem upd_raw64 (p : StreamPdu) (v : Nat) (m s wd : Nat) (w : W32) :
    getW (descSet p v (.raw64 m s wd)) w
      = if w = .p0 then BITMAP_SET_VALUE 64 (combined p) v m s >>> 32
        else if w = .p1 then BITMAP_SET_VALUE 64 (combined p) v m s &&& BITMASK 32
        else getW p w := by
  cases w <;> rfl

theorem upd_vend (p : StreamPdu) (v : Nat) (w : W32) :
    getW (descSet p v .vend) w
      = if w = .fs then BITMAP_SET_VALUE 32 (getW p .fs) (v >>> 16) (BITMASK 32) 0
        else if w = .pi then BITMAP_SET_VALUE 32 (getW p .pi) (v &&& BITMASK 16) (BITMASK 16) 0
        else getW p w := by
  cases w <;> rfl

theorem upd_stream_id (d : Desc) (p : StreamPdu) (v : Nat) (h : d ≠ .sid) :
    (descSet p v d).stream_id = p.stream_id := by
  cases d with
  | b32 w m s wd => simp [descSet, stream_id_setW]
  | dir32 w => simp [descSet, stream_id_setW]
  | sid => exact absurd rfl h
  | raw64 m s wd => simp [descSet, stream_id_setW]
  | vend => simp [descSet, stream_id_setW]

/-! Getter congruence lemmas: what each kind of descriptor read depends on. -/

theorem getc_b32 {q p : StreamPdu} (w2 : W32) (m2 s2 wd2 : Nat)
    (h : getW q w2 &&& m2 = getW p w2 &&& m2) :
    descGet q (.b32 w2 m2 s2 wd2) = descGet p (.b32 w2 m2 s2 wd2) := by
  simp [descGet, BITMAP_GET_VALUE, h]

theorem getc_raw64 {q p : StreamPdu} (m2 s2 wd2 : Nat)
    (h : combined q &&& m2 = combined p &&& m2) :
    descGet q (.raw64 m2 s2 wd2) = descGet p (.raw64 m2 s2 wd2) := by
  simp [descGet, BITMAP_GET_VALUE, h]

theorem getc_vend {q p : StreamPdu}
    (hf : getW q .fs &&& BITMASK 32 = getW p .fs &&& BITMASK 32)
    (hp : getW q .pi &&& BITMASK 16 = getW p .pi &&& BITMASK 16) :
    descGet q .vend = descGet p .vend := by
  simp [descGet, hf, hp]

theorem setValue_full32 (w v : Nat) :
    BITMAP_SET_VALUE 32 w v (BITMASK 32) 0 = v &&& BITMASK 32 := by
  simp [BITMAP_SET_VALUE, Nat.xor_self, Nat.and_zero, Nat.zero_or,
    Nat.shiftLeft_zero]

theorem hi_lo_join (v : Nat) (hv : v < 2 ^ 48) :
    (((v >>> 16) &&& BITMASK 32) <<< 16) ||| (v &&& BITMASK 16) = v := by
  apply Nat.eq_of_testBit_eq
  intro j
  simp only [Nat.testBit_lor, Nat.testBit_land, Nat.testBit_shiftLeft,
    Nat.testBit_shiftRight, testBit_BITMASK]
  by_cases h16 : 16 ≤ j
  · have e : 16 + (j - 16) = j := by omega
    have hj16 : ¬j < 16 := by omega
    by_cases h48 : j < 48
    · have hj32 : j - 16 < 32 := by omega
      simp [h16, e, hj16, hj32]
    · have hj32 : ¬(j - 16 < 32) := by omega
      have hjv : v.testBit j = false := testBit_false_of_lt hv (by omega)
      simp [h16, e, hj16, hj32, hjv]
  · have hj : j < 16 := by omega
    simp [h16, hj]

theorem hi_mod48 (v : Nat) :
    ((v % 2 ^ 48) >>> 16) &&& BITMASK 32 = (v >>> 16) &&& BITMASK 32 := by
  apply Nat.eq_of_testBit_eq
  intro j
  simp only [Nat.testBit_land, Nat.testBit_shiftRight, testBit_BITMASK,
    Nat.testBit_mod_two_pow]
  by_cases hj : j < 32
  · have : 16 + j < 48 := by omega
    simp [hj, this]
  · simp [hj]

theorem lo_mod48 (v : Nat) :
    (v % 2 ^ 48) &&& BITMASK 16 = v &&& BITMASK 16 := by
  apply Nat.eq_of_testBit_eq
  intro j
  simp only [Nat.testBit_land, testBit_BITMASK, Nat.testBit_mod_two_pow]
  by_cases hj : j < 16
  · have : j < 48 := by omega
    simp [hj, this]
  · simp [hj]

theorem land_eq_zero_of_split {a b : Nat} (ha : a < 2 ^ 64)
    (h1 : (a >>> 32) &&& (b >>> 32) = 0)
    (h2 : (a &&& BITMASK 32) &&& (b &&& BITMASK 32) = 0) :
    a &&& b = 0 := by
  apply Nat.eq_of_testBit_eq
  intro j
  simp only [Nat.testBit_land, Nat.zero_testBit]
  by_cases hj32 : j < 32
  · have h := congrArg (fun x => x.testBit j) h2
    simpa [Nat.testBit_land, testBit_BITMASK, hj32, Nat.zero_testBit,
      Bool.and_assoc, Bool.and_comm] using h
  · by_cases hj64 : j < 64
    · have h := congrArg (fun x => x.testBit (j - 32)) h1
      have e : 32 + (j - 32) = j := by omega
      simpa [Nat.testBit_land, Nat.testBit_shiftRight, e,
        Nat.zero_testBit] using h
    · simp [testBit_false_of_lt ha (by omega : 64 ≤ j)]

/-- Generic round-trip: writing a representable value through a well-formed
descriptor and reading it back returns the value. -/
theorem descRoundtrip (d : Desc) (p : StreamPdu) (v : Nat)
    (hwf : descWf d = true) (hv : v < 2 ^ descWidth d) :
    descGet (descSet p v d) d = v := by
  cases d with
  | b32 w m s wd =>
      obtain ⟨hm, hs, hwd⟩ : m = BITMASK wd <<< s ∧ s + wd ≤ 32 ∧ 0 < wd :=
        of_decide_eq_true hwf
      subst hm
      simp only [descGet, descSet, getW_setW_same]
      exact bitfield_roundtrip 32 _ v wd s hs hv
  | dir32 w =>
      simp only [descGet, descSet, getW_setW_same]
      exact Nat.mod_eq_of_lt hv
  | sid =>
      simp only [descGet, descSet]
      exact Nat.mod_eq_of_lt hv
  | raw64 m s wd =>
      obtain ⟨hm, hs, hwd⟩ : m = BITMASK wd <<< s ∧ s + wd ≤ 64 ∧ 0 < wd :=
        of_decide_eq_true hwf
      subst hm
      have hc : BITMAP_SET_VALUE 64 (p.pay0 <<< 32 ||| p.pay1) v
          (BITMASK wd <<< s) s < 2 ^ 64 :=
        setValue_lt _ _ _ _ _ (mask_lt hs)
      simp only [descGet, descSet, combined, getW, setW]
      rw [split32_rejoin_of_lt hc]
      exact bitfield_roundtrip 64 _ v wd s hs hv
  | vend =>
      have hb : v &&& BITMASK 16 < 2 ^ 16 :=
        Nat.lt_of_le_of_lt Nat.and_le_right (BITMASK_lt 16)
      have hq := bitfield_roundtrip 32 (getW p .pi) (v &&& BITMASK 16) 16 0
        (by omega) hb
      rw [Nat.shiftLeft_zero] at hq
      simp only [getW] at hq
      simp only [descGet, descSet, getW, setW]
      show ((BITMAP_SET_VALUE 32 p.format_specific (v >>> 16) (BITMASK 32) 0
      &&& BITMASK 32) <<< 16)
      ||| (BITMAP_GET_VALUE (BITMAP_SET_VALUE 32 p.packet_info
        (v &&& BITMASK 16) (BITMASK 16) 0) (BITMASK 16) 0) = v
      rw [hq, setValue_full32, Nat.and_assoc, Nat.and_self]
      exact hi_lo_join v hv

/-- Generic truncation: descriptor writes only look at the low
`descWidth d` bits of the supplied value. -/
theorem descTrunc (d : Desc) (p : StreamPdu) (v : Nat)
    (hwf : descWf d = true) :
    descSet p v d = descSet p (v % 2 ^ descWidth d) d := by
  cases d with
  | b32 w m s wd =>
      obtain ⟨hm, hs, hwd⟩ : m = BITMASK wd <<< s ∧ s + wd ≤ 32 ∧ 0 < wd :=
        of_decide_eq_true hwf
      subst hm
      simp only [descSet, descWidth]
      rw [setValue_mod]
  | dir32 w =>
      simp only [descSet, descWidth]
      rw [Nat.mod_mod_of_dvd v (dvd_refl (2 ^ 32))]
  | sid =>
      simp only [descSet, descWidth]
      rw [Nat.mod_mod_of_dvd v (dvd_refl (2 ^ 64))]
  | raw64 m s wd =>
      obtain ⟨hm, hs, hwd⟩ : m = BITMASK wd <<< s ∧ s + wd ≤ 64 ∧ 0 < wd :=
        of_decide_eq_true hwf
      subst hm
      simp only [descSet, descWidth]
      rw [setValue_mod]
  | vend =>
      simp only [descSet, descWidth, BITMAP_SET_VALUE, Nat.shiftLeft_zero]
      rw [hi_mod48, lo_mod48]

/-- A descriptor write changes the bits of word `w` selected by `m'` only if
its footprint at `w` meets `m'`.  For the RAW-header descriptor only words
other than the two payload words are covered. -/
theorem descSet_masked (d1 : Desc) (p : StreamPdu) (v : Nat) (w : W32)
    (m' : Nat) (h1 : descWf d1 = true)
    (hdisj : descFp d1 w &&& m' = 0) (hm' : m' < 2 ^ 32)
    (hraw : ∀ m s wd, d1 = .raw64 m s wd → w ≠ .p0 ∧ w ≠ .p1) :
    getW (descSet p v d1) w &&& m' = getW p w &&& m' := by
  cases d1 with
  | b32 w1 m s wd =>
      rw [upd_b32]
      by_cases hw : w = w1
      · subst hw
        simp only [descFp, if_pos rfl] at hdisj
        simp only [if_pos rfl]
        exact setValue_and_disjoint 32 _ v m _ m' hdisj hm'
      · simp [hw]
  | dir32 w1 =>
      rw [upd_dir32]
      by_cases hw : w = w1
      · subst hw
        simp [descFp] at hdisj
        have hm0 : m' = 0 := by
          rw [Nat.and_comm] at hdisj
          rw [← land_BITMASK_of_lt hm', hdisj]
        simp [hm0]
      · simp [hw]
  | sid => rw [upd_sid_getW]
  | raw64 m s wd =>
      obtain ⟨hp0, hp1⟩ := hraw m s wd rfl
      rw [upd_raw64, if_neg hp0, if_neg hp1]
  | vend =>
      rw [upd_vend]
      cases w with
      | fs =>
          simp [descFp] at hdisj
          have hm0 : m' = 0 := by
            rw [Nat.and_comm] at hdisj
            rw [← land_BITMASK_of_lt hm', hdisj]
          simp [hm0]
      | pi =>
          simp [descFp] at hdisj
          simp only [reduceCtorEq, if_neg, if_pos]
          exact setValue_and_disjoint 32 _ _ _ 0 m' hdisj hm'
      | std => simp
      | time => simp
      | p0 => simp
      | p1 => simp

/-- A descriptor write leaves word `w` entirely unchanged when its footprint
at `w` is disjoint from the full 32-bit mask. -/
theorem descSet_untouched (d1 : Desc) (p : StreamPdu) (v : Nat) (w : W32)
    (h1 : descWf d1 = true)
    (hdisj : descFp d1 w &&& BITMASK 32 = 0)
    (hraw : ∀ m s wd, d1 = .raw64 m s wd → w ≠ .p0 ∧ w ≠ .p1) :
    getW (descSet p v d1) w = getW p w := by
  cases d1 with
  | b32 w1 m s wd =>
      obtain ⟨hm, hs, hwd⟩ : m = BITMASK wd <<< s ∧ s + wd ≤ 32 ∧ 0 < wd :=
        of_decide_eq_true h1
      rw [upd_b32]
      by_cases hw : w = w1
      · subst hw
        simp only [descFp, if_pos rfl] at hdisj
        rw [land_BITMASK_of_lt (hm ▸ mask_lt hs)] at hdisj
        exact absurd hdisj (hm ▸ mask_ne_zero hwd)
      · simp [hw]
  | dir32 w1 =>
      rw [upd_dir32]
      by_cases hw : w = w1
      · subst hw
        simp only [descFp, if_pos rfl] at hdisj
        exact absurd hdisj (by decide)
      · simp [hw]
  | sid => rw [upd_sid_getW]
  | raw64 m s wd =>
      obtain ⟨hp0, hp1⟩ := hraw m s wd rfl
      rw [upd_raw64, if_neg hp0, if_neg hp1]
  | vend =>
      rw [upd_vend]
      cases w with
      | fs =>
          simp only [descFp] at hdisj
          exact absurd hdisj (by decide)
      | pi =>
          simp only [descFp] at hdisj
          exact absurd hdisj (by decide)
      | std => simp
      | time => simp
      | p0 => simp
      | p1 => simp

theorem combined_descSet_untouched (d1 : Desc) (p : StreamPdu) (v : Nat)
    (h1 : descWf d1 = true)
    (hp0 : descFp d1 .p0 &&& BITMASK 32 = 0)
    (hp1 : descFp d1 .p1 &&& BITMASK 32 = 0)
    (hraw : ∀ m s wd, d1 ≠ .raw64 m s wd) :
    combined (descSet p v d1) = combined p := by
  unfold combined
  rw [descSet_untouched d1 p v .p0 h1 hp0 (fun m s wd h => absurd h (hraw m s wd)),
    descSet_untouched d1 p v .p1 h1 hp1 (fun m s wd h => absurd h (hraw m s wd))]

/-- Generic neighbor preservation: a write through `d1` does not change the
value read through `d2` when their footprints are disjoint. -/
theorem descPreserve (d1 d2 : Desc) (p : StreamPdu) (v : Nat)
    (h1 : descWf d1 = true) (h2 : descWf d2 = true)
    (hc : compatible d1 d2 = true) (hd : fpDisjoint d1 d2 = true) :
    descGet (descSet p v d1) d2 = descGet p d2 := by
  obtain ⟨hw, hsid⟩ := fpDisjoint_spec hd
  cases d2 with
  | b32 w2 m2 s2 wd2 =>
      obtain ⟨hm2, hs2, hwd2⟩ : m2 = BITMASK wd2 <<< s2 ∧ s2 + wd2 ≤ 32 ∧ 0 < wd2 :=
        of_decide_eq_true h2
      apply getc_b32
      apply descSet_masked d1 p v w2 m2 h1
      · have hx := hw w2
        simpa [descFp] using hx
      · exact hm2 ▸ mask_lt hs2
      · intro m s wd hdd
        subst hdd
        simpa [compatible] using hc
  | dir32 w2 =>
      show getW (descSet p v d1) w2 = getW p w2
      apply descSet_untouched d1 p v w2 h1
      · have hx := hw w2
        simpa [descFp] using hx
      · intro m s wd hdd
        subst hdd
        simpa [compatible] using hc
  | sid =>
      show (descSet p v d1).stream_id = p.stream_id
      by_cases hd1 : d1 = .sid
      · rw [hd1] at hsid
        simp [descFpSid] at hsid
        exact absurd hsid (by decide)
      · exact upd_stream_id d1 p v hd1
  | raw64 m2 s2 wd2 =>
      obtain ⟨hm2, hs2, hwd2⟩ : m2 = BITMASK wd2 <<< s2 ∧ s2 + wd2 ≤ 64 ∧ 0 < wd2 :=
        of_decide_eq_true h2
      apply getc_raw64
      cases d1 with
      | raw64 m1 s1 wd1 =>
          obtain ⟨hm1, hs1, hwd1⟩ : m1 = BITMASK wd1 <<< s1 ∧ s1 + wd1 ≤ 64 ∧ 0 < wd1 :=
            of_decide_eq_true h1
          have hc64 : BITMAP_SET_VALUE 64 (p.pay0 <<< 32 ||| p.pay1) v m1 s1 < 2 ^ 64 :=
            setValue_lt _ _ _ _ _ (hm1 ▸ mask_lt hs1)
          have e : combined (descSet p v (.raw64 m1 s1 wd1))
              = BITMAP_SET_VALUE 64 (combined p) v m1 s1 := by
            simp only [descSet, combined, getW, setW]
            exact split32_rejoin_of_lt hc64
          rw [e]
          apply setValue_and_disjoint
          · have h0 := hw .p0
            have hp1 := hw .p1
            simp [descFp] at h0 hp1
            exact land_eq_zero_of_split (hm1 ▸ mask_lt hs1) h0 hp1
          · exact hm2 ▸ mask_lt hs2
      | b32 w1 mm ss wdd =>
          have hcc : w1 ≠ W32.p0 ∧ w1 ≠ W32.p1 := by simpa [compatible] using hc
          rw [combined_descSet_untouched _ p v h1
            (by simp [descFp, if_neg (Ne.symm hcc.1)])
            (by simp [descFp, if_neg (Ne.symm hcc.2)])
            (by intro m s wd; simp)]
      | dir32 w1 =>
          have hcc : w1 ≠ W32.p0 ∧ w1 ≠ W32.p1 := by simpa [compatible] using hc
          rw [combined_descSet_untouched _ p v h1
            (by simp [descFp, if_neg (Ne.symm hcc.1)])
            (by simp [descFp, if_neg (Ne.symm hcc.2)])
            (by intro m s wd; simp)]
      | sid =>
          rw [combined_descSet_untouched _ p v h1 (by simp [descFp])
            (by simp [descFp]) (by intro m s wd; simp)]
      | vend =>
          rw [combined_descSet_untouched _ p v h1 (by simp [descFp])
            (by simp [descFp]) (by intro m s wd; simp)]
  | vend =>
      apply getc_vend
      · apply descSet_masked d1 p v .fs (BITMASK 32) h1
        · have hx := hw .fs
          simpa [descFp] using hx
        · exact BITMASK_lt 32
        · intro m s wd hdd
          exact ⟨by decide, by decide⟩
      · apply descSet_masked d1 p v .pi (BITMASK 16) h1
        · have hx := hw .pi
          simpa [descFp] using hx
        · exact Nat.lt_of_lt_of_le (BITMASK_lt 16)
            (Nat.pow_le_pow_right (by omega) (by omega))
        · intro m s wd hdd
          exact ⟨by decide, by decide⟩

/-- The `(value << shift) & mask` step only sees the low `W` bits of the
value when the mask fits in `W` bits; this is why the implicit conversion to
the `uint32_t` parameter of the AAF/CVF/RVF `set_field_value` is invisible. -/
theorem setValue_value_mod (W w v m s : Nat) (hm : m < 2 ^ W) :
    BITMAP_SET_VALUE W w (v % 2 ^ W) m s = BITMAP_SET_VALUE W w v m s := by
  apply Nat.eq_of_testBit_eq
  intro j
  simp only [BITMAP_SET_VALUE, Nat.testBit_lor, Nat.testBit_land,
    Nat.testBit_shiftLeft, Nat.testBit_mod_two_pow]
  by_cases hj : j < W
  · by_cases hs : s ≤ j
    · have : j - s < W := by omega
      simp [hs, this]
    · simp [hs]
  · have hmj : m.testBit j = false := testBit_false_of_lt hm (by omega)
    simp [hmj]

/-! ## Code that is declared but not defined under src/

The common-header accessor (`avtp.c`) and the header `avtp.h` (struct
layouts, `AVTP_SUBTYPE_*` constants, `AVTP_FIELD_SUBTYPE`) are not in src/;
only their callers are.  The pieces the initializers use are modelled from
the spec below. -/

/-- Modelled from the spec: §4.4 — `SUBTYPE` is the 8-bit field at the MSB
end of the first 32-bit header word (`avtp.c`/`avtp.h` are not in src/). -/
def SHIFT_SUBTYPE : Nat := 24

/-- Modelled from the spec: §4.4 (see `SHIFT_SUBTYPE`). -/
def MASK_SUBTYPE : Nat := BITMASK 8 <<< SHIFT_SUBTYPE

/-- Modelled from the spec: `avtp_pdu_set(pdu, AVTP_FIELD_SUBTYPE, v)` on the
first header word — §4.3 read-modify-write at the §4.4 position; §4.1
requires it to preserve the remaining 24 bits of `subtype_data`. -/
def avtp_pdu_set_subtype (word v : Nat) : Nat :=
  BITMAP_SET_VALUE 32 word v MASK_SUBTYPE SHIFT_SUBTYPE

/-- Modelled from the spec: `avtp_pdu_get(pdu, AVTP_FIELD_SUBTYPE, &v)`. -/
def avtp_pdu_get_subtype (word : Nat) : Nat :=
  BITMAP_GET_VALUE word MASK_SUBTYPE SHIFT_SUBTYPE

/-- Modelled from the spec: §4.4 subtype table (`avtp.h` is not in src/). -/
def AVTP_SUBTYPE_61883_IIDC : Nat := 0x00
/-- Modelled from the spec: §4.4 subtype table. -/
def AVTP_SUBTYPE_AAF : Nat := 0x02
/-- Modelled from the spec: §4.4 subtype table. -/
def AVTP_SUBTYPE_CVF : Nat := 0x03
/-- Modelled from the spec: §4.4 subtype table. -/
def AVTP_SUBTYPE_CRF : Nat := 0x04
/-- Modelled from the spec: §4.4 subtype table. -/
def AVTP_SUBTYPE_RVF : Nat := 0x07
/-- Modelled from the spec: §4.4 subtype table. -/
def AVTP_SUBTYPE_VSF_STREAM : Nat := 0x6F

/-- Modelled from the spec: `memset(pdu, 0, sizeof(struct avtp_stream_pdu))`
zeroes the 24-byte fixed header; `avtp_payload` is a flexible array member
not counted by `sizeof` (§4.7: payload sub-header words are NOT zeroed). -/
def memsetStream (p : StreamPdu) : StreamPdu :=
  { subtype_data := 0, stream_id := 0, avtp_time := 0, format_specific := 0,
    packet_info := 0, pay0 := p.pay0, pay1 := p.pay1 }

/-- The all-zero stream PDU (a buffer freshly cleared by the caller). -/
def zeroStream : StreamPdu :=
  { subtype_data := 0, stream_id := 0, avtp_time := 0, format_specific := 0,
    packet_info := 0, pay0 := 0, pay1 := 0 }

/-! ## src/avtp_stream.c — the shared stream-header accessor

The out-parameter `val` of the C getters is represented by the `Option Nat`
result (`none` encodes `-EINVAL`); the `!val` NULL test of the C functions
has no counterpart in this representation.  Field identifiers are the C
`enum` values, numbered exactly as in `avtp_stream.h`. -/

namespace Stream

def AVTP_STREAM_FIELD_SV : Nat := 0
def AVTP_STREAM_FIELD_MR : Nat := 1
def AVTP_STREAM_FIELD_TV : Nat := 2
def AVTP_STREAM_FIELD_SEQ_NUM : Nat := 3
def AVTP_STREAM_FIELD_TU : Nat := 4
def AVTP_STREAM_FIELD_STREAM_ID : Nat := 5
def AVTP_STREAM_FIELD_TIMESTAMP : Nat := 6
def AVTP_STREAM_FIELD_STREAM_DATA_LEN : Nat := 7
def AVTP_STREAM_FIELD_MAX : Nat := 8

def SHIFT_SV : Nat := 31 - 8
def SHIFT_MR : Nat := 31 - 12
def SHIFT_TV : Nat := 31 - 15
def SHIFT_SEQ_NUM : Nat := 31 - 23
def SHIFT_STREAM_DATA_LEN : Nat := 31 - 15

def MASK_SV : Nat := BITMASK 1 <<< SHIFT_SV
def MASK_MR : Nat := BITMASK 1 <<< SHIFT_MR
def MASK_TV : Nat := BITMASK 1 <<< SHIFT_TV
def MASK_SEQ_NUM : Nat := BITMASK 8 <<< SHIFT_SEQ_NUM
def MASK_TU : Nat := BITMASK 1
def MASK_STREAM_DATA_LEN : Nat := BITMASK 16 <<< SHIFT_STREAM_DATA_LEN

/-- The `(mask, shift, word)` triples enumerated identically by the switches
of `get_field_value` and `set_field_value` in avtp_stream.c. -/
def sel (field : Nat) : Option (Nat × Nat × W32) :=
  if field = AVTP_STREAM_FIELD_SV then some (MASK_SV, SHIFT_SV, .std)
  else if field = AVTP_STREAM_FIELD_MR then some (MASK_MR, SHIFT_MR, .std)
  else if field = AVTP_STREAM_FIELD_TV then some (MASK_TV, SHIFT_TV, .std)
  else if field = AVTP_STREAM_FIELD_SEQ_NUM then
    some (MASK_SEQ_NUM, SHIFT_SEQ_NUM, .std)
  else if field = AVTP_STREAM_FIELD_TU then some (MASK_TU, 0, .std)
  else if field = AVTP_STREAM_FIELD_STREAM_DATA_LEN then
    some (MASK_STREAM_DATA_LEN, SHIFT_STREAM_DATA_LEN, .pi)
  else none

def get_field_value (pdu : StreamPdu) (field : Nat) : Option Nat :=
  match sel field with
  | some (mask, shift, w) => some (BITMAP_GET_VALUE (getW pdu w) mask shift)
  | none => none

def avtp_stream_pdu_get (pdu : Option StreamPdu) (field : Nat) : Option Nat :=
  match pdu with
  | none => none
  | some pdu =>
    if field = AVTP_STREAM_FIELD_SV ∨ field = AVTP_STREAM_FIELD_MR
        ∨ field = AVTP_STREAM_FIELD_TV ∨ field = AVTP_STREAM_FIELD_SEQ_NUM
        ∨ field = AVTP_STREAM_FIELD_TU
        ∨ field = AVTP_STREAM_FIELD_STREAM_DATA_LEN then
      get_field_value pdu field
    else if field = AVTP_STREAM_FIELD_TIMESTAMP then some pdu.avtp_time
    else if field = AVTP_STREAM_FIELD_STREAM_ID then some pdu.stream_id
    else none

def set_field_value (pdu : StreamPdu) (field val : Nat) : Int × StreamPdu :=
  match sel field with
  | some (mask, shift, w) =>
      (0, setW pdu w (BITMAP_SET_VALUE 32 (getW pdu w) val mask shift))
  | none => (-EINVAL, pdu)

def avtp_stream_pdu_set (pdu : Option StreamPdu) (field val : Nat) :
    Int × Option StreamPdu :=
  match pdu with
  | none => (-EINVAL, none)
  | some pdu =>
    if field = AVTP_STREAM_FIELD_SV ∨ field = AVTP_STREAM_FIELD_MR
        ∨ field = AVTP_STREAM_FIELD_TV ∨ field = AVTP_STREAM_FIELD_SEQ_NUM
        ∨ field = AVTP_STREAM_FIELD_TU
        ∨ field = AVTP_STREAM_FIELD_STREAM_DATA_LEN then
      ((set_field_value pdu field val).1, some (set_field_value pdu field val).2)
    else if field = AVTP_STREAM_FIELD_TIMESTAMP then
      (0, some { pdu with avtp_time := val % 2 ^ 32 })
    else if field = AVTP_STREAM_FIELD_STREAM_ID then
      (0, some { pdu with stream_id := val % 2 ^ 64 })
    else (-EINVAL, some pdu)

/-- Registry view of the stream fields (proof infrastructure). -/
def descOf (field : Nat) : Desc :=
  if field = 0 then .b32 .std MASK_SV SHIFT_SV 1
  else if field = 1 then .b32 .std MASK_MR SHIFT_MR 1
  else if field = 2 then .b32 .std MASK_TV SHIFT_TV 1
  else if field = 3 then .b32 .std MASK_SEQ_NUM SHIFT_SEQ_NUM 8
  else if field = 4 then .b32 .std MASK_TU 0 1
  else if field = 5 then .sid
  else if field = 6 then .dir32 .time
  else .b32 .pi MASK_STREAM_DATA_LEN SHIFT_STREAM_DATA_LEN 16

theorem stream_get_char (p : StreamPdu) (f : Nat) (hf : f < 8) :
    avtp_stream_pdu_get (some p) f = some (descGet p (descOf f)) := by
  interval_cases f <;> rfl

theorem stream_set_char (p : StreamPdu) (f v : Nat) (hf : f < 8) :
    avtp_stream_pdu_set (some p) f v = (0, some (descSet p v (descOf f))) := by
  interval_cases f <;> rfl

theorem stream_descOf_wf : ∀ f, f < 8 → descWf (descOf f) = true := by decide

theorem stream_descOf_compat : ∀ f, f < 8 → ∀ g, g < 8 →
    compatible (descOf f) (descOf g) = true := by decide

theorem stream_get_none (p : StreamPdu) (f : Nat) (hf : 8 ≤ f) :
    avtp_stream_pdu_get (some p) f = none := by
  simp only [avtp_stream_pdu_get, AVTP_STREAM_FIELD_SV, AVTP_STREAM_FIELD_MR,
    AVTP_STREAM_FIELD_TV, AVTP_STREAM_FIELD_SEQ_NUM, AVTP_STREAM_FIELD_TU,
    AVTP_STREAM_FIELD_STREAM_DATA_LEN, AVTP_STREAM_FIELD_TIMESTAMP,
    AVTP_STREAM_FIELD_STREAM_ID]
  rw [if_neg (by omega), if_neg (by omega), if_neg (by omega)]

theorem stream_set_none (p : StreamPdu) (f v : Nat) (hf : 8 ≤ f) :
    avtp_stream_pdu_set (some p) f v = (-EINVAL, some p) := by
  simp only [avtp_stream_pdu_set, AVTP_STREAM_FIELD_SV, AVTP_STREAM_FIELD_MR,
    AVTP_STREAM_FIELD_TV, AVTP_STREAM_FIELD_SEQ_NUM, AVTP_STREAM_FIELD_TU,
    AVTP_STREAM_FIELD_STREAM_DATA_LEN, AVTP_STREAM_FIELD_TIMESTAMP,
    AVTP_STREAM_FIELD_STREAM_ID]
  rw [if_neg (by omega), if_neg (by omega), if_neg (by omega)]

end Stream

/-! ## src/avtp_aaf.c

The header `avtp_aaf.h` is not in src/.  Its field enumeration is modelled
from the spec (§9 Polymorphism, and the ordering contract spelled out in
avtp_stream.h): the stream-shared identifiers come first, in the stream
order, so that the value cast to `enum avtp_stream_field` is the numeric
identity; the format-specific identifiers follow in the order of the
switches in avtp_aaf.c. -/

namespace Aaf

def AVTP_AAF_FIELD_SV : Nat := 0
def AVTP_AAF_FIELD_MR : Nat := 1
def AVTP_AAF_FIELD_TV : Nat := 2
def AVTP_AAF_FIELD_SEQ_NUM : Nat := 3
def AVTP_AAF_FIELD_TU : Nat := 4
def AVTP_AAF_FIELD_STREAM_ID : Nat := 5
def AVTP_AAF_FIELD_TIMESTAMP : Nat := 6
def AVTP_AAF_FIELD_STREAM_DATA_LEN : Nat := 7
def AVTP_AAF_FIELD_FORMAT : Nat := 8
def AVTP_AAF_FIELD_NSR : Nat := 9
def AVTP_AAF_FIELD_CHAN_PER_FRAME : Nat := 10
def AVTP_AAF_FIELD_BIT_DEPTH : Nat := 11
def AVTP_AAF_FIELD_SP : Nat := 12
def AVTP_AAF_FIELD_EVT : Nat := 13
def AVTP_AAF_FIELD_MAX : Nat := 14

def SHIFT_FORMAT : Nat := 31 - 7
def SHIFT_NSR : Nat := 31 - 11
def SHIFT_CHAN_PER_FRAME : Nat := 31 - 23
def SHIFT_SP : Nat := 31 - 19
def SHIFT_EVT : Nat := 31 - 23

def MASK_FORMAT : Nat := BITMASK 8 <<< SHIFT_FORMAT
def MASK_NSR : Nat := BITMASK 4 <<< SHIFT_NSR
def MASK_CHAN_PER_FRAME : Nat := BITMASK 10 <<< SHIFT_CHAN_PER_FRAME
def MASK_BIT_DEPTH : Nat := BITMASK 8
def MASK_SP : Nat := BITMASK 1 <<< SHIFT_SP
def MASK_EVT : Nat := BITMASK 4 <<< SHIFT_EVT

/-- The `(mask, shift, word)` triples enumerated identically by the switches
of `get_field_value` and `set_field_value` in avtp_aaf.c. -/
def sel (field : Nat) : Option (Nat × Nat × W32) :=
  if field = AVTP_AAF_FIELD_FORMAT then some (MASK_FORMAT, SHIFT_FORMAT, .fs)
  else if field = AVTP_AAF_FIELD_NSR then some (MASK_NSR, SHIFT_NSR, .fs)
  else if field = AVTP_AAF_FIELD_CHAN_PER_FRAME then
    some (MASK_CHAN_PER_FRAME, SHIFT_CHAN_PER_FRAME, .fs)
  else if field = AVTP_AAF_FIELD_BIT_DEPTH then some (MASK_BIT_DEPTH, 0, .fs)
  else if field = AVTP_AAF_FIELD_SP then some (MASK_SP, SHIFT_SP, .pi)
  else if field = AVTP_AAF_FIELD_EVT then some (MASK_EVT, SHIFT_EVT, .pi)
  else none

def get_field_value (pdu : StreamPdu) (field : Nat) : Option Nat :=
  match sel field with
  | some (mask, shift, w) => some (BITMAP_GET_VALUE (getW pdu w) mask shift)
  | none => none

def avtp_aaf_pdu_get (pdu : Option StreamPdu) (field : Nat) : Option Nat :=
  match pdu with
  | none => none
  | some pdu =>
    if field = AVTP_AAF_FIELD_SV ∨ field = AVTP_AAF_FIELD_MR
        ∨ field = AVTP_AAF_FIELD_TV ∨ field = AVTP_AAF_FIELD_SEQ_NUM
        ∨ field = AVTP_AAF_FIELD_TU ∨ field = AVTP_AAF_FIELD_STREAM_DATA_LEN
        ∨ field = AVTP_AAF_FIELD_TIMESTAMP
        ∨ field = AVTP_AAF_FIELD_STREAM_ID then
      Stream.avtp_stream_pdu_get (some pdu) field
    else if field = AVTP_AAF_FIELD_FORMAT ∨ field = AVTP_AAF_FIELD_NSR
        ∨ field = AVTP_AAF_FIELD_CHAN_PER_FRAME
        ∨ field = AVTP_AAF_FIELD_BIT_DEPTH ∨ field = AVTP_AAF_FIELD_SP
        ∨ field = AVTP_AAF_FIELD_EVT then
      get_field_value pdu field
    else none

/-- The `val` parameter is `uint32_t`: the caller's 64-bit value is truncated
at the call boundary. -/
def set_field_value (pdu : StreamPdu) (field val : Nat) : Int × StreamPdu :=
  let val := val % 2 ^ 32
  match sel field with
  | some (mask, shift, w) =>
      (0, setW pdu w (BITMAP_SET_VALUE 32 (getW pdu w) val mask shift))
  | none => (-EINVAL, pdu)

def avtp_aaf_pdu_set (pdu : Option StreamPdu) (field val : Nat) :
    Int × Option StreamPdu :=
  match pdu with
  | none => (-EINVAL, none)
  | some pdu =>
    if field = AVTP_AAF_FIELD_SV ∨ field = AVTP_AAF_FIELD_MR
        ∨ field = AVTP_AAF_FIELD_TV ∨ field = AVTP_AAF_FIELD_SEQ_NUM
        ∨ field = AVTP_AAF_FIELD_TU ∨ field = AVTP_AAF_FIELD_STREAM_DATA_LEN
        ∨ field = AVTP_AAF_FIELD_TIMESTAMP
        ∨ field = AVTP_AAF_FIELD_STREAM_ID then
      Stream.avtp_stream_pdu_set (some pdu) field val
    else if field = AVTP_AAF_FIELD_FORMAT ∨ field = AVTP_AAF_FIELD_NSR
        ∨ field = AVTP_AAF_FIELD_CHAN_PER_FRAME
        ∨ field = AVTP_AAF_FIELD_BIT_DEPTH ∨ field = AVTP_AAF_FIELD_SP
        ∨ field = AVTP_AAF_FIELD_EVT then
      ((set_field_value pdu field val).1, some (set_field_value pdu field val).2)
    else (-EINVAL, some pdu)

def avtp_aaf_pdu_init (pdu : Option StreamPdu) : Int × Option StreamPdu :=
  match pdu with
  | none => (-EINVAL, none)
  | some pdu =>
    let pdu := memsetStream pdu
    let pdu := { pdu with
      subtype_data := avtp_pdu_set_subtype pdu.subtype_data AVTP_SUBTYPE_AAF }
    match avtp_aaf_pdu_set (some pdu) AVTP_AAF_FIELD_SV 1 with
    | (res, q) => if res < 0 then (res, q) else (0, q)

/-- Registry view of the AAF fields (proof infrastructure). -/
def descOf (field : Nat) : Desc :=
  if field < 8 then Stream.descOf field
  else if field = 8 then .b32 .fs MASK_FORMAT SHIFT_FORMAT 8
  else if field = 9 then .b32 .fs MASK_NSR SHIFT_NSR 4
  else if field = 10 then .b32 .fs MASK_CHAN_PER_FRAME SHIFT_CHAN_PER_FRAME 10
  else if field = 11 then .b32 .fs MASK_BIT_DEPTH 0 8
  else if field = 12 then .b32 .pi MASK_SP SHIFT_SP 1
  else .b32 .pi MASK_EVT SHIFT_EVT 4

theorem aaf_get_char (p : StreamPdu) (f : Nat) (hf : f < 14) :
    avtp_aaf_pdu_get (some p) f = some (descGet p (descOf f)) := by
  interval_cases f <;> rfl

theorem aaf_set_char (p : StreamPdu) (f v : Nat) (hf : f < 14) :
    avtp_aaf_pdu_set (some p) f v = (0, some (descSet p v (descOf f))) := by
  interval_cases f
  · rfl
  · rfl
  · rfl
  · rfl
  · rfl
  · rfl
  · rfl
  · rfl
  · exact congrArg (fun x => ((0 : Int), some (setW p .fs x)))
      (setValue_value_mod 32 (getW p .fs) v MASK_FORMAT SHIFT_FORMAT (by decide))
  · exact congrArg (fun x => ((0 : Int), some (setW p .fs x)))
      (setValue_value_mod 32 (getW p .fs) v MASK_NSR SHIFT_NSR (by decide))
  · exact congrArg (fun x => ((0 : Int), some (setW p .fs x)))
      (setValue_value_mod 32 (getW p .fs) v MASK_CHAN_PER_FRAME
        SHIFT_CHAN_PER_FRAME (by decide))
  · exact congrArg (fun x => ((0 : Int), some (setW p .fs x)))
      (setValue_value_mod 32 (getW p .fs) v MASK_BIT_DEPTH 0 (by decide))
  · exact congrArg (fun x => ((0 : Int), some (setW p .pi x)))
      (setValue_value_mod 32 (getW p .pi) v MASK_SP SHIFT_SP (by decide))
  · exact congrArg (fun x => ((0 : Int), some (setW p .pi x)))
      (setValue_value_mod 32 (getW p .pi) v MASK_EVT SHIFT_EVT (by decide))

theorem aaf_descOf_wf : ∀ f, f < 14 → descWf (descOf f) = true := by decide

theorem aaf_descOf_compat : ∀ f, f < 14 → ∀ g, g < 14 →
    compatible (descOf f) (descOf g) = true := by decide

theorem aaf_get_none (p : StreamPdu) (f : Nat) (hf : 14 ≤ f) :
    avtp_aaf_pdu_get (some p) f = none := by
  simp only [avtp_aaf_pdu_get, AVTP_AAF_FIELD_SV, AVTP_AAF_FIELD_MR,
    AVTP_AAF_FIELD_TV, AVTP_AAF_FIELD_SEQ_NUM, AVTP_AAF_FIELD_TU,
    AVTP_AAF_FIELD_STREAM_DATA_LEN, AVTP_AAF_FIELD_TIMESTAMP,
    AVTP_AAF_FIELD_STREAM_ID, AVTP_AAF_FIELD_FORMAT, AVTP_AAF_FIELD_NSR,
    AVTP_AAF_FIELD_CHAN_PER_FRAME, AVTP_AAF_FIELD_BIT_DEPTH,
    AVTP_AAF_FIELD_SP, AVTP_AAF_FIELD_EVT]
  rw [if_neg (by omega), if_neg (by omega)]

theorem aaf_set_none (p : StreamPdu) (f v : Nat) (hf : 14 ≤ f) :
    avtp_aaf_pdu_set (some p) f v = (-EINVAL, some p) := by
  simp only [avtp_aaf_pdu_set, AVTP_AAF_FIELD_SV, AVTP_AAF_FIELD_MR,
    AVTP_AAF_FIELD_TV, AVTP_AAF_FIELD_SEQ_NUM, AVTP_AAF_FIELD_TU,
    AVTP_AAF_FIELD_STREAM_DATA_LEN, AVTP_AAF_FIELD_TIMESTAMP,
    AVTP_AAF_FIELD_STREAM_ID, AVTP_AAF_FIELD_FORMAT, AVTP_AAF_FIELD_NSR,
    AVTP_AAF_FIELD_CHAN_PER_FRAME, AVTP_AAF_FIELD_BIT_DEPTH,
    AVTP_AAF_FIELD_SP, AVTP_AAF_FIELD_EVT]
  rw [if_neg (by omega), if_neg (by omega)]

theorem aaf_init_char (p : StreamPdu) :
    avtp_aaf_pdu_init (some p)
      = (0, some (StreamPdu.mk 0x02800000 0 0 0 0 p.pay0 p.pay1)) := by
  have h : BITMAP_SET_VALUE 32 (avtp_pdu_set_subtype 0 AVTP_SUBTYPE_AAF) 1
      Stream.MASK_SV Stream.SHIFT_SV = 0x02800000 := by decide
  simp only [avtp_aaf_pdu_init, memsetStream]
  rw [aaf_set_char _ _ 1 (by decide)]
  simp [descOf, Stream.descOf, descSet, getW, setW, AVTP_AAF_FIELD_SV, h]

end Aaf

/-! ## src/avtp_cvf.c

Field identifiers numbered as in include/avtp_cvf.h. -/

namespace Cvf

def AVTP_CVF_FIELD_SV : Nat := 0
def AVTP_CVF_FIELD_MR : Nat := 1
def AVTP_CVF_FIELD_TV : Nat := 2
def AVTP_CVF_FIELD_SEQ_NUM : Nat := 3
def AVTP_CVF_FIELD_TU : Nat := 4
def AVTP_CVF_FIELD_STREAM_ID : Nat := 5
def AVTP_CVF_FIELD_TIMESTAMP : Nat := 6
def AVTP_CVF_FIELD_STREAM_DATA_LEN : Nat := 7
def AVTP_CVF_FIELD_FORMAT : Nat := 8
def AVTP_CVF_FIELD_FORMAT_SUBTYPE : Nat := 9
def AVTP_CVF_FIELD_M : Nat := 10
def AVTP_CVF_FIELD_EVT : Nat := 11
def AVTP_CVF_FIELD_H264_PTV : Nat := 12
def AVTP_CVF_FIELD_H264_TIMESTAMP : Nat := 13
def AVTP_CVF_FIELD_MAX : Nat := 14

def AVTP_CVF_FORMAT_RFC : Nat := 0x02
def AVTP_CVF_FORMAT_SUBTYPE_MJPEG : Nat := 0x00
def AVTP_CVF_FORMAT_SUBTYPE_H264 : Nat := 0x01
def AVTP_CVF_FORMAT_SUBTYPE_JPEG2000 : Nat := 0x02

def SHIFT_FORMAT : Nat := 31 - 7
def SHIFT_FORMAT_SUBTYPE : Nat := 31 - 15
def SHIFT_M : Nat := 31 - 19
def SHIFT_EVT : Nat := 31 - 23
def SHIFT_PTV : Nat := 31 - 18

def MASK_FORMAT : Nat := BITMASK 8 <<< SHIFT_FORMAT
def MASK_FORMAT_SUBTYPE : Nat := BITMASK 8 <<< SHIFT_FORMAT_SUBTYPE
def MASK_M : Nat := BITMASK 1 <<< SHIFT_M
def MASK_EVT : Nat := BITMASK 4 <<< SHIFT_EVT
def MASK_PTV : Nat := BITMASK 1 <<< SHIFT_PTV

/-- The `(mask, shift, word)` triples enumerated identically by the switches
of `get_field_value` and `set_field_value` in avtp_cvf.c. -/
def sel (field : Nat) : Option (Nat × Nat × W32) :=
  if field = AVTP_CVF_FIELD_FORMAT then some (MASK_FORMAT, SHIFT_FORMAT, .fs)
  else if field = AVTP_CVF_FIELD_FORMAT_SUBTYPE then
    some (MASK_FORMAT_SUBTYPE, SHIFT_FORMAT_SUBTYPE, .fs)
  else if field = AVTP_CVF_FIELD_M then some (MASK_M, SHIFT_M, .pi)
  else if field = AVTP_CVF_FIELD_EVT then some (MASK_EVT, SHIFT_EVT, .pi)
  else if field = AVTP_CVF_FIELD_H264_PTV then some (MASK_PTV, SHIFT_PTV, .pi)
  else none

def get_field_value (pdu : StreamPdu) (field : Nat) : Option Nat :=
  match sel field with
  | some (mask, shift, w) => some (BITMAP_GET_VALUE (getW pdu w) mask shift)
  | none => none

def avtp_cvf_pdu_get (pdu : Option StreamPdu) (field : Nat) : Option Nat :=
  match pdu with
  | none => none
  | some pdu =>
    if field = AVTP_CVF_FIELD_SV ∨ field = AVTP_CVF_FIELD_MR
        ∨ field = AVTP_CVF_FIELD_TV ∨ field = AVTP_CVF_FIELD_SEQ_NUM
        ∨ field = AVTP_CVF_FIELD_TU ∨ field = AVTP_CVF_FIELD_STREAM_DATA_LEN
        ∨ field = AVTP_CVF_FIELD_TIMESTAMP
        ∨ field = AVTP_CVF_FIELD_STREAM_ID then
      Stream.avtp_stream_pdu_get (some pdu) field
    else if field = AVTP_CVF_FIELD_FORMAT ∨ field = AVTP_CVF_FIELD_FORMAT_SUBTYPE
        ∨ field = AVTP_CVF_FIELD_M ∨ field = AVTP_CVF_FIELD_EVT
        ∨ field = AVTP_CVF_FIELD_H264_PTV then
      get_field_value pdu field
    else if field = AVTP_CVF_FIELD_H264_TIMESTAMP then
      -- this field lives on the H.264 header, inside avtp_payload
      some (getW pdu .p0)
    else none

/-- The `val` parameter is `uint32_t`: the caller's 64-bit value is truncated
at the call boundary. -/
def set_field_value (pdu : StreamPdu) (field val : Nat) : Int × StreamPdu :=
  let val := val % 2 ^ 32
  match sel field with
  | some (mask, shift, w) =>
      (0, setW pdu w (BITMAP_SET_VALUE 32 (getW pdu w) val mask shift))
  | none => (-EINVAL, pdu)

def avtp_cvf_pdu_set (pdu : Option StreamPdu) (field val : Nat) :
    Int × Option StreamPdu :=
  match pdu with
  | none => (-EINVAL, none)
  | some pdu =>
    if field = AVTP_CVF_FIELD_SV ∨ field = AVTP_CVF_FIELD_MR
        ∨ field = AVTP_CVF_FIELD_TV ∨ field = AVTP_CVF_FIELD_SEQ_NUM
        ∨ field = AVTP_CVF_FIELD_TU ∨ field = AVTP_CVF_FIELD_STREAM_DATA_LEN
        ∨ field = AVTP_CVF_FIELD_TIMESTAMP
        ∨ field = AVTP_CVF_FIELD_STREAM_ID then
      Stream.avtp_stream_pdu_set (some pdu) field val
    else if field = AVTP_CVF_FIELD_FORMAT ∨ field = AVTP_CVF_FIELD_FORMAT_SUBTYPE
        ∨ field = AVTP_CVF_FIELD_M ∨ field = AVTP_CVF_FIELD_EVT
        ∨ field = AVTP_CVF_FIELD_H264_PTV then
      ((set_field_value pdu field val).1, some (set_field_value pdu field val).2)
    else if field = AVTP_CVF_FIELD_H264_TIMESTAMP then
      -- pay->h264_header = htonl(val): `htonl` takes uint32_t
      (0, some (setW pdu .p0 (val % 2 ^ 32)))
    else (-EINVAL, some pdu)

def avtp_cvf_pdu_init (pdu : Option StreamPdu) (subtype : Nat) :
    Int × Option StreamPdu :=
  match pdu with
  | none => (-EINVAL, none)
  | some pdu =>
    if subtype > AVTP_CVF_FORMAT_SUBTYPE_JPEG2000 then (-EINVAL, some pdu)
    else
      let pdu := memsetStream pdu
      let pdu := { pdu with
        subtype_data := avtp_pdu_set_subtype pdu.subtype_data AVTP_SUBTYPE_CVF }
      match avtp_cvf_pdu_set (some pdu) AVTP_CVF_FIELD_SV 1 with
      | (res, q) =>
        if res < 0 then (res, q)
        else
          match avtp_cvf_pdu_set q AVTP_CVF_FIELD_FORMAT AVTP_CVF_FORMAT_RFC with
          | (res, q) =>
            if res < 0 then (res, q)
            else
              match avtp_cvf_pdu_set q AVTP_CVF_FIELD_FORMAT_SUBTYPE subtype with
              | (res, q) => if res < 0 then (res, q) else (0, q)

/-- Registry view of the CVF fields (proof infrastructure). -/
def descOf (field : Nat) : Desc :=
  if field < 8 then Stream.descOf field
  else if field = 8 then .b32 .fs MASK_FORMAT SHIFT_FORMAT 8
  else if field = 9 then .b32 .fs MASK_FORMAT_SUBTYPE SHIFT_FORMAT_SUBTYPE 8
  else if field = 10 then .b32 .pi MASK_M SHIFT_M 1
  else if field = 11 then .b32 .pi MASK_EVT SHIFT_EVT 4
  else if field = 12 then .b32 .pi MASK_PTV SHIFT_PTV 1
  else .dir32 .p0

theorem cvf_get_char (p : StreamPdu) (f : Nat) (hf : f < 14) :
    avtp_cvf_pdu_get (some p) f = some (descGet p (descOf f)) := by
  interval_cases f <;> rfl

theorem cvf_set_char (p : StreamPdu) (f v : Nat) (hf : f < 14) :
    avtp_cvf_pdu_set (some p) f v = (0, some (descSet p v (descOf f))) := by
  interval_cases f
  · rfl
  · rfl
  · rfl
  · rfl
  · rfl
  · rfl
  · rfl
  · rfl
  · exact congrArg (fun x => ((0 : Int), some (setW p .fs x)))
      (setValue_value_mod 32 (getW p .fs) v MASK_FORMAT SHIFT_FORMAT (by decide))
  · exact congrArg (fun x => ((0 : Int), some (setW p .fs x)))
      (setValue_value_mod 32 (getW p .fs) v MASK_FORMAT_SUBTYPE
        SHIFT_FORMAT_SUBTYPE (by decide))
  · exact congrArg (fun x => ((0 : Int), some (setW p .pi x)))
      (setValue_value_mod 32 (getW p .pi) v MASK_M SHIFT_M (by decide))
  · exact congrArg (fun x => ((0 : Int), some (setW p .pi x)))
      (setValue_value_mod 32 (getW p .pi) v MASK_EVT SHIFT_EVT (by decide))
  · exact congrArg (fun x => ((0 : Int), some (setW p .pi x)))
      (setValue_value_mod 32 (getW p .pi) v MASK_PTV SHIFT_PTV (by decide))
  · rfl

theorem cvf_descOf_wf : ∀ f, f < 14 → descWf (descOf f) = true := by decide

theorem cvf_descOf_compat : ∀ f, f < 14 → ∀ g, g < 14 →
    compatible (descOf f) (descOf g) = true := by decide

theorem cvf_get_none (p : StreamPdu) (f : Nat) (hf : 14 ≤ f) :
    avtp_cvf_pdu_get (some p) f = none := by
  simp only [avtp_cvf_pdu_get, AVTP_CVF_FIELD_SV, AVTP_CVF_FIELD_MR,
    AVTP_CVF_FIELD_TV, AVTP_CVF_FIELD_SEQ_NUM, AVTP_CVF_FIELD_TU,
    AVTP_CVF_FIELD_STREAM_DATA_LEN, AVTP_CVF_FIELD_TIMESTAMP,
    AVTP_CVF_FIELD_STREAM_ID, AVTP_CVF_FIELD_FORMAT,
    AVTP_CVF_FIELD_FORMAT_SUBTYPE, AVTP_CVF_FIELD_M, AVTP_CVF_FIELD_EVT,
    AVTP_CVF_FIELD_H264_PTV, AVTP_CVF_FIELD_H264_TIMESTAMP]
  rw [if_neg (by omega), if_neg (by omega), if_neg (by omega)]

theorem cvf_set_none (p : StreamPdu) (f v : Nat) (hf : 14 ≤ f) :
    avtp_cvf_pdu_set (some p) f v = (-EINVAL, some p) := by
  simp only [avtp_cvf_pdu_set, AVTP_CVF_FIELD_SV, AVTP_CVF_FIELD_MR,
    AVTP_CVF_FIELD_TV, AVTP_CVF_FIELD_SEQ_NUM, AVTP_CVF_FIELD_TU,
    AVTP_CVF_FIELD_STREAM_DATA_LEN, AVTP_CVF_FIELD_TIMESTAMP,
    AVTP_CVF_FIELD_STREAM_ID, AVTP_CVF_FIELD_FORMAT,
    AVTP_CVF_FIELD_FORMAT_SUBTYPE, AVTP_CVF_FIELD_M, AVTP_CVF_FIELD_EVT,
    AVTP_CVF_FIELD_H264_PTV, AVTP_CVF_FIELD_H264_TIMESTAMP]
  rw [if_neg (by omega), if_neg (by omega), if_neg (by omega)]

theorem cvf_init_step1 (p : StreamPdu) :
    descSet (StreamPdu.mk (avtp_pdu_set_subtype 0 AVTP_SUBTYPE_CVF)
        0 0 0 0 p.pay0 p.pay1) 1 (descOf AVTP_CVF_FIELD_SV)
      = StreamPdu.mk 0x03800000 0 0 0 0 p.pay0 p.pay1 := by
  have h1 : BITMAP_SET_VALUE 32 (avtp_pdu_set_subtype 0 AVTP_SUBTYPE_CVF) 1
      Stream.MASK_SV Stream.SHIFT_SV = 0x03800000 := by decide
  simp [descOf, Stream.descOf, descSet, getW, setW, AVTP_CVF_FIELD_SV, h1]

theorem cvf_init_step2 (p : StreamPdu) :
    descSet (StreamPdu.mk 0x03800000 0 0 0 0 p.pay0 p.pay1)
        AVTP_CVF_FORMAT_RFC (descOf AVTP_CVF_FIELD_FORMAT)
      = StreamPdu.mk 0x03800000 0 0 0x02000000 0 p.pay0 p.pay1 := by
  have h2 : BITMAP_SET_VALUE 32 0 AVTP_CVF_FORMAT_RFC MASK_FORMAT
      SHIFT_FORMAT = 0x02000000 := by decide
  simp [descOf, descSet, getW, setW, AVTP_CVF_FIELD_FORMAT, h2]

theorem cvf_init_step3 (p : StreamPdu) (st : Nat) (hst : st ≤ 2) :
    descSet (StreamPdu.mk 0x03800000 0 0 0x02000000 0 p.pay0 p.pay1)
        st (descOf AVTP_CVF_FIELD_FORMAT_SUBTYPE)
      = StreamPdu.mk 0x03800000 0 0 (0x02000000 ||| (st <<< 16)) 0
          p.pay0 p.pay1 := by
  have h3 : ∀ t, t ≤ 2 → BITMAP_SET_VALUE 32 0x02000000 t
      MASK_FORMAT_SUBTYPE SHIFT_FORMAT_SUBTYPE
      = 0x02000000 ||| (t <<< 16) := by decide
  simp [descOf, descSet, getW, setW, AVTP_CVF_FIELD_FORMAT_SUBTYPE, h3 st hst]

theorem cvf_init_char (p : StreamPdu) (st : Nat) (hst : st ≤ 2) :
    avtp_cvf_pdu_init (some p) st
      = ((0 : Int), some (StreamPdu.mk 0x03800000 0 0
          (0x02000000 ||| (st <<< 16)) 0 p.pay0 p.pay1)) := by
  have hs1 : avtp_cvf_pdu_set (some (StreamPdu.mk
        (avtp_pdu_set_subtype 0 AVTP_SUBTYPE_CVF) 0 0 0 0 p.pay0 p.pay1))
        AVTP_CVF_FIELD_SV 1
      = ((0 : Int), some (StreamPdu.mk 0x03800000 0 0 0 0 p.pay0 p.pay1)) := by
    rw [cvf_set_char _ AVTP_CVF_FIELD_SV 1 (by decide), cvf_init_step1]
  have hs2 : avtp_cvf_pdu_set (some (StreamPdu.mk 0x03800000 0 0 0 0
        p.pay0 p.pay1)) AVTP_CVF_FIELD_FORMAT AVTP_CVF_FORMAT_RFC
      = ((0 : Int), some (StreamPdu.mk 0x03800000 0 0 0x02000000 0
          p.pay0 p.pay1)) := by
    rw [cvf_set_char _ AVTP_CVF_FIELD_FORMAT AVTP_CVF_FORMAT_RFC (by decide),
      cvf_init_step2]
  have hs3 : avtp_cvf_pdu_set (some (StreamPdu.mk 0x03800000 0 0 0x02000000 0
        p.pay0 p.pay1)) AVTP_CVF_FIELD_FORMAT_SUBTYPE st
      = ((0 : Int), some (StreamPdu.mk 0x03800000 0 0
          (0x02000000 ||| (st <<< 16)) 0 p.pay0 p.pay1)) := by
    rw [cvf_set_char _ AVTP_CVF_FIELD_FORMAT_SUBTYPE st (by decide),
      cvf_init_step3 p st hst]
  simp only [avtp_cvf_pdu_init, memsetStream]
  rw [if_neg (by simp only [AVTP_CVF_FORMAT_SUBTYPE_JPEG2000]; omega)]
  rw [hs1]
  simp only [hs2, hs3]
  norm_num

end Cvf

/-! ## src/avtp_ieciidc.c

Field identifiers numbered as in include/avtp_ieciidc.h.  The CIP header
words `cip_1`/`cip_2` are the first two 32-bit words of `avtp_payload`
(`pay0`/`pay1`). -/

namespace Ieciidc

def AVTP_IECIIDC_FIELD_SV : Nat := 0
def AVTP_IECIIDC_FIELD_MR : Nat := 1
def AVTP_IECIIDC_FIELD_TV : Nat := 2
def AVTP_IECIIDC_FIELD_SEQ_NUM : Nat := 3
def AVTP_IECIIDC_FIELD_TU : Nat := 4
def AVTP_IECIIDC_FIELD_STREAM_ID : Nat := 5
def AVTP_IECIIDC_FIELD_TIMESTAMP : Nat := 6
def AVTP_IECIIDC_FIELD_STREAM_DATA_LEN : Nat := 7
def AVTP_IECIIDC_FIELD_GV : Nat := 8
def AVTP_IECIIDC_FIELD_GATEWAY_INFO : Nat := 9
def AVTP_IECIIDC_FIELD_TAG : Nat := 10
def AVTP_IECIIDC_FIELD_CHANNEL : Nat := 11
def AVTP_IECIIDC_FIELD_TCODE : Nat := 12
def AVTP_IECIIDC_FIELD_SY : Nat := 13
def AVTP_IECIIDC_FIELD_CIP_QI_1 : Nat := 14
def AVTP_IECIIDC_FIELD_CIP_QI_2 : Nat := 15
def AVTP_IECIIDC_FIELD_CIP_SID : Nat := 16
def AVTP_IECIIDC_FIELD_CIP_DBS : Nat := 17
def AVTP_IECIIDC_FIELD_CIP_FN : Nat := 18
def AVTP_IECIIDC_FIELD_CIP_QPC : Nat := 19
def AVTP_IECIIDC_FIELD_CIP_SPH : Nat := 20
def AVTP_IECIIDC_FIELD_CIP_DBC : Nat := 21
def AVTP_IECIIDC_FIELD_CIP_FMT : Nat := 22
def AVTP_IECIIDC_FIELD_CIP_SYT : Nat := 23
def AVTP_IECIIDC_FIELD_CIP_TSF : Nat := 24
def AVTP_IECIIDC_FIELD_CIP_EVT : Nat := 25
def AVTP_IECIIDC_FIELD_CIP_SFC : Nat := 26
def AVTP_IECIIDC_FIELD_CIP_N : Nat := 27
def AVTP_IECIIDC_FIELD_CIP_ND : Nat := 28
def AVTP_IECIIDC_FIELD_CIP_NO_DATA : Nat := 29
def AVTP_IECIIDC_FIELD_MAX : Nat := 30

def SHIFT_GV : Nat := 31 - 14
def SHIFT_TAG : Nat := 31 - 17
def SHIFT_CHANNEL : Nat := 31 - 23
def SHIFT_TCODE : Nat := 31 - 27
def SHIFT_QI_1 : Nat := 31 - 1
def SHIFT_QI_2 : Nat := 31 - 1
def SHIFT_SID : Nat := 31 - 7
def SHIFT_DBS : Nat := 31 - 15
def SHIFT_FN : Nat := 31 - 17
def SHIFT_QPC : Nat := 31 - 20
def SHIFT_SPH : Nat := 31 - 21
def SHIFT_FMT : Nat := 31 - 7
def SHIFT_TSF : Nat := 31 - 8
def SHIFT_EVT : Nat := 31 - 11
def SHIFT_SFC : Nat := 31 - 15
def SHIFT_N : Nat := 31 - 12
def SHIFT_NO_DATA : Nat := 31 - 15
def SHIFT_ND : Nat := 31 - 8

def MASK_GV : Nat := BITMASK 1 <<< SHIFT_GV
def MASK_TAG : Nat := BITMASK 2 <<< SHIFT_TAG
def MASK_CHANNEL : Nat := BITMASK 6 <<< SHIFT_CHANNEL
def MASK_TCODE : Nat := BITMASK 4 <<< SHIFT_TCODE
def MASK_SY : Nat := BITMASK 4
def MASK_QI_1 : Nat := BITMASK 2 <<< SHIFT_QI_1
def MASK_QI_2 : Nat := BITMASK 2 <<< SHIFT_QI_2
def MASK_SID : Nat := BITMASK 6 <<< SHIFT_SID
def MASK_DBS : Nat := BITMASK 8 <<< SHIFT_DBS
def MASK_FN : Nat := BITMASK 2 <<< SHIFT_FN
def MASK_QPC : Nat := BITMASK 3 <<< SHIFT_QPC
def MASK_SPH : Nat := BITMASK 1 <<< SHIFT_SPH
def MASK_DBC : Nat := BITMASK 8
def MASK_FMT : Nat := BITMASK 6 <<< SHIFT_FMT
def MASK_SYT : Nat := BITMASK 16
def MASK_TSF : Nat := BITMASK 1 <<< SHIFT_TSF
def MASK_EVT : Nat := BITMASK 2 <<< SHIFT_EVT
def MASK_SFC : Nat := BITMASK 3 <<< SHIFT_SFC
def MASK_N : Nat := BITMASK 1 <<< SHIFT_N
def MASK_NO_DATA : Nat := BITMASK 8 <<< SHIFT_NO_DATA
def MASK_ND : Nat := BITMASK 1 <<< SHIFT_ND

/-- The `(mask, shift, word)` triples enumerated identically by the switches
of `get_field_value` and `set_field_value` in avtp_ieciidc.c. -/
def sel (field : Nat) : Option (Nat × Nat × W32) :=
  if field = AVTP_IECIIDC_FIELD_GV then some (MASK_GV, SHIFT_GV, .std)
  else if field = AVTP_IECIIDC_FIELD_TAG then some (MASK_TAG, SHIFT_TAG, .pi)
  else if field = AVTP_IECIIDC_FIELD_CHANNEL then
    some (MASK_CHANNEL, SHIFT_CHANNEL, .pi)
  else if field = AVTP_IECIIDC_FIELD_TCODE then
    some (MASK_TCODE, SHIFT_TCODE, .pi)
  else if field = AVTP_IECIIDC_FIELD_SY then some (MASK_SY, 0, .pi)
  else if field = AVTP_IECIIDC_FIELD_CIP_QI_1 then
    some (MASK_QI_1, SHIFT_QI_1, .p0)
  else if field = AVTP_IECIIDC_FIELD_CIP_QI_2 then
    some (MASK_QI_2, SHIFT_QI_2, .p1)
  else if field = AVTP_IECIIDC_FIELD_CIP_SID then
    some (MASK_SID, SHIFT_SID, .p0)
  else if field = AVTP_IECIIDC_FIELD_CIP_DBS then
    some (MASK_DBS, SHIFT_DBS, .p0)
  else if field = AVTP_IECIIDC_FIELD_CIP_FN then some (MASK_FN, SHIFT_FN, .p0)
  else if field = AVTP_IECIIDC_FIELD_CIP_QPC then
    some (MASK_QPC, SHIFT_QPC, .p0)
  else if field = AVTP_IECIIDC_FIELD_CIP_SPH then
    some (MASK_SPH, SHIFT_SPH, .p0)
  else if field = AVTP_IECIIDC_FIELD_CIP_DBC then some (MASK_DBC, 0, .p0)
  else if field = AVTP_IECIIDC_FIELD_CIP_FMT then
    some (MASK_FMT, SHIFT_FMT, .p1)
  else if field = AVTP_IECIIDC_FIELD_CIP_TSF then
    some (MASK_TSF, SHIFT_TSF, .p1)
  else if field = AVTP_IECIIDC_FIELD_CIP_EVT then
    some (MASK_EVT, SHIFT_EVT, .p1)
  else if field = AVTP_IECIIDC_FIELD_CIP_SFC then
    some (MASK_SFC, SHIFT_SFC, .p1)
  else if field = AVTP_IECIIDC_FIELD_CIP_N then some (MASK_N, SHIFT_N, .p1)
  else if field = AVTP_IECIIDC_FIELD_CIP_ND then some (MASK_ND, SHIFT_ND, .p1)
  else if field = AVTP_IECIIDC_FIELD_CIP_NO_DATA then
    some (MASK_NO_DATA, SHIFT_NO_DATA, .p1)
  else if field = AVTP_IECIIDC_FIELD_CIP_SYT then some (MASK_SYT, 0, .p1)
  else none

def get_field_value (pdu : StreamPdu) (field : Nat) : Option Nat :=
  match sel field with
  | some (mask, shift, w) => some (BITMAP_GET_VALUE (getW pdu w) mask shift)
  | none => none

def avtp_ieciidc_pdu_get (pdu : Option StreamPdu) (field : Nat) : Option Nat :=
  match pdu with
  | none => none
  | some pdu =>
    if field = AVTP_IECIIDC_FIELD_SV ∨ field = AVTP_IECIIDC_FIELD_MR
        ∨ field = AVTP_IECIIDC_FIELD_TV ∨ field = AVTP_IECIIDC_FIELD_SEQ_NUM
        ∨ field = AVTP_IECIIDC_FIELD_TU
        ∨ field = AVTP_IECIIDC_FIELD_STREAM_DATA_LEN
        ∨ field = AVTP_IECIIDC_FIELD_TIMESTAMP
        ∨ field = AVTP_IECIIDC_FIELD_STREAM_ID then
      Stream.avtp_stream_pdu_get (some pdu) field
    else if field = AVTP_IECIIDC_FIELD_GV ∨ field = AVTP_IECIIDC_FIELD_TAG
        ∨ field = AVTP_IECIIDC_FIELD_CHANNEL
        ∨ field = AVTP_IECIIDC_FIELD_TCODE ∨ field = AVTP_IECIIDC_FIELD_SY
        ∨ field = AVTP_IECIIDC_FIELD_CIP_QI_1
        ∨ field = AVTP_IECIIDC_FIELD_CIP_QI_2
        ∨ field = AVTP_IECIIDC_FIELD_CIP_SID
        ∨ field = AVTP_IECIIDC_FIELD_CIP_DBS
        ∨ field = AVTP_IECIIDC_FIELD_CIP_FN
        ∨ field = AVTP_IECIIDC_FIELD_CIP_QPC
        ∨ field = AVTP_IECIIDC_FIELD_CIP_SPH
        ∨ field = AVTP_IECIIDC_FIELD_CIP_DBC
        ∨ field = AVTP_IECIIDC_FIELD_CIP_FMT
        ∨ field = AVTP_IECIIDC_FIELD_CIP_TSF
        ∨ field = AVTP_IECIIDC_FIELD_CIP_EVT
        ∨ field = AVTP_IECIIDC_FIELD_CIP_SFC
        ∨ field = AVTP_IECIIDC_FIELD_CIP_N
        ∨ field = AVTP_IECIIDC_FIELD_CIP_ND
        ∨ field = AVTP_IECIIDC_FIELD_CIP_NO_DATA
        ∨ field = AVTP_IECIIDC_FIELD_CIP_SYT then
      get_field_value pdu field
    else if field = AVTP_IECIIDC_FIELD_GATEWAY_INFO then
      some (getW pdu .fs)
    else none

def set_field_value (pdu : StreamPdu) (field value : Nat) : Int × StreamPdu :=
  match sel field with
  | some (mask, shift, w) =>
      (0, setW pdu w (BITMAP_SET_VALUE 32 (getW pdu w) value mask shift))
  | none => (-EINVAL, pdu)

def avtp_ieciidc_pdu_set (pdu : Option StreamPdu) (field value : Nat) :
    Int × Option StreamPdu :=
  match pdu with
  | none => (-EINVAL, none)
  | some pdu =>
    if field = AVTP_IECIIDC_FIELD_SV ∨ field = AVTP_IECIIDC_FIELD_MR
        ∨ field = AVTP_IECIIDC_FIELD_TV ∨ field = AVTP_IECIIDC_FIELD_SEQ_NUM
        ∨ field = AVTP_IECIIDC_FIELD_TU
        ∨ field = AVTP_IECIIDC_FIELD_STREAM_DATA_LEN
        ∨ field = AVTP_IECIIDC_FIELD_TIMESTAMP
        ∨ field = AVTP_IECIIDC_FIELD_STREAM_ID then
      Stream.avtp_stream_pdu_set (some pdu) field value
    else if field = AVTP_IECIIDC_FIELD_GV ∨ field = AVTP_IECIIDC_FIELD_TAG
        ∨ field = AVTP_IECIIDC_FIELD_CHANNEL
        ∨ field = AVTP_IECIIDC_FIELD_TCODE ∨ field = AVTP_IECIIDC_FIELD_SY
        ∨ field = AVTP_IECIIDC_FIELD_CIP_QI_1
        ∨ field = AVTP_IECIIDC_FIELD_CIP_QI_2
        ∨ field = AVTP_IECIIDC_FIELD_CIP_SID
        ∨ field = AVTP_IECIIDC_FIELD_CIP_DBS
        ∨ field = AVTP_IECIIDC_FIELD_CIP_FN
        ∨ field = AVTP_IECIIDC_FIELD_CIP_QPC
        ∨ field = AVTP_IECIIDC_FIELD_CIP_SPH
        ∨ field = AVTP_IECIIDC_FIELD_CIP_DBC
        ∨ field = AVTP_IECIIDC_FIELD_CIP_FMT
        ∨ field = AVTP_IECIIDC_FIELD_CIP_TSF
        ∨ field = AVTP_IECIIDC_FIELD_CIP_EVT
        ∨ field = AVTP_IECIIDC_FIELD_CIP_SFC
        ∨ field = AVTP_IECIIDC_FIELD_CIP_N
        ∨ field = AVTP_IECIIDC_FIELD_CIP_ND
        ∨ field = AVTP_IECIIDC_FIELD_CIP_NO_DATA
        ∨ field = AVTP_IECIIDC_FIELD_CIP_SYT then
      ((set_field_value pdu field value).1, some (set_field_value pdu field value).2)
    else if field = AVTP_IECIIDC_FIELD_GATEWAY_INFO then
      -- pdu->format_specific = htonl(value): `htonl` takes uint32_t
      (0, some (setW pdu .fs (value % 2 ^ 32)))
    else (-EINVAL, some pdu)

def avtp_ieciidc_pdu_init (pdu : Option StreamPdu) (tag : Nat) :
    Int × Option StreamPdu :=
  match pdu with
  | none => (-EINVAL, none)
  | some pdu =>
    if tag > 0x01 then (-EINVAL, some pdu)
    else
      let pdu := memsetStream pdu
      let pdu := { pdu with
        subtype_data :=
          avtp_pdu_set_subtype pdu.subtype_data AVTP_SUBTYPE_61883_IIDC }
      match Stream.avtp_stream_pdu_set (some pdu)
          Stream.AVTP_STREAM_FIELD_SV 1 with
      | (res, q) =>
        if res < 0 then (res, q)
        else
          match avtp_ieciidc_pdu_set q AVTP_IECIIDC_FIELD_TCODE 0x0A with
          | (res, q) =>
            if res < 0 then (res, q)
            else
              match avtp_ieciidc_pdu_set q AVTP_IECIIDC_FIELD_TAG tag with
              | (res, q) => if res < 0 then (res, q) else (0, q)

/-- Registry view of the IEC 61883/IIDC fields (proof infrastructure). -/
def descOf (field : Nat) : Desc :=
  if field < 8 then Stream.descOf field
  else if field = 8 then .b32 .std MASK_GV SHIFT_GV 1
  else if field = 9 then .dir32 .fs
  else if field = 10 then .b32 .pi MASK_TAG SHIFT_TAG 2
  else if field = 11 then .b32 .pi MASK_CHANNEL SHIFT_CHANNEL 6
  else if field = 12 then .b32 .pi MASK_TCODE SHIFT_TCODE 4
  else if field = 13 then .b32 .pi MASK_SY 0 4
  else if field = 14 then .b32 .p0 MASK_QI_1 SHIFT_QI_1 2
  else if field = 15 then .b32 .p1 MASK_QI_2 SHIFT_QI_2 2
  else if field = 16 then .b32 .p0 MASK_SID SHIFT_SID 6
  else if field = 17 then .b32 .p0 MASK_DBS SHIFT_DBS 8
  else if field = 18 then .b32 .p0 MASK_FN SHIFT_FN 2
  else if field = 19 then .b32 .p0 MASK_QPC SHIFT_QPC 3
  else if field = 20 then .b32 .p0 MASK_SPH SHIFT_SPH 1
  else if field = 21 then .b32 .p0 MASK_DBC 0 8
  else if field = 22 then .b32 .p1 MASK_FMT SHIFT_FMT 6
  else if field = 23 then .b32 .p1 MASK_SYT 0 16
  else if field = 24 then .b32 .p1 MASK_TSF SHIFT_TSF 1
  else if field = 25 then .b32 .p1 MASK_EVT SHIFT_EVT 2
  else if field = 26 then .b32 .p1 MASK_SFC SHIFT_SFC 3
  else if field = 27 then .b32 .p1 MASK_N SHIFT_N 1
  else if field = 28 then .b32 .p1 MASK_ND SHIFT_ND 1
  else .b32 .p1 MASK_NO_DATA SHIFT_NO_DATA 8

theorem ieciidc_get_char (p : StreamPdu) (f : Nat) (hf : f < 30) :
    avtp_ieciidc_pdu_get (some p) f = some (descGet p (descOf f)) := by
  interval_cases f <;> rfl

theorem ieciidc_set_char (p : StreamPdu) (f v : Nat) (hf : f < 30) :
    avtp_ieciidc_pdu_set (some p) f v = (0, some (descSet p v (descOf f))) := by
  interval_cases f <;> rfl

theorem ieciidc_descOf_wf : ∀ f, f < 30 → descWf (descOf f) = true := by decide

theorem ieciidc_descOf_compat : ∀ f, f < 30 → ∀ g, g < 30 →
    compatible (descOf f) (descOf g) = true := by decide

theorem ieciidc_get_none (p : StreamPdu) (f : Nat) (hf : 30 ≤ f) :
    avtp_ieciidc_pdu_get (some p) f = none := by
  simp only [avtp_ieciidc_pdu_get, AVTP_IECIIDC_FIELD_SV,
    AVTP_IECIIDC_FIELD_MR, AVTP_IECIIDC_FIELD_TV, AVTP_IECIIDC_FIELD_SEQ_NUM,
    AVTP_IECIIDC_FIELD_TU, AVTP_IECIIDC_FIELD_STREAM_DATA_LEN,
    AVTP_IECIIDC_FIELD_TIMESTAMP, AVTP_IECIIDC_FIELD_STREAM_ID,
    AVTP_IECIIDC_FIELD_GV, AVTP_IECIIDC_FIELD_GATEWAY_INFO,
    AVTP_IECIIDC_FIELD_TAG, AVTP_IECIIDC_FIELD_CHANNEL,
    AVTP_IECIIDC_FIELD_TCODE, AVTP_IECIIDC_FIELD_SY,
    AVTP_IECIIDC_FIELD_CIP_QI_1, AVTP_IECIIDC_FIELD_CIP_QI_2,
    AVTP_IECIIDC_FIELD_CIP_SID, AVTP_IECIIDC_FIELD_CIP_DBS,
    AVTP_IECIIDC_FIELD_CIP_FN, AVTP_IECIIDC_FIELD_CIP_QPC,
    AVTP_IECIIDC_FIELD_CIP_SPH, AVTP_IECIIDC_FIELD_CIP_DBC,
    AVTP_IECIIDC_FIELD_CIP_FMT, AVTP_IECIIDC_FIELD_CIP_TSF,
    AVTP_IECIIDC_FIELD_CIP_EVT, AVTP_IECIIDC_FIELD_CIP_SFC,
    AVTP_IECIIDC_FIELD_CIP_N, AVTP_IECIIDC_FIELD_CIP_ND,
    AVTP_IECIIDC_FIELD_CIP_NO_DATA, AVTP_IECIIDC_FIELD_CIP_SYT]
  rw [if_neg (by omega), if_neg (by omega), if_neg (by omega)]

theorem ieciidc_set_none (p : StreamPdu) (f v : Nat) (hf : 30 ≤ f) :
    avtp_ieciidc_pdu_set (some p) f v = (-EINVAL, some p) := by
  simp only [avtp_ieciidc_pdu_set, AVTP_IECIIDC_FIELD_SV,
    AVTP_IECIIDC_FIELD_MR, AVTP_IECIIDC_FIELD_TV, AVTP_IECIIDC_FIELD_SEQ_NUM,
    AVTP_IECIIDC_FIELD_TU, AVTP_IECIIDC_FIELD_STREAM_DATA_LEN,
    AVTP_IECIIDC_FIELD_TIMESTAMP, AVTP_IECIIDC_FIELD_STREAM_ID,
    AVTP_IECIIDC_FIELD_GV, AVTP_IECIIDC_FIELD_GATEWAY_INFO,
    AVTP_IECIIDC_FIELD_TAG, AVTP_IECIIDC_FIELD_CHANNEL,
    AVTP_IECIIDC_FIELD_TCODE, AVTP_IECIIDC_FIELD_SY,
    AVTP_IECIIDC_FIELD_CIP_QI_1, AVTP_IECIIDC_FIELD_CIP_QI_2,
    AVTP_IECIIDC_FIELD_CIP_SID, AVTP_IECIIDC_FIELD_CIP_DBS,
    AVTP_IECIIDC_FIELD_CIP_FN, AVTP_IECIIDC_FIELD_CIP_QPC,
    AVTP_IECIIDC_FIELD_CIP_SPH, AVTP_IECIIDC_FIELD_CIP_DBC,
    AVTP_IECIIDC_FIELD_CIP_FMT, AVTP_IECIIDC_FIELD_CIP_TSF,
    AVTP_IECIIDC_FIELD_CIP_EVT, AVTP_IECIIDC_FIELD_CIP_SFC,
    AVTP_IECIIDC_FIELD_CIP_N, AVTP_IECIIDC_FIELD_CIP_ND,
    AVTP_IECIIDC_FIELD_CIP_NO_DATA, AVTP_IECIIDC_FIELD_CIP_SYT]
  rw [if_neg (by omega), if_neg (by omega), if_neg (by omega)]

theorem ieciidc_init_step1 (p : StreamPdu) :
    descSet (StreamPdu.mk (avtp_pdu_set_subtype 0 AVTP_SUBTYPE_61883_IIDC)
        0 0 0 0 p.pay0 p.pay1) 1 (Stream.descOf Stream.AVTP_STREAM_FIELD_SV)
      = StreamPdu.mk 0x00800000 0 0 0 0 p.pay0 p.pay1 := by
  have h1 : BITMAP_SET_VALUE 32
      (avtp_pdu_set_subtype 0 AVTP_SUBTYPE_61883_IIDC) 1
      Stream.MASK_SV Stream.SHIFT_SV = 0x00800000 := by decide
  simp [Stream.descOf, descSet, getW, setW, Stream.AVTP_STREAM_FIELD_SV, h1]

theorem ieciidc_init_step2 (p : StreamPdu) :
    descSet (StreamPdu.mk 0x00800000 0 0 0 0 p.pay0 p.pay1)
        0x0A (descOf AVTP_IECIIDC_FIELD_TCODE)
      = StreamPdu.mk 0x00800000 0 0 0 0x000000A0 p.pay0 p.pay1 := by
  have h2 : BITMAP_SET_VALUE 32 0 0x0A MASK_TCODE SHIFT_TCODE
      = 0x000000A0 := by decide
  simp [descOf, descSet, getW, setW, AVTP_IECIIDC_FIELD_TCODE, h2]

theorem ieciidc_init_step3 (p : StreamPdu) (tag : Nat) (ht : tag ≤ 1) :
    descSet (StreamPdu.mk 0x00800000 0 0 0 0x000000A0 p.pay0 p.pay1)
        tag (descOf AVTP_IECIIDC_FIELD_TAG)
      = StreamPdu.mk 0x00800000 0 0 0 (0x000000A0 ||| (tag <<< 14))
          p.pay0 p.pay1 := by
  have h3 : ∀ t, t ≤ 1 → BITMAP_SET_VALUE 32 0x000000A0 t MASK_TAG SHIFT_TAG
      = 0x000000A0 ||| (t <<< 14) := by decide
  simp [descOf, descSet, getW, setW, AVTP_IECIIDC_FIELD_TAG, h3 tag ht]

theorem ieciidc_init_char (p : StreamPdu) (tag : Nat) (ht : tag ≤ 1) :
    avtp_ieciidc_pdu_init (some p) tag
      = ((0 : Int), some (StreamPdu.mk 0x00800000 0 0 0
          (0x000000A0 ||| (tag <<< 14)) p.pay0 p.pay1)) := by
  have hs1 : Stream.avtp_stream_pdu_set (some (StreamPdu.mk
        (avtp_pdu_set_subtype 0 AVTP_SUBTYPE_61883_IIDC) 0 0 0 0
        p.pay0 p.pay1)) Stream.AVTP_STREAM_FIELD_SV 1
      = ((0 : Int), some (StreamPdu.mk 0x00800000 0 0 0 0 p.pay0 p.pay1)) := by
    rw [Stream.stream_set_char _ Stream.AVTP_STREAM_FIELD_SV 1 (by decide),
      ieciidc_init_step1]
  have hs2 : avtp_ieciidc_pdu_set (some (StreamPdu.mk 0x00800000 0 0 0 0
        p.pay0 p.pay1)) AVTP_IECIIDC_FIELD_TCODE 0x0A
      = ((0 : Int), some (StreamPdu.mk 0x00800000 0 0 0 0x000000A0
          p.pay0 p.pay1)) := by
    rw [ieciidc_set_char _ AVTP_IECIIDC_FIELD_TCODE 0x0A (by decide),
      ieciidc_init_step2]
  have hs3 : avtp_ieciidc_pdu_set (some (StreamPdu.mk 0x00800000 0 0 0
        0x000000A0 p.pay0 p.pay1)) AVTP_IECIIDC_FIELD_TAG tag
      = ((0 : Int), some (StreamPdu.mk 0x00800000 0 0 0
          (0x000000A0 ||| (tag <<< 14)) p.pay0 p.pay1)) := by
    rw [ieciidc_set_char _ AVTP_IECIIDC_FIELD_TAG tag (by decide),
      ieciidc_init_step3 p tag ht]
  simp only [avtp_ieciidc_pdu_init, memsetStream]
  rw [if_neg (by omega)]
  rw [hs1]
  simp only [hs2, hs3]
  norm_num

end Ieciidc

/-! ## src/avtp_rvf.c

Field identifiers numbered as in include/avtp_rvf.h.  The 64-bit RAW header
is the first 8 bytes of `avtp_payload`, i.e. big-endian `pay0 ++ pay1`;
`be64toh(pay->raw_header)` is `combined` and the `htobe64` store writes the
two 32-bit halves back. -/

namespace Rvf

def AVTP_RVF_FIELD_SV : Nat := 0
def AVTP_RVF_FIELD_MR : Nat := 1
def AVTP_RVF_FIELD_TV : Nat := 2
def AVTP_RVF_FIELD_SEQ_NUM : Nat := 3
def AVTP_RVF_FIELD_TU : Nat := 4
def AVTP_RVF_FIELD_STREAM_ID : Nat := 5
def AVTP_RVF_FIELD_TIMESTAMP : Nat := 6
def AVTP_RVF_FIELD_STREAM_DATA_LEN : Nat := 7
def AVTP_RVF_FIELD_ACTIVE_PIXELS : Nat := 8
def AVTP_RVF_FIELD_TOTAL_LINES : Nat := 9
def AVTP_RVF_FIELD_AP : Nat := 10
def AVTP_RVF_FIELD_F : Nat := 11
def AVTP_RVF_FIELD_EF : Nat := 12
def AVTP_RVF_FIELD_EVT : Nat := 13
def AVTP_RVF_FIELD_PD : Nat := 14
def AVTP_RVF_FIELD_I : Nat := 15
def AVTP_RVF_FIELD_RAW_PIXEL_DEPTH : Nat := 16
def AVTP_RVF_FIELD_RAW_PIXEL_FORMAT : Nat := 17
def AVTP_RVF_FIELD_RAW_FRAME_RATE : Nat := 18
def AVTP_RVF_FIELD_RAW_COLORSPACE : Nat := 19
def AVTP_RVF_FIELD_RAW_NUM_LINES : Nat := 20
def AVTP_RVF_FIELD_RAW_I_SEQ_NUM : Nat := 21
def AVTP_RVF_FIELD_RAW_LINE_NUMBER : Nat := 22
def AVTP_RVF_FIELD_MAX : Nat := 23

def SHIFT_ACTIVE_PIXELS : Nat := 31 - 15
def SHIFT_TOTAL_LINES : Nat := 31 - 31
def SHIFT_AP : Nat := 31 - 16
def SHIFT_F : Nat := 31 - 18
def SHIFT_EF : Nat := 31 - 19
def SHIFT_EVT : Nat := 31 - 23
def SHIFT_PD : Nat := 31 - 24
def SHIFT_I : Nat := 31 - 25
def SHIFT_RAW_PIXEL_DEPTH : Nat := 63 - 11
def SHIFT_RAW_PIXEL_FORMAT : Nat := 63 - 15
def SHIFT_RAW_FRAME_RATE : Nat := 63 - 23
def SHIFT_RAW_COLORSPACE : Nat := 63 - 27
def SHIFT_RAW_NUM_LINES : Nat := 63 - 31
def SHIFT_RAW_I_SEQ_NUM : Nat := 63 - 47
def SHIFT_RAW_LINE_NUMBER : Nat := 63 - 63

def MASK_ACTIVE_PIXELS : Nat := BITMASK 16 <<< SHIFT_ACTIVE_PIXELS
def MASK_TOTAL_LINES : Nat := BITMASK 16 <<< SHIFT_TOTAL_LINES
def MASK_AP : Nat := BITMASK 1 <<< SHIFT_AP
def MASK_F : Nat := BITMASK 1 <<< SHIFT_F
def MASK_EF : Nat := BITMASK 1 <<< SHIFT_EF
def MASK_EVT : Nat := BITMASK 4 <<< SHIFT_EVT
def MASK_PD : Nat := BITMASK 1 <<< SHIFT_PD
def MASK_I : Nat := BITMASK 1 <<< SHIFT_I
def MASK_RAW_PIXEL_DEPTH : Nat := BITMASK 4 <<< SHIFT_RAW_PIXEL_DEPTH
def MASK_RAW_PIXEL_FORMAT : Nat := BITMASK 4 <<< SHIFT_RAW_PIXEL_FORMAT
def MASK_RAW_FRAME_RATE : Nat := BITMASK 8 <<< SHIFT_RAW_FRAME_RATE
def MASK_RAW_COLORSPACE : Nat := BITMASK 4 <<< SHIFT_RAW_COLORSPACE
def MASK_RAW_NUM_LINES : Nat := BITMASK 4 <<< SHIFT_RAW_NUM_LINES
def MASK_RAW_I_SEQ_NUM : Nat := BITMASK 8 <<< SHIFT_RAW_I_SEQ_NUM
def MASK_RAW_LINE_NUMBER : Nat := BITMASK 16 <<< SHIFT_RAW_LINE_NUMBER

/-- The `(mask, shift, word)` triples enumerated identically by the switches
of `get_field_value` and `set_field_value` in avtp_rvf.c. -/
def sel (field : Nat) : Option (Nat × Nat × W32) :=
  if field = AVTP_RVF_FIELD_ACTIVE_PIXELS then
    some (MASK_ACTIVE_PIXELS, SHIFT_ACTIVE_PIXELS, .fs)
  else if field = AVTP_RVF_FIELD_TOTAL_LINES then
    some (MASK_TOTAL_LINES, SHIFT_TOTAL_LINES, .fs)
  else if field = AVTP_RVF_FIELD_AP then some (MASK_AP, SHIFT_AP, .pi)
  else if field = AVTP_RVF_FIELD_F then some (MASK_F, SHIFT_F, .pi)
  else if field = AVTP_RVF_FIELD_EF then some (MASK_EF, SHIFT_EF, .pi)
  else if field = AVTP_RVF_FIELD_EVT then some (MASK_EVT, SHIFT_EVT, .pi)
  else if field = AVTP_RVF_FIELD_PD then some (MASK_PD, SHIFT_PD, .pi)
  else if field = AVTP_RVF_FIELD_I then some (MASK_I, SHIFT_I, .pi)
  else none

/-- The `(mask, shift)` pairs enumerated identically by the switches of
`get_raw_field_value` and `set_raw_field_value` in avtp_rvf.c. -/
def rawsel (field : Nat) : Option (Nat × Nat) :=
  if field = AVTP_RVF_FIELD_RAW_PIXEL_DEPTH then
    some (MASK_RAW_PIXEL_DEPTH, SHIFT_RAW_PIXEL_DEPTH)
  else if field = AVTP_RVF_FIELD_RAW_PIXEL_FORMAT then
    some (MASK_RAW_PIXEL_FORMAT, SHIFT_RAW_PIXEL_FORMAT)
  else if field = AVTP_RVF_FIELD_RAW_FRAME_RATE then
    some (MASK_RAW_FRAME_RATE, SHIFT_RAW_FRAME_RATE)
  else if field = AVTP_RVF_FIELD_RAW_COLORSPACE then
    some (MASK_RAW_COLORSPACE, SHIFT_RAW_COLORSPACE)
  else if field = AVTP_RVF_FIELD_RAW_NUM_LINES then
    some (MASK_RAW_NUM_LINES, SHIFT_RAW_NUM_LINES)
  else if field = AVTP_RVF_FIELD_RAW_I_SEQ_NUM then
    some (MASK_RAW_I_SEQ_NUM, SHIFT_RAW_I_SEQ_NUM)
  else if field = AVTP_RVF_FIELD_RAW_LINE_NUMBER then
    some (MASK_RAW_LINE_NUMBER, SHIFT_RAW_LINE_NUMBER)
  else none

def get_field_value (pdu : StreamPdu) (field : Nat) : Option Nat :=
  match sel field with
  | some (mask, shift, w) => some (BITMAP_GET_VALUE (getW pdu w) mask shift)
  | none => none

def get_raw_field_value (bitmap field : Nat) : Option Nat :=
  match rawsel field with
  | some (mask, shift) => some (BITMAP_GET_VALUE bitmap mask shift)
  | none => none

def avtp_rvf_pdu_get (pdu : Option StreamPdu) (field : Nat) : Option Nat :=
  match pdu with
  | none => none
  | some pdu =>
    if field = AVTP_RVF_FIELD_SV ∨ field = AVTP_RVF_FIELD_MR
        ∨ field = AVTP_RVF_FIELD_TV ∨ field = AVTP_RVF_FIELD_SEQ_NUM
        ∨ field = AVTP_RVF_FIELD_TU ∨ field = AVTP_RVF_FIELD_STREAM_DATA_LEN
        ∨ field = AVTP_RVF_FIELD_TIMESTAMP
        ∨ field = AVTP_RVF_FIELD_STREAM_ID then
      Stream.avtp_stream_pdu_get (some pdu) field
    else if field = AVTP_RVF_FIELD_ACTIVE_PIXELS
        ∨ field = AVTP_RVF_FIELD_TOTAL_LINES ∨ field = AVTP_RVF_FIELD_AP
        ∨ field = AVTP_RVF_FIELD_F ∨ field = AVTP_RVF_FIELD_EF
        ∨ field = AVTP_RVF_FIELD_EVT ∨ field = AVTP_RVF_FIELD_PD
        ∨ field = AVTP_RVF_FIELD_I then
      get_field_value pdu field
    else if field = AVTP_RVF_FIELD_RAW_PIXEL_DEPTH
        ∨ field = AVTP_RVF_FIELD_RAW_PIXEL_FORMAT
        ∨ field = AVTP_RVF_FIELD_RAW_FRAME_RATE
        ∨ field = AVTP_RVF_FIELD_RAW_COLORSPACE
        ∨ field = AVTP_RVF_FIELD_RAW_NUM_LINES
        ∨ field = AVTP_RVF_FIELD_RAW_I_SEQ_NUM
        ∨ field = AVTP_RVF_FIELD_RAW_LINE_NUMBER then
      get_raw_field_value (combined pdu) field
    else none

/-- The `val` parameter is `uint32_t`: the caller's 64-bit value is truncated
at the call boundary. -/
def set_field_value (pdu : StreamPdu) (field val : Nat) : Int × StreamPdu :=
  let val := val % 2 ^ 32
  match sel field with
  | some (mask, shift, w) =>
      (0, setW pdu w (BITMAP_SET_VALUE 32 (getW pdu w) val mask shift))
  | none => (-EINVAL, pdu)

def set_raw_field_value (pay : StreamPdu) (field val : Nat) :
    Int × StreamPdu :=
  match rawsel field with
  | some (mask, shift) =>
      let bitmap := combined pay
      let bitmap := BITMAP_SET_VALUE 64 bitmap val mask shift
      (0, setW (setW pay .p0 (bitmap >>> 32)) .p1 (bitmap &&& BITMASK 32))
  | none => (-EINVAL, pay)

def avtp_rvf_pdu_set (pdu : Option StreamPdu) (field val : Nat) :
    Int × Option StreamPdu :=
  match pdu with
  | none => (-EINVAL, none)
  | some pdu =>
    if field = AVTP_RVF_FIELD_SV ∨ field = AVTP_RVF_FIELD_MR
        ∨ field = AVTP_RVF_FIELD_TV ∨ field = AVTP_RVF_FIELD_SEQ_NUM
        ∨ field = AVTP_RVF_FIELD_TU ∨ field = AVTP_RVF_FIELD_STREAM_DATA_LEN
        ∨ field = AVTP_RVF_FIELD_TIMESTAMP
        ∨ field = AVTP_RVF_FIELD_STREAM_ID then
      Stream.avtp_stream_pdu_set (some pdu) field val
    else if field = AVTP_RVF_FIELD_ACTIVE_PIXELS
        ∨ field = AVTP_RVF_FIELD_TOTAL_LINES ∨ field = AVTP_RVF_FIELD_AP
        ∨ field = AVTP_RVF_FIELD_F ∨ field = AVTP_RVF_FIELD_EF
        ∨ field = AVTP_RVF_FIELD_EVT ∨ field = AVTP_RVF_FIELD_PD
        ∨ field = AVTP_RVF_FIELD_I then
      ((set_field_value pdu field val).1, some (set_field_value pdu field val).2)
    else if field = AVTP_RVF_FIELD_RAW_PIXEL_DEPTH
        ∨ field = AVTP_RVF_FIELD_RAW_PIXEL_FORMAT
        ∨ field = AVTP_RVF_FIELD_RAW_FRAME_RATE
        ∨ field = AVTP_RVF_FIELD_RAW_COLORSPACE
        ∨ field = AVTP_RVF_FIELD_RAW_NUM_LINES
        ∨ field = AVTP_RVF_FIELD_RAW_I_SEQ_NUM
        ∨ field = AVTP_RVF_FIELD_RAW_LINE_NUMBER then
      ((set_raw_field_value pdu field val).1,
        some (set_raw_field_value pdu field val).2)
    else (-EINVAL, some pdu)

def avtp_rvf_pdu_init (pdu : Option StreamPdu) : Int × Option StreamPdu :=
  match pdu with
  | none => (-EINVAL, none)
  | some pdu =>
    let pdu := memsetStream pdu
    let pdu := { pdu with
      subtype_data := avtp_pdu_set_subtype pdu.subtype_data AVTP_SUBTYPE_RVF }
    match avtp_rvf_pdu_set (some pdu) AVTP_RVF_FIELD_SV 1 with
    | (res, q) => if res < 0 then (res, q) else (0, q)

/-- Registry view of the RVF fields (proof infrastructure). -/
def descOf (field : Nat) : Desc :=
  if field < 8 then Stream.descOf field
  else if field = 8 then .b32 .fs MASK_ACTIVE_PIXELS SHIFT_ACTIVE_PIXELS 16
  else if field = 9 then .b32 .fs MASK_TOTAL_LINES SHIFT_TOTAL_LINES 16
  else if field = 10 then .b32 .pi MASK_AP SHIFT_AP 1
  else if field = 11 then .b32 .pi MASK_F SHIFT_F 1
  else if field = 12 then .b32 .pi MASK_EF SHIFT_EF 1
  else if field = 13 then .b32 .pi MASK_EVT SHIFT_EVT 4
  else if field = 14 then .b32 .pi MASK_PD SHIFT_PD 1
  else if field = 15 then .b32 .pi MASK_I SHIFT_I 1
  else if field = 16 then .raw64 MASK_RAW_PIXEL_DEPTH SHIFT_RAW_PIXEL_DEPTH 4
  else if field = 17 then
    .raw64 MASK_RAW_PIXEL_FORMAT SHIFT_RAW_PIXEL_FORMAT 4
  else if field = 18 then .raw64 MASK_RAW_FRAME_RATE SHIFT_RAW_FRAME_RATE 8
  else if field = 19 then .raw64 MASK_RAW_COLORSPACE SHIFT_RAW_COLORSPACE 4
  else if field = 20 then .raw64 MASK_RAW_NUM_LINES SHIFT_RAW_NUM_LINES 4
  else if field = 21 then .raw64 MASK_RAW_I_SEQ_NUM SHIFT_RAW_I_SEQ_NUM 8
  else .raw64 MASK_RAW_LINE_NUMBER SHIFT_RAW_LINE_NUMBER 16

theorem rvf_get_char (p : StreamPdu) (f : Nat) (hf : f < 23) :
    avtp_rvf_pdu_get (some p) f = some (descGet p (descOf f)) := by
  interval_cases f <;> rfl

theorem rvf_set_char (p : StreamPdu) (f v : Nat) (hf : f < 23) :
    avtp_rvf_pdu_set (some p) f v = (0, some (descSet p v (descOf f))) := by
  interval_cases f
  · rfl
  · rfl
  · rfl
  · rfl
  · rfl
  · rfl
  · rfl
  · rfl
  · exact congrArg (fun x => ((0 : Int), some (setW p .fs x)))
      (setValue_value_mod 32 (getW p .fs) v MASK_ACTIVE_PIXELS
        SHIFT_ACTIVE_PIXELS (by decide))
  · exact congrArg (fun x => ((0 : Int), some (setW p .fs x)))
      (setValue_value_mod 32 (getW p .fs) v MASK_TOTAL_LINES
        SHIFT_TOTAL_LINES (by decide))
  · exact congrArg (fun x => ((0 : Int), some (setW p .pi x)))
      (setValue_value_mod 32 (getW p .pi) v MASK_AP SHIFT_AP (by decide))
  · exact congrArg (fun x => ((0 : Int), some (setW p .pi x)))
      (setValue_value_mod 32 (getW p .pi) v MASK_F SHIFT_F (by decide))
  · exact congrArg (fun x => ((0 : Int), some (setW p .pi x)))
      (setValue_value_mod 32 (getW p .pi) v MASK_EF SHIFT_EF (by decide))
  · exact congrArg (fun x => ((0 : Int), some (setW p .pi x)))
      (setValue_value_mod 32 (getW p .pi) v MASK_EVT SHIFT_EVT (by decide))
  · exact congrArg (fun x => ((0 : Int), some (setW p .pi x)))
      (setValue_value_mod 32 (getW p .pi) v MASK_PD SHIFT_PD (by decide))
  · exact congrArg (fun x => ((0 : Int), some (setW p .pi x)))
      (setValue_value_mod 32 (getW p .pi) v MASK_I SHIFT_I (by decide))
  · rfl
  · rfl
  · rfl
  · rfl
  · rfl
  · rfl
  · rfl

theorem rvf_descOf_wf : ∀ f, f < 23 → descWf (descOf f) = true := by decide

theorem rvf_descOf_compat : ∀ f, f < 23 → ∀ g, g < 23 →
    compatible (descOf f) (descOf g) = true := by decide

theorem rvf_get_none (p : StreamPdu) (f : Nat) (hf : 23 ≤ f) :
    avtp_rvf_pdu_get (some p) f = none := by
  simp only [avtp_rvf_pdu_get, AVTP_RVF_FIELD_SV, AVTP_RVF_FIELD_MR,
    AVTP_RVF_FIELD_TV, AVTP_RVF_FIELD_SEQ_NUM, AVTP_RVF_FIELD_TU,
    AVTP_RVF_FIELD_STREAM_DATA_LEN, AVTP_RVF_FIELD_TIMESTAMP,
    AVTP_RVF_FIELD_STREAM_ID, AVTP_RVF_FIELD_ACTIVE_PIXELS,
    AVTP_RVF_FIELD_TOTAL_LINES, AVTP_RVF_FIELD_AP, AVTP_RVF_FIELD_F,
    AVTP_RVF_FIELD_EF, AVTP_RVF_FIELD_EVT, AVTP_RVF_FIELD_PD,
    AVTP_RVF_FIELD_I, AVTP_RVF_FIELD_RAW_PIXEL_DEPTH,
    AVTP_RVF_FIELD_RAW_PIXEL_FORMAT, AVTP_RVF_FIELD_RAW_FRAME_RATE,
    AVTP_RVF_FIELD_RAW_COLORSPACE, AVTP_RVF_FIELD_RAW_NUM_LINES,
    AVTP_RVF_FIELD_RAW_I_SEQ_NUM, AVTP_RVF_FIELD_RAW_LINE_NUMBER]
  rw [if_neg (by omega), if_neg (by omega), if_neg (by omega)]

theorem rvf_set_none (p : StreamPdu) (f v : Nat) (hf : 23 ≤ f) :
    avtp_rvf_pdu_set (some p) f v = (-EINVAL, some p) := by
  simp only [avtp_rvf_pdu_set, AVTP_RVF_FIELD_SV, AVTP_RVF_FIELD_MR,
    AVTP_RVF_FIELD_TV, AVTP_RVF_FIELD_SEQ_NUM, AVTP_RVF_FIELD_TU,
    AVTP_RVF_FIELD_STREAM_DATA_LEN, AVTP_RVF_FIELD_TIMESTAMP,
    AVTP_RVF_FIELD_STREAM_ID, AVTP_RVF_FIELD_ACTIVE_PIXELS,
    AVTP_RVF_FIELD_TOTAL_LINES, AVTP_RVF_FIELD_AP, AVTP_RVF_FIELD_F,
    AVTP_RVF_FIELD_EF, AVTP_RVF_FIELD_EVT, AVTP_RVF_FIELD_PD,
    AVTP_RVF_FIELD_I, AVTP_RVF_FIELD_RAW_PIXEL_DEPTH,
    AVTP_RVF_FIELD_RAW_PIXEL_FORMAT, AVTP_RVF_FIELD_RAW_FRAME_RATE,
    AVTP_RVF_FIELD_RAW_COLORSPACE, AVTP_RVF_FIELD_RAW_NUM_LINES,
    AVTP_RVF_FIELD_RAW_I_SEQ_NUM, AVTP_RVF_FIELD_RAW_LINE_NUMBER]
  rw [if_neg (by omega), if_neg (by omega), if_neg (by omega)]

theorem rvf_init_char (p : StreamPdu) :
    avtp_rvf_pdu_init (some p)
      = (0, some (StreamPdu.mk 0x07800000 0 0 0 0 p.pay0 p.pay1)) := by
  have h : BITMAP_SET_VALUE 32 (avtp_pdu_set_subtype 0 AVTP_SUBTYPE_RVF) 1
      Stream.MASK_SV Stream.SHIFT_SV = 0x07800000 := by decide
  simp only [avtp_rvf_pdu_init, memsetStream]
  rw [rvf_set_char _ _ 1 (by decide)]
  simp [descOf, Stream.descOf, descSet, getW, setW, AVTP_RVF_FIELD_SV, h]

end Rvf

/-! ## src/avtp_vsf_stream.c

Field identifiers numbered as in include/avtp_vsf_stream.h. -/

namespace Vsf

def AVTP_VSF_STREAM_FIELD_SV : Nat := 0
def AVTP_VSF_STREAM_FIELD_MR : Nat := 1
def AVTP_VSF_STREAM_FIELD_TV : Nat := 2
def AVTP_VSF_STREAM_FIELD_SEQ_NUM : Nat := 3
def AVTP_VSF_STREAM_FIELD_TU : Nat := 4
def AVTP_VSF_STREAM_FIELD_STREAM_ID : Nat := 5
def AVTP_VSF_STREAM_FIELD_TIMESTAMP : Nat := 6
def AVTP_VSF_STREAM_FIELD_STREAM_DATA_LEN : Nat := 7
def AVTP_VSF_STREAM_FIELD_VENDOR_ID : Nat := 8
def AVTP_VSF_STREAM_FIELD_MAX : Nat := 9

def SHIFT_VENDOR_ID_1 : Nat := 31 - 31
def SHIFT_VENDOR_ID_2 : Nat := 31 - 31

def MASK_VENDOR_ID_1 : Nat := BITMASK 32 <<< SHIFT_VENDOR_ID_1
def MASK_VENDOR_ID_2 : Nat := BITMASK 16 <<< SHIFT_VENDOR_ID_2

def get_vendor_id (pdu : StreamPdu) : Nat :=
  let bitmap1 := getW pdu .fs
  let bitmap2 := getW pdu .pi
  let val1 := BITMAP_GET_VALUE bitmap1 MASK_VENDOR_ID_1 SHIFT_VENDOR_ID_1
  let val2 := BITMAP_GET_VALUE bitmap2 MASK_VENDOR_ID_2 SHIFT_VENDOR_ID_2
  (val1 <<< 16) ||| val2

def avtp_vsf_stream_pdu_get (pdu : Option StreamPdu) (field : Nat) :
    Option Nat :=
  match pdu with
  | none => none
  | some pdu =>
    if field = AVTP_VSF_STREAM_FIELD_SV ∨ field = AVTP_VSF_STREAM_FIELD_MR
        ∨ field = AVTP_VSF_STREAM_FIELD_TV
        ∨ field = AVTP_VSF_STREAM_FIELD_SEQ_NUM
        ∨ field = AVTP_VSF_STREAM_FIELD_TU
        ∨ field = AVTP_VSF_STREAM_FIELD_STREAM_DATA_LEN
        ∨ field = AVTP_VSF_STREAM_FIELD_TIMESTAMP
        ∨ field = AVTP_VSF_STREAM_FIELD_STREAM_ID then
      Stream.avtp_stream_pdu_get (some pdu) field
    else if field = AVTP_VSF_STREAM_FIELD_VENDOR_ID then
      some (get_vendor_id pdu)
    else none

def set_vendor_id (pdu : StreamPdu) (val : Nat) : Int × StreamPdu :=
  let bitmap := getW pdu .fs
  let bitmap := BITMAP_SET_VALUE 32 bitmap (val >>> 16) MASK_VENDOR_ID_1
    SHIFT_VENDOR_ID_1
  let pdu := setW pdu .fs bitmap
  let bitmap2 := getW pdu .pi
  let bitmap2 := BITMAP_SET_VALUE 32 bitmap2 (val &&& 0xFFFF) MASK_VENDOR_ID_2
    SHIFT_VENDOR_ID_2
  (0, setW pdu .pi bitmap2)

def avtp_vsf_stream_pdu_set (pdu : Option StreamPdu) (field val : Nat) :
    Int × Option StreamPdu :=
  match pdu with
  | none => (-EINVAL, none)
  | some pdu =>
    if field = AVTP_VSF_STREAM_FIELD_SV ∨ field = AVTP_VSF_STREAM_FIELD_MR
        ∨ field = AVTP_VSF_STREAM_FIELD_TV
        ∨ field = AVTP_VSF_STREAM_FIELD_SEQ_NUM
        ∨ field = AVTP_VSF_STREAM_FIELD_TU
        ∨ field = AVTP_VSF_STREAM_FIELD_STREAM_DATA_LEN
        ∨ field = AVTP_VSF_STREAM_FIELD_TIMESTAMP
        ∨ field = AVTP_VSF_STREAM_FIELD_STREAM_ID then
      Stream.avtp_stream_pdu_set (some pdu) field val
    else if field = AVTP_VSF_STREAM_FIELD_VENDOR_ID then
      ((set_vendor_id pdu val).1, some (set_vendor_id pdu val).2)
    else (-EINVAL, some pdu)

def avtp_vsf_stream_pdu_init (pdu : Option StreamPdu) :
    Int × Option StreamPdu :=
  match pdu with
  | none => (-EINVAL, none)
  | some pdu =>
    let pdu := memsetStream pdu
    let pdu := { pdu with
      subtype_data :=
        avtp_pdu_set_subtype pdu.subtype_data AVTP_SUBTYPE_VSF_STREAM }
    match avtp_vsf_stream_pdu_set (some pdu) AVTP_VSF_STREAM_FIELD_SV 1 with
    | (res, q) => if res < 0 then (res, q) else (0, q)

/-- Registry view of the VSF stream fields (proof infrastructure). -/
def descOf (field : Nat) : Desc :=
  if field < 8 then Stream.descOf field
  else .vend

theorem vsf_get_char (p : StreamPdu) (f : Nat) (hf : f < 9) :
    avtp_vsf_stream_pdu_get (some p) f = some (descGet p (descOf f)) := by
  interval_cases f <;> rfl

theorem vsf_set_char (p : StreamPdu) (f v : Nat) (hf : f < 9) :
    avtp_vsf_stream_pdu_set (some p) f v = (0, some (descSet p v (descOf f))) := by
  interval_cases f <;> rfl

theorem vsf_descOf_wf : ∀ f, f < 9 → descWf (descOf f) = true := by decide

theorem vsf_descOf_compat : ∀ f, f < 9 → ∀ g, g < 9 →
    compatible (descOf f) (descOf g) = true := by decide

theorem vsf_get_none (p : StreamPdu) (f : Nat) (hf : 9 ≤ f) :
    avtp_vsf_stream_pdu_get (some p) f = none := by
  simp only [avtp_vsf_stream_pdu_get, AVTP_VSF_STREAM_FIELD_SV,
    AVTP_VSF_STREAM_FIELD_MR, AVTP_VSF_STREAM_FIELD_TV,
    AVTP_VSF_STREAM_FIELD_SEQ_NUM, AVTP_VSF_STREAM_FIELD_TU,
    AVTP_VSF_STREAM_FIELD_STREAM_DATA_LEN, AVTP_VSF_STREAM_FIELD_TIMESTAMP,
    AVTP_VSF_STREAM_FIELD_STREAM_ID, AVTP_VSF_STREAM_FIELD_VENDOR_ID]
  rw [if_neg (by omega), if_neg (by omega)]

theorem vsf_set_none (p : StreamPdu) (f v : Nat) (hf : 9 ≤ f) :
    avtp_vsf_stream_pdu_set (some p) f v = (-EINVAL, some p) := by
  simp only [avtp_vsf_stream_pdu_set, AVTP_VSF_STREAM_FIELD_SV,
    AVTP_VSF_STREAM_FIELD_MR, AVTP_VSF_STREAM_FIELD_TV,
    AVTP_VSF_STREAM_FIELD_SEQ_NUM, AVTP_VSF_STREAM_FIELD_TU,
    AVTP_VSF_STREAM_FIELD_STREAM_DATA_LEN, AVTP_VSF_STREAM_FIELD_TIMESTAMP,
    AVTP_VSF_STREAM_FIELD_STREAM_ID, AVTP_VSF_STREAM_FIELD_VENDOR_ID]
  rw [if_neg (by omega), if_neg (by omega)]

theorem vsf_init_char (p : StreamPdu) :
    avtp_vsf_stream_pdu_init (some p)
      = (0, some (StreamPdu.mk 0x6F800000 0 0 0 0 p.pay0 p.pay1)) := by
  have h : BITMAP_SET_VALUE 32
      (avtp_pdu_set_subtype 0 AVTP_SUBTYPE_VSF_STREAM) 1
      Stream.MASK_SV Stream.SHIFT_SV = 0x6F800000 := by decide
  simp only [avtp_vsf_stream_pdu_init, memsetStream]
  rw [vsf_set_char _ _ 1 (by decide)]
  simp [descOf, Stream.descOf, descSet, getW, setW, AVTP_VSF_STREAM_FIELD_SV, h]

end Vsf

/-! ## src/avtp_crf.c

The CRF PDU has its own layout (include/avtp_crf.h): a 32-bit
`subtype_data`, a 64-bit `stream_id` and a single 64-bit `packet_info`;
`crf_data` is a flexible array member not counted by `sizeof`. -/

structure CrfPdu where
  subtype_data : Nat
  stream_id : Nat
  packet_info : Nat
deriving DecidableEq

/-- The all-zero CRF PDU. -/
def zeroCrf : CrfPdu := { subtype_data := 0, stream_id := 0, packet_info := 0 }

/-- Registry descriptors for the CRF PDU (proof infrastructure). -/
inductive CDesc where
  /-- 32-bit read-modify-write bit-field in `subtype_data`. -/
  | cb32 (mask shift width : Nat)
  /-- direct 64-bit load/store of `stream_id`. -/
  | csid
  /-- 64-bit read-modify-write bit-field in `packet_info`. -/
  | cb64 (mask shift width : Nat)
deriving DecidableEq

def cdescWidth : CDesc → Nat
  | .cb32 _ _ wd => wd
  | .csid => 64
  | .cb64 _ _ wd => wd

def cdescGet (p : CrfPdu) : CDesc → Nat
  | .cb32 mask shift _ => BITMAP_GET_VALUE p.subtype_data mask shift
  | .csid => p.stream_id
  | .cb64 mask shift _ => BITMAP_GET_VALUE p.packet_info mask shift

def cdescSet (p : CrfPdu) (v : Nat) : CDesc → CrfPdu
  | .cb32 mask shift _ =>
      { p with subtype_data := BITMAP_SET_VALUE 32 p.subtype_data v mask shift }
  | .csid => { p with stream_id := v % 2 ^ 64 }
  | .cb64 mask shift _ =>
      { p with packet_info := BITMAP_SET_VALUE 64 p.packet_info v mask shift }

def cdescWf : CDesc → Bool
  | .cb32 mask shift wd =>
      decide (mask = BITMASK wd <<< shift ∧ shift + wd ≤ 32 ∧ 0 < wd)
  | .csid => true
  | .cb64 mask shift wd =>
      decide (mask = BITMASK wd <<< shift ∧ shift + wd ≤ 64 ∧ 0 < wd)

/-- Footprint `(subtype_data, stream_id, packet_info)` of a CRF descriptor. -/
def cdescFp : CDesc → Nat × Nat × Nat
  | .cb32 mask _ _ => (mask, 0, 0)
  | .csid => (0, BITMASK 64, 0)
  | .cb64 mask _ _ => (0, 0, mask)

def cfpDisjoint (d1 d2 : CDesc) : Bool :=
  decide ((cdescFp d1).1 &&& (cdescFp d2).1 = 0
    ∧ (cdescFp d1).2.1 &&& (cdescFp d2).2.1 = 0
    ∧ (cdescFp d1).2.2 &&& (cdescFp d2).2.2 = 0)

theorem crf_descRoundtrip (d : CDesc) (p : CrfPdu) (v : Nat)
    (hwf : cdescWf d = true) (hv : v < 2 ^ cdescWidth d) :
    cdescGet (cdescSet p v d) d = v := by
  cases d with
  | cb32 m s wd =>
      obtain ⟨hm, hs, hwd⟩ : m = BITMASK wd <<< s ∧ s + wd ≤ 32 ∧ 0 < wd :=
        of_decide_eq_true hwf
      subst hm
      simp only [cdescGet, cdescSet]
      exact bitfield_roundtrip 32 _ v wd s hs hv
  | csid =>
      simp only [cdescGet, cdescSet]
      exact Nat.mod_eq_of_lt hv
  | cb64 m s wd =>
      obtain ⟨hm, hs, hwd⟩ : m = BITMASK wd <<< s ∧ s + wd ≤ 64 ∧ 0 < wd :=
        of_decide_eq_true hwf
      subst hm
      simp only [cdescGet, cdescSet]
      exact bitfield_roundtrip 64 _ v wd s hs hv

theorem crf_descTrunc (d : CDesc) (p : CrfPdu) (v : Nat)
    (hwf : cdescWf d = true) :
    cdescSet p v d = cdescSet p (v % 2 ^ cdescWidth d) d := by
  cases d with
  | cb32 m s wd =>
      obtain ⟨hm, hs, hwd⟩ : m = BITMASK wd <<< s ∧ s + wd ≤ 32 ∧ 0 < wd :=
        of_decide_eq_true hwf
      subst hm
      simp only [cdescSet, cdescWidth]
      rw [setValue_mod]
  | csid =>
      simp only [cdescSet, cdescWidth]
      rw [Nat.mod_mod_of_dvd v (dvd_refl (2 ^ 64))]
  | cb64 m s wd =>
      obtain ⟨hm, hs, hwd⟩ : m = BITMASK wd <<< s ∧ s + wd ≤ 64 ∧ 0 < wd :=
        of_decide_eq_true hwf
      subst hm
      simp only [cdescSet, cdescWidth]
      rw [setValue_mod]

theorem crf_descPreserve (d1 d2 : CDesc) (p : CrfPdu) (v : Nat)
    (h1 : cdescWf d1 = true) (h2 : cdescWf d2 = true)
    (hd : cfpDisjoint d1 d2 = true) :
    cdescGet (cdescSet p v d1) d2 = cdescGet p d2 := by
  obtain ⟨hstd, hsid, hpi⟩ :
      (cdescFp d1).1 &&& (cdescFp d2).1 = 0
      ∧ (cdescFp d1).2.1 &&& (cdescFp d2).2.1 = 0
      ∧ (cdescFp d1).2.2 &&& (cdescFp d2).2.2 = 0 := of_decide_eq_true hd
  cases d1 with
  | cb32 m1 s1 wd1 =>
      obtain ⟨hm1, hs1, hwd1⟩ : m1 = BITMASK wd1 <<< s1 ∧ s1 + wd1 ≤ 32 ∧ 0 < wd1 :=
        of_decide_eq_true h1
      cases d2 with
      | cb32 m2 s2 wd2 =>
          obtain ⟨hm2, hs2, _⟩ : m2 = BITMASK wd2 <<< s2 ∧ s2 + wd2 ≤ 32 ∧ 0 < wd2 :=
            of_decide_eq_true h2
          simp only [cdescGet, cdescSet, BITMAP_GET_VALUE]
          rw [setValue_and_disjoint 32 _ v m1 s1 m2 (by simpa [cdescFp] using hstd)
            (hm2 ▸ mask_lt hs2)]
      | csid => rfl
      | cb64 m2 s2 wd2 => rfl
  | csid =>
      cases d2 with
      | cb32 m2 s2 wd2 => rfl
      | csid =>
          simp [cdescFp] at hsid
          exact absurd hsid (by decide)
      | cb64 m2 s2 wd2 => rfl
  | cb64 m1 s1 wd1 =>
      obtain ⟨hm1, hs1, hwd1⟩ : m1 = BITMASK wd1 <<< s1 ∧ s1 + wd1 ≤ 64 ∧ 0 < wd1 :=
        of_decide_eq_true h1
      cases d2 with
      | cb32 m2 s2 wd2 => rfl
      | csid => rfl
      | cb64 m2 s2 wd2 =>
          obtain ⟨hm2, hs2, _⟩ : m2 = BITMASK wd2 <<< s2 ∧ s2 + wd2 ≤ 64 ∧ 0 < wd2 :=
            of_decide_eq_true h2
          simp only [cdescGet, cdescSet, BITMAP_GET_VALUE]
          rw [setValue_and_disjoint 64 _ v m1 s1 m2 (by simpa [cdescFp] using hpi)
            (hm2 ▸ mask_lt hs2)]

namespace Crf

def AVTP_CRF_FIELD_SV : Nat := 0
def AVTP_CRF_FIELD_MR : Nat := 1
def AVTP_CRF_FIELD_FS : Nat := 2
def AVTP_CRF_FIELD_TU : Nat := 3
def AVTP_CRF_FIELD_SEQ_NUM : Nat := 4
def AVTP_CRF_FIELD_TYPE : Nat := 5
def AVTP_CRF_FIELD_STREAM_ID : Nat := 6
def AVTP_CRF_FIELD_PULL : Nat := 7
def AVTP_CRF_FIELD_BASE_FREQ : Nat := 8
def AVTP_CRF_FIELD_CRF_DATA_LEN : Nat := 9
def AVTP_CRF_FIELD_TIMESTAMP_INTERVAL : Nat := 10
def AVTP_CRF_FIELD_MAX : Nat := 11

def SHIFT_SV : Nat := 31 - 8
def SHIFT_MR : Nat := 31 - 12
def SHIFT_FS : Nat := 31 - 14
def SHIFT_TU : Nat := 31 - 15
def SHIFT_SEQ_NUM : Nat := 31 - 23
def SHIFT_PULL : Nat := 63 - 2
def SHIFT_BASE_FREQ : Nat := 63 - 31
def SHIFT_CRF_DATA_LEN : Nat := 63 - 47

def MASK_SV : Nat := BITMASK 1 <<< SHIFT_SV
def MASK_MR : Nat := BITMASK 1 <<< SHIFT_MR
def MASK_FS : Nat := BITMASK 1 <<< SHIFT_FS
def MASK_TU : Nat := BITMASK 1 <<< SHIFT_TU
def MASK_SEQ_NUM : Nat := BITMASK 8 <<< SHIFT_SEQ_NUM
def MASK_TYPE : Nat := BITMASK 8
def MASK_PULL : Nat := BITMASK 3 <<< SHIFT_PULL
def MASK_BASE_FREQ : Nat := BITMASK 29 <<< SHIFT_BASE_FREQ
def MASK_CRF_DATA_LEN : Nat := BITMASK 16 <<< SHIFT_CRF_DATA_LEN
def MASK_TIMESTAMP_INTERVAL : Nat := BITMASK 16

/-- The switch of `get_field_value` in avtp_crf.c: `(mask, shift)` plus
which word feeds `bitmap` (false: `ntohl(subtype_data)`, true:
`be64toh(packet_info)`). -/
def getsel (field : Nat) : Option (Nat × Nat × Bool) :=
  if field = AVTP_CRF_FIELD_SV then some (MASK_SV, SHIFT_SV, false)
  else if field = AVTP_CRF_FIELD_MR then some (MASK_MR, SHIFT_MR, false)
  else if field = AVTP_CRF_FIELD_FS then some (MASK_FS, SHIFT_FS, false)
  else if field = AVTP_CRF_FIELD_TU then some (MASK_TU, SHIFT_TU, false)
  else if field = AVTP_CRF_FIELD_SEQ_NUM then
    some (MASK_SEQ_NUM, SHIFT_SEQ_NUM, false)
  else if field = AVTP_CRF_FIELD_TYPE then some (MASK_TYPE, 0, false)
  else if field = AVTP_CRF_FIELD_PULL then some (MASK_PULL, SHIFT_PULL, true)
  else if field = AVTP_CRF_FIELD_BASE_FREQ then
    some (MASK_BASE_FREQ, SHIFT_BASE_FREQ, true)
  else if field = AVTP_CRF_FIELD_CRF_DATA_LEN then
    some (MASK_CRF_DATA_LEN, SHIFT_CRF_DATA_LEN, true)
  else if field = AVTP_CRF_FIELD_TIMESTAMP_INTERVAL then
    some (MASK_TIMESTAMP_INTERVAL, 0, true)
  else none

def get_field_value (pdu : CrfPdu) (field : Nat) : Option Nat :=
  match getsel field with
  | some (mask, shift, w64) =>
      let bitmap := if w64 then pdu.packet_info else pdu.subtype_data
      some (BITMAP_GET_VALUE bitmap mask shift)
  | none => none

def avtp_crf_pdu_get (pdu : Option CrfPdu) (field : Nat) : Option Nat :=
  match pdu with
  | none => none
  | some pdu =>
    if field = AVTP_CRF_FIELD_SV ∨ field = AVTP_CRF_FIELD_MR
        ∨ field = AVTP_CRF_FIELD_FS ∨ field = AVTP_CRF_FIELD_TU
        ∨ field = AVTP_CRF_FIELD_SEQ_NUM ∨ field = AVTP_CRF_FIELD_TYPE
        ∨ field = AVTP_CRF_FIELD_PULL ∨ field = AVTP_CRF_FIELD_BASE_FREQ
        ∨ field = AVTP_CRF_FIELD_CRF_DATA_LEN
        ∨ field = AVTP_CRF_FIELD_TIMESTAMP_INTERVAL then
      get_field_value pdu field
    else if field = AVTP_CRF_FIELD_STREAM_ID then some pdu.stream_id
    else none

/-- The switch of `set_field_value_32` in avtp_crf.c. -/
def setsel32 (field : Nat) : Option (Nat × Nat) :=
  if field = AVTP_CRF_FIELD_SV then some (MASK_SV, SHIFT_SV)
  else if field = AVTP_CRF_FIELD_MR then some (MASK_MR, SHIFT_MR)
  else if field = AVTP_CRF_FIELD_FS then some (MASK_FS, SHIFT_FS)
  else if field = AVTP_CRF_FIELD_TU then some (MASK_TU, SHIFT_TU)
  else if field = AVTP_CRF_FIELD_SEQ_NUM then some (MASK_SEQ_NUM, SHIFT_SEQ_NUM)
  else if field = AVTP_CRF_FIELD_TYPE then some (MASK_TYPE, 0)
  else none

def set_field_value_32 (pdu : CrfPdu) (field val : Nat) : Int × CrfPdu :=
  match setsel32 field with
  | some (mask, shift) =>
      (0, { pdu with
        subtype_data := BITMAP_SET_VALUE 32 pdu.subtype_data val mask shift })
  | none => (-EINVAL, pdu)

/-- The switch of `set_field_value_64` in avtp_crf.c. -/
def setsel64 (field : Nat) : Option (Nat × Nat) :=
  if field = AVTP_CRF_FIELD_PULL then some (MASK_PULL, SHIFT_PULL)
  else if field = AVTP_CRF_FIELD_BASE_FREQ then
    some (MASK_BASE_FREQ, SHIFT_BASE_FREQ)
  else if field = AVTP_CRF_FIELD_CRF_DATA_LEN then
    some (MASK_CRF_DATA_LEN, SHIFT_CRF_DATA_LEN)
  else if field = AVTP_CRF_FIELD_TIMESTAMP_INTERVAL then
    some (MASK_TIMESTAMP_INTERVAL, 0)
  else none

def set_field_value_64 (pdu : CrfPdu) (field val : Nat) : Int × CrfPdu :=
  match setsel64 field with
  | some (mask, shift) =>
      (0, { pdu with
        packet_info := BITMAP_SET_VALUE 64 pdu.packet_info val mask shift })
  | none => (-EINVAL, pdu)

def avtp_crf_pdu_set (pdu : Option CrfPdu) (field val : Nat) :
    Int × Option CrfPdu :=
  match pdu with
  | none => (-EINVAL, none)
  | some pdu =>
    if field = AVTP_CRF_FIELD_SV ∨ field = AVTP_CRF_FIELD_MR
        ∨ field = AVTP_CRF_FIELD_FS ∨ field = AVTP_CRF_FIELD_TU
        ∨ field = AVTP_CRF_FIELD_SEQ_NUM ∨ field = AVTP_CRF_FIELD_TYPE then
      ((set_field_value_32 pdu field val).1,
        some (set_field_value_32 pdu field val).2)
    else if field = AVTP_CRF_FIELD_PULL ∨ field = AVTP_CRF_FIELD_BASE_FREQ
        ∨ field = AVTP_CRF_FIELD_CRF_DATA_LEN
        ∨ field = AVTP_CRF_FIELD_TIMESTAMP_INTERVAL then
      ((set_field_value_64 pdu field val).1,
        some (set_field_value_64 pdu field val).2)
    else if field = AVTP_CRF_FIELD_STREAM_ID then
      (0, some { pdu with stream_id := val % 2 ^ 64 })
    else (-EINVAL, some pdu)

def avtp_crf_pdu_init (pdu : Option CrfPdu) : Int × Option CrfPdu :=
  match pdu with
  | none => (-EINVAL, none)
  | some _pdu =>
    let pdu := zeroCrf  -- memset(pdu, 0, sizeof(struct avtp_crf_pdu))
    let pdu := { pdu with
      subtype_data := avtp_pdu_set_subtype pdu.subtype_data AVTP_SUBTYPE_CRF }
    match avtp_crf_pdu_set (some pdu) AVTP_CRF_FIELD_SV 1 with
    | (res, q) => if res < 0 then (res, q) else (0, q)

/-- Registry view of the CRF fields (proof infrastructure). -/
def descOf (field : Nat) : CDesc :=
  if field = 0 then .cb32 MASK_SV SHIFT_SV 1
  else if field = 1 then .cb32 MASK_MR SHIFT_MR 1
  else if field = 2 then .cb32 MASK_FS SHIFT_FS 1
  else if field = 3 then .cb32 MASK_TU SHIFT_TU 1
  else if field = 4 then .cb32 MASK_SEQ_NUM SHIFT_SEQ_NUM 8
  else if field = 5 then .cb32 MASK_TYPE 0 8
  else if field = 6 then .csid
  else if field = 7 then .cb64 MASK_PULL SHIFT_PULL 3
  else if field = 8 then .cb64 MASK_BASE_FREQ SHIFT_BASE_FREQ 29
  else if field = 9 then .cb64 MASK_CRF_DATA_LEN SHIFT_CRF_DATA_LEN 16
  else .cb64 MASK_TIMESTAMP_INTERVAL 0 16

theorem crf_get_char (p : CrfPdu) (f : Nat) (hf : f < 11) :
    avtp_crf_pdu_get (some p) f = some (cdescGet p (descOf f)) := by
  interval_cases f <;> rfl

theorem crf_set_char (p : CrfPdu) (f v : Nat) (hf : f < 11) :
    avtp_crf_pdu_set (some p) f v = (0, some (cdescSet p v (descOf f))) := by
  interval_cases f <;> rfl

theorem crf_descOf_wf : ∀ f, f < 11 → cdescWf (descOf f) = true := by decide

theorem crf_get_none (p : CrfPdu) (f : Nat) (hf : 11 ≤ f) :
    avtp_crf_pdu_get (some p) f = none := by
  simp only [avtp_crf_pdu_get, AVTP_CRF_FIELD_SV, AVTP_CRF_FIELD_MR,
    AVTP_CRF_FIELD_FS, AVTP_CRF_FIELD_TU, AVTP_CRF_FIELD_SEQ_NUM,
    AVTP_CRF_FIELD_TYPE, AVTP_CRF_FIELD_STREAM_ID, AVTP_CRF_FIELD_PULL,
    AVTP_CRF_FIELD_BASE_FREQ, AVTP_CRF_FIELD_CRF_DATA_LEN,
    AVTP_CRF_FIELD_TIMESTAMP_INTERVAL]
  rw [if_neg (by omega), if_neg (by omega)]

theorem crf_set_none (p : CrfPdu) (f v : Nat) (hf : 11 ≤ f) :
    avtp_crf_pdu_set (some p) f v = (-EINVAL, some p) := by
  simp only [avtp_crf_pdu_set, AVTP_CRF_FIELD_SV, AVTP_CRF_FIELD_MR,
    AVTP_CRF_FIELD_FS, AVTP_CRF_FIELD_TU, AVTP_CRF_FIELD_SEQ_NUM,
    AVTP_CRF_FIELD_TYPE, AVTP_CRF_FIELD_STREAM_ID, AVTP_CRF_FIELD_PULL,
    AVTP_CRF_FIELD_BASE_FREQ, AVTP_CRF_FIELD_CRF_DATA_LEN,
    AVTP_CRF_FIELD_TIMESTAMP_INTERVAL]
  rw [if_neg (by omega), if_neg (by omega), if_neg (by omega)]

theorem crf_init_char (p : CrfPdu) :
    avtp_crf_pdu_init (some p) = (0, some (CrfPdu.mk 0x04800000 0 0)) := by
  have h : BITMAP_SET_VALUE 32 (avtp_pdu_set_subtype 0 AVTP_SUBTYPE_CRF) 1
      MASK_SV SHIFT_SV = 0x04800000 := by decide
  simp only [avtp_crf_pdu_init, zeroCrf]
  rw [crf_set_char _ _ 1 (by decide)]
  simp [descOf, cdescSet, AVTP_CRF_FIELD_SV, h]

end Crf

/-! ## Auxiliary arithmetic lemmas for the claims -/

theorem and_BITMASK_eq_mod (x n : Nat) : x &&& BITMASK n = x % 2 ^ n := by
  apply Nat.eq_of_testBit_eq
  intro j
  simp only [Nat.testBit_land, testBit_BITMASK, Nat.testBit_mod_two_pow]
  by_cases hj : j < n <;> simp [hj]

theorem ones_mod {wd : Nat} (h : wd ≤ 64) :
    (2 ^ 64 - 1) % 2 ^ wd = 2 ^ wd - 1 := by
  rw [← and_BITMASK_eq_mod]
  apply Nat.eq_of_testBit_eq
  intro j
  simp only [Nat.testBit_land, testBit_BITMASK, BITMASK,
    Nat.testBit_two_pow_sub_one]
  by_cases hj : j < wd
  · have : j < 64 := by omega
    simp [hj, this]
  · simp [hj]

/-! ## The claims -/

/-- C1: for every subtype accessor (stream-shared, AAF, CRF, CVF,
IEC 61883/IIDC, RVF, VSF), every recognized field `f` and every value `v` in
the field's representable range, `set(pdu, f, v)` followed by
`get(pdu, f)` returns exactly `v`, and both calls succeed. -/
theorem claim_C1 :
    (∀ (p : StreamPdu) (f v : Nat), f < Stream.AVTP_STREAM_FIELD_MAX →
      v < 2 ^ descWidth (Stream.descOf f) →
      (Stream.avtp_stream_pdu_set (some p) f v).1 = 0
      ∧ Stream.avtp_stream_pdu_get
          (Stream.avtp_stream_pdu_set (some p) f v).2 f = some v)
    ∧ (∀ (p : StreamPdu) (f v : Nat), f < Aaf.AVTP_AAF_FIELD_MAX →
      v < 2 ^ descWidth (Aaf.descOf f) →
      (Aaf.avtp_aaf_pdu_set (some p) f v).1 = 0
      ∧ Aaf.avtp_aaf_pdu_get (Aaf.avtp_aaf_pdu_set (some p) f v).2 f = some v)
    ∧ (∀ (p : CrfPdu) (f v : Nat), f < Crf.AVTP_CRF_FIELD_MAX →
      v < 2 ^ cdescWidth (Crf.descOf f) →
      (Crf.avtp_crf_pdu_set (some p) f v).1 = 0
      ∧ Crf.avtp_crf_pdu_get (Crf.avtp_crf_pdu_set (some p) f v).2 f = some v)
    ∧ (∀ (p : StreamPdu) (f v : Nat), f < Cvf.AVTP_CVF_FIELD_MAX →
      v < 2 ^ descWidth (Cvf.descOf f) →
      (Cvf.avtp_cvf_pdu_set (some p) f v).1 = 0
      ∧ Cvf.avtp_cvf_pdu_get (Cvf.avtp_cvf_pdu_set (some p) f v).2 f = some v)
    ∧ (∀ (p : StreamPdu) (f v : Nat), f < Ieciidc.AVTP_IECIIDC_FIELD_MAX →
      v < 2 ^ descWidth (Ieciidc.descOf f) →
      (Ieciidc.avtp_ieciidc_pdu_set (some p) f v).1 = 0
      ∧ Ieciidc.avtp_ieciidc_pdu_get
          (Ieciidc.avtp_ieciidc_pdu_set (some p) f v).2 f = some v)
    ∧ (∀ (p : StreamPdu) (f v : Nat), f < Rvf.AVTP_RVF_FIELD_MAX →
      v < 2 ^ descWidth (Rvf.descOf f) →
      (Rvf.avtp_rvf_pdu_set (some p) f v).1 = 0
      ∧ Rvf.avtp_rvf_pdu_get (Rvf.avtp_rvf_pdu_set (some p) f v).2 f = some v)
    ∧ (∀ (p : StreamPdu) (f v : Nat), f < Vsf.AVTP_VSF_STREAM_FIELD_MAX →
      v < 2 ^ descWidth (Vsf.descOf f) →
      (Vsf.avtp_vsf_stream_pdu_set (some p) f v).1 = 0
      ∧ Vsf.avtp_vsf_stream_pdu_get
          (Vsf.avtp_vsf_stream_pdu_set (some p) f v).2 f = some v) := by
  refine ⟨?_, ?_, ?_, ?_, ?_, ?_, ?_⟩
  · intro p f v hf hv
    rw [Stream.stream_set_char p f v hf]
    refine ⟨rfl, ?_⟩
    show Stream.avtp_stream_pdu_get (some (descSet p v (Stream.descOf f))) f
      = some v
    rw [Stream.stream_get_char _ f hf,
      descRoundtrip _ _ v (Stream.stream_descOf_wf f hf) hv]
  · intro p f v hf hv
    rw [Aaf.aaf_set_char p f v hf]
    refine ⟨rfl, ?_⟩
    show Aaf.avtp_aaf_pdu_get (some (descSet p v (Aaf.descOf f))) f = some v
    rw [Aaf.aaf_get_char _ f hf,
      descRoundtrip _ _ v (Aaf.aaf_descOf_wf f hf) hv]
  · intro p f v hf hv
    rw [Crf.crf_set_char p f v hf]
    refine ⟨rfl, ?_⟩
    show Crf.avtp_crf_pdu_get (some (cdescSet p v (Crf.descOf f))) f = some v
    rw [Crf.crf_get_char _ f hf,
      crf_descRoundtrip _ _ v (Crf.crf_descOf_wf f hf) hv]
  · intro p f v hf hv
    rw [Cvf.cvf_set_char p f v hf]
    refine ⟨rfl, ?_⟩
    show Cvf.avtp_cvf_pdu_get (some (descSet p v (Cvf.descOf f))) f = some v
    rw [Cvf.cvf_get_char _ f hf,
      descRoundtrip _ _ v (Cvf.cvf_descOf_wf f hf) hv]
  · intro p f v hf hv
    rw [Ieciidc.ieciidc_set_char p f v hf]
    refine ⟨rfl, ?_⟩
    show Ieciidc.avtp_ieciidc_pdu_get (some (descSet p v (Ieciidc.descOf f))) f
      = some v
    rw [Ieciidc.ieciidc_get_char _ f hf,
      descRoundtrip _ _ v (Ieciidc.ieciidc_descOf_wf f hf) hv]
  · intro p f v hf hv
    rw [Rvf.rvf_set_char p f v hf]
    refine ⟨rfl, ?_⟩
    show Rvf.avtp_rvf_pdu_get (some (descSet p v (Rvf.descOf f))) f = some v
    rw [Rvf.rvf_get_char _ f hf,
      descRoundtrip _ _ v (Rvf.rvf_descOf_wf f hf) hv]
  · intro p f v hf hv
    rw [Vsf.vsf_set_char p f v hf]
    refine ⟨rfl, ?_⟩
    show Vsf.avtp_vsf_stream_pdu_get (some (descSet p v (Vsf.descOf f))) f
      = some v
    rw [Vsf.vsf_get_char _ f hf,
      descRoundtrip _ _ v (Vsf.vsf_descOf_wf f hf) hv]

/-- Witness for C1 at the AAF `format` field, value 0xAB, on a zeroed PDU. -/
theorem claim_C1_witness :
    (Aaf.AVTP_AAF_FIELD_FORMAT < Aaf.AVTP_AAF_FIELD_MAX
      ∧ 0xAB < 2 ^ descWidth (Aaf.descOf Aaf.AVTP_AAF_FIELD_FORMAT))
    ∧ ((Aaf.avtp_aaf_pdu_set (some zeroStream) Aaf.AVTP_AAF_FIELD_FORMAT
        0xAB).1 = 0
      ∧ Aaf.avtp_aaf_pdu_get (Aaf.avtp_aaf_pdu_set (some zeroStream)
          Aaf.AVTP_AAF_FIELD_FORMAT 0xAB).2 Aaf.AVTP_AAF_FIELD_FORMAT
        = some 0xAB) :=
  ⟨⟨by decide, by decide⟩,
    claim_C1.2.1 zeroStream Aaf.AVTP_AAF_FIELD_FORMAT 0xAB (by decide)
      (by decide)⟩






/-- C2 counterexample: the spec promises that setting any field leaves every
OTHER field unchanged, but in the IEC 61883/IIDC accessor the fields
`CIP_TSF` and `CIP_ND` occupy the same bit of `cip_2`, so setting `CIP_TSF`
to 1 on a zeroed PDU changes the value read back for `CIP_ND`. -/
theorem claim_C2_counterexample :
    Ieciidc.avtp_ieciidc_pdu_get
        ((Ieciidc.avtp_ieciidc_pdu_set (some zeroStream)
            Ieciidc.AVTP_IECIIDC_FIELD_CIP_TSF 1).2)
        Ieciidc.AVTP_IECIIDC_FIELD_CIP_ND
      ≠ Ieciidc.avtp_ieciidc_pdu_get (some zeroStream)
          Ieciidc.AVTP_IECIIDC_FIELD_CIP_ND := by decide

/-- C2 amended: setting field `f` leaves field `g` unchanged whenever the
registry footprints of `f` and `g` are disjoint (`fpDisjoint`): this covers
every pair of distinct fields except the overlapping IEC 61883/IIDC CIP
pairs (`CIP_TSF`/`CIP_ND` share a bit; `CIP_NO_DATA` overlaps
`CIP_TSF`, `CIP_ND`, `CIP_EVT`, `CIP_N` and `CIP_SFC`). -/
theorem claim_C2_amended :
    (∀ (p : StreamPdu) (f g v : Nat), f < Stream.AVTP_STREAM_FIELD_MAX →
      g < Stream.AVTP_STREAM_FIELD_MAX →
      fpDisjoint (Stream.descOf f) (Stream.descOf g) = true →
      Stream.avtp_stream_pdu_get (Stream.avtp_stream_pdu_set (some p) f v).2 g
        = Stream.avtp_stream_pdu_get (some p) g)
    ∧ (∀ (p : StreamPdu) (f g v : Nat), f < Aaf.AVTP_AAF_FIELD_MAX →
      g < Aaf.AVTP_AAF_FIELD_MAX →
      fpDisjoint (Aaf.descOf f) (Aaf.descOf g) = true →
      Aaf.avtp_aaf_pdu_get (Aaf.avtp_aaf_pdu_set (some p) f v).2 g
        = Aaf.avtp_aaf_pdu_get (some p) g)
    ∧ (∀ (p : CrfPdu) (f g v : Nat), f < Crf.AVTP_CRF_FIELD_MAX →
      g < Crf.AVTP_CRF_FIELD_MAX →
      cfpDisjoint (Crf.descOf f) (Crf.descOf g) = true →
      Crf.avtp_crf_pdu_get (Crf.avtp_crf_pdu_set (some p) f v).2 g
        = Crf.avtp_crf_pdu_get (some p) g)
    ∧ (∀ (p : StreamPdu) (f g v : Nat), f < Cvf.AVTP_CVF_FIELD_MAX →
      g < Cvf.AVTP_CVF_FIELD_MAX →
      fpDisjoint (Cvf.descOf f) (Cvf.descOf g) = true →
      Cvf.avtp_cvf_pdu_get (Cvf.avtp_cvf_pdu_set (some p) f v).2 g
        = Cvf.avtp_cvf_pdu_get (some p) g)
    ∧ (∀ (p : StreamPdu) (f g v : Nat), f < Ieciidc.AVTP_IECIIDC_FIELD_MAX →
      g < Ieciidc.AVTP_IECIIDC_FIELD_MAX →
      fpDisjoint (Ieciidc.descOf f) (Ieciidc.descOf g) = true →
      Ieciidc.avtp_ieciidc_pdu_get
          (Ieciidc.avtp_ieciidc_pdu_set (some p) f v).2 g
        = Ieciidc.avtp_ieciidc_pdu_get (some p) g)
    ∧ (∀ (p : StreamPdu) (f g v : Nat), f < Rvf.AVTP_RVF_FIELD_MAX →
      g < Rvf.AVTP_RVF_FIELD_MAX →
      fpDisjoint (Rvf.descOf f) (Rvf.descOf g) = true →
      Rvf.avtp_rvf_pdu_get (Rvf.avtp_rvf_pdu_set (some p) f v).2 g
        = Rvf.avtp_rvf_pdu_get (some p) g)
    ∧ (∀ (p : StreamPdu) (f g v : Nat), f < Vsf.AVTP_VSF_STREAM_FIELD_MAX →
      g < Vsf.AVTP_VSF_STREAM_FIELD_MAX →
      fpDisjoint (Vsf.descOf f) (Vsf.descOf g) = true →
      Vsf.avtp_vsf_stream_pdu_get
          (Vsf.avtp_vsf_stream_pdu_set (some p) f v).2 g
        = Vsf.avtp_vsf_stream_pdu_get (some p) g) := by
  refine ⟨?_, ?_, ?_, ?_, ?_, ?_, ?_⟩
  · intro p f g v hf hg hd
    rw [Stream.stream_set_char p f v hf]
    show Stream.avtp_stream_pdu_get (some (descSet p v (Stream.descOf f))) g
      = _
    rw [Stream.stream_get_char _ g hg, Stream.stream_get_char p g hg]
    exact congrArg some (descPreserve _ _ p v
      (Stream.stream_descOf_wf f hf) (Stream.stream_descOf_wf g hg)
      (Stream.stream_descOf_compat f hf g hg) hd)
  · intro p f g v hf hg hd
    rw [Aaf.aaf_set_char p f v hf]
    show Aaf.avtp_aaf_pdu_get (some (descSet p v (Aaf.descOf f))) g = _
    rw [Aaf.aaf_get_char _ g hg, Aaf.aaf_get_char p g hg]
    exact congrArg some (descPreserve _ _ p v
      (Aaf.aaf_descOf_wf f hf) (Aaf.aaf_descOf_wf g hg)
      (Aaf.aaf_descOf_compat f hf g hg) hd)
  · intro p f g v hf hg hd
    rw [Crf.crf_set_char p f v hf]
    show Crf.avtp_crf_pdu_get (some (cdescSet p v (Crf.descOf f))) g = _
    rw [Crf.crf_get_char _ g hg, Crf.crf_get_char p g hg]
    exact congrArg some (crf_descPreserve _ _ p v
      (Crf.crf_descOf_wf f hf) (Crf.crf_descOf_wf g hg) hd)
  · intro p f g v hf hg hd
    rw [Cvf.cvf_set_char p f v hf]
    show Cvf.avtp_cvf_pdu_get (some (descSet p v (Cvf.descOf f))) g = _
    rw [Cvf.cvf_get_char _ g hg, Cvf.cvf_get_char p g hg]
    exact congrArg some (descPreserve _ _ p v
      (Cvf.cvf_descOf_wf f hf) (Cvf.cvf_descOf_wf g hg)
      (Cvf.cvf_descOf_compat f hf g hg) hd)
  · intro p f g v hf hg hd
    rw [Ieciidc.ieciidc_set_char p f v hf]
    show Ieciidc.avtp_ieciidc_pdu_get
        (some (descSet p v (Ieciidc.descOf f))) g = _
    rw [Ieciidc.ieciidc_get_char _ g hg, Ieciidc.ieciidc_get_char p g hg]
    exact congrArg some (descPreserve _ _ p v
      (Ieciidc.ieciidc_descOf_wf f hf) (Ieciidc.ieciidc_descOf_wf g hg)
      (Ieciidc.ieciidc_descOf_compat f hf g hg) hd)
  · intro p f g v hf hg hd
    rw [Rvf.rvf_set_char p f v hf]
    show Rvf.avtp_rvf_pdu_get (some (descSet p v (Rvf.descOf f))) g = _
    rw [Rvf.rvf_get_char _ g hg, Rvf.rvf_get_char p g hg]
    exact congrArg some (descPreserve _ _ p v
      (Rvf.rvf_descOf_wf f hf) (Rvf.rvf_descOf_wf g hg)
      (Rvf.rvf_descOf_compat f hf g hg) hd)
  · intro p f g v hf hg hd
    rw [Vsf.vsf_set_char p f v hf]
    show Vsf.avtp_vsf_stream_pdu_get (some (descSet p v (Vsf.descOf f))) g = _
    rw [Vsf.vsf_get_char _ g hg, Vsf.vsf_get_char p g hg]
    exact congrArg some (descPreserve _ _ p v
      (Vsf.vsf_descOf_wf f hf) (Vsf.vsf_descOf_wf g hg)
      (Vsf.vsf_descOf_compat f hf g hg) hd)

/-- Witness for the amended C2 at AAF `format` vs `nsr` on a zeroed PDU. -/
theorem claim_C2_amended_witness :
    (Aaf.AVTP_AAF_FIELD_FORMAT < Aaf.AVTP_AAF_FIELD_MAX
      ∧ Aaf.AVTP_AAF_FIELD_NSR < Aaf.AVTP_AAF_FIELD_MAX
      ∧ fpDisjoint (Aaf.descOf Aaf.AVTP_AAF_FIELD_FORMAT)
          (Aaf.descOf Aaf.AVTP_AAF_FIELD_NSR) = true)
    ∧ Aaf.avtp_aaf_pdu_get
        (Aaf.avtp_aaf_pdu_set (some zeroStream) Aaf.AVTP_AAF_FIELD_FORMAT
          7).2 Aaf.AVTP_AAF_FIELD_NSR
      = Aaf.avtp_aaf_pdu_get (some zeroStream) Aaf.AVTP_AAF_FIELD_NSR :=
  ⟨⟨by decide, by decide, by decide⟩,
    claim_C2_amended.2.1 zeroStream Aaf.AVTP_AAF_FIELD_FORMAT
      Aaf.AVTP_AAF_FIELD_NSR 7 (by decide) (by decide) (by decide)⟩


/-- Byte formula for a 32-bit read-modify-write bit-field written into a
zeroed word. -/
theorem c3_core_b32 (w1 : W32) (m s wd : Nat) (p : StreamPdu) (v i : Nat)
    (h0 : getW p w1 = 0) :
    beByte (getW (descSet p v (.b32 w1 m s wd)) w1) i
      = (((v <<< s) &&& m) >>> (8 * (3 - i))) &&& 0xFF := by
  rw [upd_b32, if_pos rfl, h0]
  simp [BITMAP_SET_VALUE, beByte, Nat.zero_and, Nat.zero_or]

/-- Byte formula for a direct 32-bit store. -/
theorem c3_core_dir32 (w1 : W32) (p : StreamPdu) (v i : Nat) :
    beByte (getW (descSet p v (.dir32 w1)) w1) i
      = (((v <<< 0) &&& BITMASK 32) >>> (8 * (3 - i))) &&& 0xFF := by
  rw [upd_dir32, if_pos rfl, Nat.shiftLeft_zero, and_BITMASK_eq_mod]
  rfl

/-- Byte formula for a CRF 32-bit bit-field written into a zeroed word. -/
theorem c3_core_cb32 (m s wd : Nat) (p : CrfPdu) (v i : Nat)
    (h0 : p.subtype_data = 0) :
    beByte (cdescSet p v (.cb32 m s wd)).subtype_data i
      = (((v <<< s) &&& m) >>> (8 * (3 - i))) &&& 0xFF := by
  simp [cdescSet, h0, BITMAP_SET_VALUE, beByte, Nat.zero_and, Nat.zero_or]

/-- The wire-byte property of §8 for one field of a stream-layout accessor,
restricted to the case in which the containing 32-bit word was zero before
the `set` (only then does the claimed formula coincide with the
read-modify-write the code performs); trivially true for fields that do not
live in a single 32-bit word. -/
def C3Stmt (setF : Option StreamPdu → Nat → Nat → Int × Option StreamPdu)
    (d : Desc) (f : Nat) : Prop :=
  match d with
  | .b32 w m s _ => ∀ (p : StreamPdu) (v i : Nat), i < 4 → getW p w = 0 →
      ((setF (some p) f v).2.map (fun q => beByte (getW q w) i))
        = some ((((v <<< s) &&& m) >>> (8 * (3 - i))) &&& 0xFF)
  | .dir32 w => ∀ (p : StreamPdu) (v i : Nat), i < 4 → getW p w = 0 →
      ((setF (some p) f v).2.map (fun q => beByte (getW q w) i))
        = some ((((v <<< 0) &&& BITMASK 32) >>> (8 * (3 - i))) &&& 0xFF)
  | _ => True


/-- As `C3Stmt`, for the CRF accessor (whose only 32-bit word is
`subtype_data`). -/
def C3StmtCrf (d : CDesc) (f : Nat) : Prop :=
  match d with
  | .cb32 m s _ => ∀ (p : CrfPdu) (v i : Nat), i < 4 → p.subtype_data = 0 →
      ((Crf.avtp_crf_pdu_set (some p) f v).2.map
          (fun q => beByte q.subtype_data i))
        = some ((((v <<< s) &&& m) >>> (8 * (3 - i))) &&& 0xFF)
  | _ => True

/-- C3 counterexample: §8 claims that after `set(pdu, f, v)` byte `i` of the
word holding `f` equals `((v << shift) & mask) >> (8*(3-i)) & 0xFF`
unconditionally; but the setters read-modify-write, so bits of the word
outside `mask` survive.  With `subtype_data` initially 1, setting the
stream `sv` bit makes byte 3 equal 1, while the claimed formula yields 0. -/
theorem claim_C3_counterexample :
    ((Stream.avtp_stream_pdu_set (some (StreamPdu.mk 1 0 0 0 0 0 0))
        Stream.AVTP_STREAM_FIELD_SV 1).2.map
          (fun q => beByte (getW q .std) 3))
      ≠ some ((((1 <<< Stream.SHIFT_SV) &&& Stream.MASK_SV) >>> (8 * (3 - 3)))
          &&& 0xFF) := by decide

/-- C3 amended: the wire-byte formula of §8 holds for every field stored in
a single 32-bit word (`b32`/`dir32` descriptors), for every byte index and
every value, provided the containing word is zero before the `set` (for
example right after an initializer zeroes the header). -/
theorem claim_C3_amended :
    (∀ f, f < Stream.AVTP_STREAM_FIELD_MAX →
      C3Stmt Stream.avtp_stream_pdu_set (Stream.descOf f) f)
    ∧ (∀ f, f < Aaf.AVTP_AAF_FIELD_MAX →
      C3Stmt Aaf.avtp_aaf_pdu_set (Aaf.descOf f) f)
    ∧ (∀ f, f < Crf.AVTP_CRF_FIELD_MAX → C3StmtCrf (Crf.descOf f) f)
    ∧ (∀ f, f < Cvf.AVTP_CVF_FIELD_MAX →
      C3Stmt Cvf.avtp_cvf_pdu_set (Cvf.descOf f) f)
    ∧ (∀ f, f < Ieciidc.AVTP_IECIIDC_FIELD_MAX →
      C3Stmt Ieciidc.avtp_ieciidc_pdu_set (Ieciidc.descOf f) f)
    ∧ (∀ f, f < Rvf.AVTP_RVF_FIELD_MAX →
      C3Stmt Rvf.avtp_rvf_pdu_set (Rvf.descOf f) f)
    ∧ (∀ f, f < Vsf.AVTP_VSF_STREAM_FIELD_MAX →
      C3Stmt Vsf.avtp_vsf_stream_pdu_set (Vsf.descOf f) f) := by
  refine ⟨?_, ?_, ?_, ?_, ?_, ?_, ?_⟩
  · intro f hf
    have hfl : f < 8 := hf
    clear hf
    interval_cases f <;>
      first
        | trivial
        | (intro p v i _hi h0
           rw [Stream.stream_set_char _ _ v (by decide)]
           exact congrArg some (c3_core_b32 _ _ _ _ p v i h0))
        | (intro p v i _hi _h0
           rw [Stream.stream_set_char _ _ v (by decide)]
           exact congrArg some (c3_core_dir32 _ p v i))
  · intro f hf
    have hfl : f < 14 := hf
    clear hf
    interval_cases f <;>
      first
        | trivial
        | (intro p v i _hi h0
           rw [Aaf.aaf_set_char _ _ v (by decide)]
           exact congrArg some (c3_core_b32 _ _ _ _ p v i h0))
        | (intro p v i _hi _h0
           rw [Aaf.aaf_set_char _ _ v (by decide)]
           exact congrArg some (c3_core_dir32 _ p v i))
  · intro f hf
    have hfl : f < 11 := hf
    clear hf
    interval_cases f <;>
      first
        | trivial
        | (intro p v i _hi h0
           rw [Crf.crf_set_char _ _ v (by decide)]
           exact congrArg some (c3_core_cb32 _ _ _ p v i h0))
  · intro f hf
    have hfl : f < 14 := hf
    clear hf
    interval_cases f <;>
      first
        | trivial
        | (intro p v i _hi h0
           rw [Cvf.cvf_set_char _ _ v (by decide)]
           exact congrArg some (c3_core_b32 _ _ _ _ p v i h0))
        | (intro p v i _hi _h0
           rw [Cvf.cvf_set_char _ _ v (by decide)]
           exact congrArg some (c3_core_dir32 _ p v i))
  · intro f hf
    have hfl : f < 30 := hf
    clear hf
    interval_cases f <;>
      first
        | trivial
        | (intro p v i _hi h0
           rw [Ieciidc.ieciidc_set_char _ _ v (by decide)]
           exact congrArg some (c3_core_b32 _ _ _ _ p v i h0))
        | (intro p v i _hi _h0
           rw [Ieciidc.ieciidc_set_char _ _ v (by decide)]
           exact congrArg some (c3_core_dir32 _ p v i))
  · intro f hf
    have hfl : f < 23 := hf
    clear hf
    interval_cases f <;>
      first
        | trivial
        | (intro p v i _hi h0
           rw [Rvf.rvf_set_char _ _ v (by decide)]
           exact congrArg some (c3_core_b32 _ _ _ _ p v i h0))
        | (intro p v i _hi _h0
           rw [Rvf.rvf_set_char _ _ v (by decide)]
           exact congrArg some (c3_core_dir32 _ p v i))
  · intro f hf
    have hfl : f < 9 := hf
    clear hf
    interval_cases f <;>
      first
        | trivial
        | (intro p v i _hi h0
           rw [Vsf.vsf_set_char _ _ v (by decide)]
           exact congrArg some (c3_core_b32 _ _ _ _ p v i h0))
        | (intro p v i _hi _h0
           rw [Vsf.vsf_set_char _ _ v (by decide)]
           exact congrArg some (c3_core_dir32 _ p v i))

/-- Witness for the amended C3 at the stream `sv` bit, byte 0, on a zeroed
PDU. -/
theorem claim_C3_amended_witness :
    (Stream.AVTP_STREAM_FIELD_SV < Stream.AVTP_STREAM_FIELD_MAX
      ∧ (0:Nat) < 4 ∧ getW zeroStream .std = 0)
    ∧ ((Stream.avtp_stream_pdu_set (some zeroStream)
        Stream.AVTP_STREAM_FIELD_SV 1).2.map
          (fun q => beByte (getW q .std) 0))
      = some ((((1 <<< Stream.SHIFT_SV) &&& Stream.MASK_SV) >>> (8 * (3 - 0)))
          &&& 0xFF) :=
  ⟨⟨by decide, by decide, rfl⟩,
    (claim_C3_amended.1 Stream.AVTP_STREAM_FIELD_SV (by decide)) zeroStream 1
      0 (by decide) rfl⟩


/-- C4: each initializer returns success, sets the subtype byte and `sv`
(plus, for CVF, `format`/`format_subtype` and, for IEC 61883/IIDC, `tcode`
and the `tag` argument), makes every other fixed-header field of the
subtype read back 0, and leaves the payload words (`avtp_payload`) of the
buffer untouched (fields stored in the payload — the CVF H.264 timestamp
and the IEC 61883/IIDC CIP words — therefore keep the old buffer contents
and are exactly the ones excluded from the read-back-0 quantifier). -/
theorem claim_C4 :
    (∀ p : StreamPdu,
      (Aaf.avtp_aaf_pdu_init (some p)).1 = 0
      ∧ (Aaf.avtp_aaf_pdu_init (some p)).2.map
          (fun q => avtp_pdu_get_subtype q.subtype_data)
        = some AVTP_SUBTYPE_AAF
      ∧ Aaf.avtp_aaf_pdu_get (Aaf.avtp_aaf_pdu_init (some p)).2
          Aaf.AVTP_AAF_FIELD_SV = some 1
      ∧ (∀ f, f < Aaf.AVTP_AAF_FIELD_MAX → f ≠ Aaf.AVTP_AAF_FIELD_SV →
          Aaf.avtp_aaf_pdu_get (Aaf.avtp_aaf_pdu_init (some p)).2 f = some 0)
      ∧ (Aaf.avtp_aaf_pdu_init (some p)).2.map StreamPdu.pay0 = some p.pay0
      ∧ (Aaf.avtp_aaf_pdu_init (some p)).2.map StreamPdu.pay1 = some p.pay1)
    ∧ (∀ (p : StreamPdu) (st : Nat),
        st ≤ Cvf.AVTP_CVF_FORMAT_SUBTYPE_JPEG2000 →
      (Cvf.avtp_cvf_pdu_init (some p) st).1 = 0
      ∧ (Cvf.avtp_cvf_pdu_init (some p) st).2.map
          (fun q => avtp_pdu_get_subtype q.subtype_data)
        = some AVTP_SUBTYPE_CVF
      ∧ Cvf.avtp_cvf_pdu_get (Cvf.avtp_cvf_pdu_init (some p) st).2
          Cvf.AVTP_CVF_FIELD_SV = some 1
      ∧ Cvf.avtp_cvf_pdu_get (Cvf.avtp_cvf_pdu_init (some p) st).2
          Cvf.AVTP_CVF_FIELD_FORMAT = some Cvf.AVTP_CVF_FORMAT_RFC
      ∧ Cvf.avtp_cvf_pdu_get (Cvf.avtp_cvf_pdu_init (some p) st).2
          Cvf.AVTP_CVF_FIELD_FORMAT_SUBTYPE = some st
      ∧ (∀ f, f < Cvf.AVTP_CVF_FIELD_MAX → f ≠ Cvf.AVTP_CVF_FIELD_SV →
          f ≠ Cvf.AVTP_CVF_FIELD_FORMAT →
          f ≠ Cvf.AVTP_CVF_FIELD_FORMAT_SUBTYPE →
          f ≠ Cvf.AVTP_CVF_FIELD_H264_TIMESTAMP →
          Cvf.avtp_cvf_pdu_get (Cvf.avtp_cvf_pdu_init (some p) st).2 f
            = some 0)
      ∧ (Cvf.avtp_cvf_pdu_init (some p) st).2.map StreamPdu.pay0
        = some p.pay0
      ∧ (Cvf.avtp_cvf_pdu_init (some p) st).2.map StreamPdu.pay1
        = some p.pay1)
    ∧ (∀ (p : StreamPdu) (tag : Nat), tag ≤ 1 →
      (Ieciidc.avtp_ieciidc_pdu_init (some p) tag).1 = 0
      ∧ (Ieciidc.avtp_ieciidc_pdu_init (some p) tag).2.map
          (fun q => avtp_pdu_get_subtype q.subtype_data)
        = some AVTP_SUBTYPE_61883_IIDC
      ∧ Ieciidc.avtp_ieciidc_pdu_get
          (Ieciidc.avtp_ieciidc_pdu_init (some p) tag).2
          Ieciidc.AVTP_IECIIDC_FIELD_SV = some 1
      ∧ Ieciidc.avtp_ieciidc_pdu_get
          (Ieciidc.avtp_ieciidc_pdu_init (some p) tag).2
          Ieciidc.AVTP_IECIIDC_FIELD_TCODE = some 0x0A
      ∧ Ieciidc.avtp_ieciidc_pdu_get
          (Ieciidc.avtp_ieciidc_pdu_init (some p) tag).2
          Ieciidc.AVTP_IECIIDC_FIELD_TAG = some tag
      ∧ (∀ f, f < 14 → f ≠ Ieciidc.AVTP_IECIIDC_FIELD_SV →
          f ≠ Ieciidc.AVTP_IECIIDC_FIELD_TAG →
          f ≠ Ieciidc.AVTP_IECIIDC_FIELD_TCODE →
          Ieciidc.avtp_ieciidc_pdu_get
            (Ieciidc.avtp_ieciidc_pdu_init (some p) tag).2 f = some 0)
      ∧ (Ieciidc.avtp_ieciidc_pdu_init (some p) tag).2.map StreamPdu.pay0
        = some p.pay0
      ∧ (Ieciidc.avtp_ieciidc_pdu_init (some p) tag).2.map StreamPdu.pay1
        = some p.pay1)
    ∧ (∀ p : StreamPdu,
      (Rvf.avtp_rvf_pdu_init (some p)).1 = 0
      ∧ (Rvf.avtp_rvf_pdu_init (some p)).2.map
          (fun q => avtp_pdu_get_subtype q.subtype_data)
        = some AVTP_SUBTYPE_RVF
      ∧ Rvf.avtp_rvf_pdu_get (Rvf.avtp_rvf_pdu_init (some p)).2
          Rvf.AVTP_RVF_FIELD_SV = some 1
      ∧ (∀ f, f < 16 → f ≠ Rvf.AVTP_RVF_FIELD_SV →
          Rvf.avtp_rvf_pdu_get (Rvf.avtp_rvf_pdu_init (some p)).2 f = some 0)
      ∧ (Rvf.avtp_rvf_pdu_init (some p)).2.map StreamPdu.pay0 = some p.pay0
      ∧ (Rvf.avtp_rvf_pdu_init (some p)).2.map StreamPdu.pay1 = some p.pay1)
    ∧ (∀ p : StreamPdu,
      (Vsf.avtp_vsf_stream_pdu_init (some p)).1 = 0
      ∧ (Vsf.avtp_vsf_stream_pdu_init (some p)).2.map
          (fun q => avtp_pdu_get_subtype q.subtype_data)
        = some AVTP_SUBTYPE_VSF_STREAM
      ∧ Vsf.avtp_vsf_stream_pdu_get (Vsf.avtp_vsf_stream_pdu_init (some p)).2
          Vsf.AVTP_VSF_STREAM_FIELD_SV = some 1
      ∧ (∀ f, f < Vsf.AVTP_VSF_STREAM_FIELD_MAX →
          f ≠ Vsf.AVTP_VSF_STREAM_FIELD_SV →
          Vsf.avtp_vsf_stream_pdu_get
            (Vsf.avtp_vsf_stream_pdu_init (some p)).2 f = some 0)
      ∧ (Vsf.avtp_vsf_stream_pdu_init (some p)).2.map StreamPdu.pay0
        = some p.pay0
      ∧ (Vsf.avtp_vsf_stream_pdu_init (some p)).2.map StreamPdu.pay1
        = some p.pay1)
    ∧ (∀ p : CrfPdu,
      (Crf.avtp_crf_pdu_init (some p)).1 = 0
      ∧ (Crf.avtp_crf_pdu_init (some p)).2.map
          (fun q => avtp_pdu_get_subtype q.subtype_data)
        = some AVTP_SUBTYPE_CRF
      ∧ Crf.avtp_crf_pdu_get (Crf.avtp_crf_pdu_init (some p)).2
          Crf.AVTP_CRF_FIELD_SV = some 1
      ∧ (∀ f, f < Crf.AVTP_CRF_FIELD_MAX → f ≠ Crf.AVTP_CRF_FIELD_SV →
          Crf.avtp_crf_pdu_get (Crf.avtp_crf_pdu_init (some p)).2 f
            = some 0)) := by
  refine ⟨?_, ?_, ?_, ?_, ?_, ?_⟩
  · intro p
    rw [Aaf.aaf_init_char p]
    dsimp only
    refine ⟨rfl, ?_, ?_, ?_, rfl, rfl⟩
    · exact congrArg some
        (by decide : avtp_pdu_get_subtype 0x02800000 = AVTP_SUBTYPE_AAF)
    · rw [Aaf.aaf_get_char _ _ (by decide)]
      refine congrArg some ?_
      simp [Aaf.AVTP_AAF_FIELD_SV, Aaf.descOf, Stream.descOf, descGet,
        getW, BITMAP_GET_VALUE]
      try decide
    · intro f hf hne
      have hfl : f < 14 := hf
      clear hf
      interval_cases f <;>
        first
          | exact absurd rfl hne
          | (rw [Aaf.aaf_get_char _ _ (by decide)]
             refine congrArg some ?_
             simp [Aaf.AVTP_AAF_FIELD_SV, Aaf.descOf, Stream.descOf, descGet,
               getW, BITMAP_GET_VALUE]
             try decide)
  · intro p st hst
    have hst2 : st ≤ 2 := hst
    interval_cases st
    · rw [Cvf.cvf_init_char p 0 (by decide)]
      dsimp only
      refine ⟨rfl, ?_, ?_, ?_, ?_, ?_, rfl, rfl⟩
      · exact congrArg some
          (by decide : avtp_pdu_get_subtype 0x03800000 = AVTP_SUBTYPE_CVF)
      · rw [Cvf.cvf_get_char _ _ (by decide)]
        refine congrArg some ?_
        simp [Cvf.AVTP_CVF_FIELD_SV, Cvf.AVTP_CVF_FIELD_FORMAT,
          Cvf.AVTP_CVF_FIELD_FORMAT_SUBTYPE, Cvf.descOf, Stream.descOf,
          descGet, getW, BITMAP_GET_VALUE]
        try decide
      · rw [Cvf.cvf_get_char _ _ (by decide)]
        refine congrArg some ?_
        simp [Cvf.AVTP_CVF_FIELD_SV, Cvf.AVTP_CVF_FIELD_FORMAT,
          Cvf.AVTP_CVF_FIELD_FORMAT_SUBTYPE, Cvf.descOf, Stream.descOf,
          descGet, getW, BITMAP_GET_VALUE]
        try decide
      · rw [Cvf.cvf_get_char _ _ (by decide)]
        refine congrArg some ?_
        simp [Cvf.AVTP_CVF_FIELD_SV, Cvf.AVTP_CVF_FIELD_FORMAT,
          Cvf.AVTP_CVF_FIELD_FORMAT_SUBTYPE, Cvf.descOf, Stream.descOf,
          descGet, getW, BITMAP_GET_VALUE]
        try decide
      · intro f hf hn0 hn8 hn9 hn13
        have hfl : f < 14 := hf
        clear hf
        interval_cases f <;>
          first
            | exact absurd rfl hn0
            | exact absurd rfl hn8
            | exact absurd rfl hn9
            | exact absurd rfl hn13
            | (rw [Cvf.cvf_get_char _ _ (by decide)]
               refine congrArg some ?_
               simp [Cvf.AVTP_CVF_FIELD_SV, Cvf.AVTP_CVF_FIELD_FORMAT,
                 Cvf.AVTP_CVF_FIELD_FORMAT_SUBTYPE, Cvf.descOf,
                 Stream.descOf, descGet, getW, BITMAP_GET_VALUE]
               try decide)
    · rw [Cvf.cvf_init_char p 1 (by decide)]
      dsimp only
      refine ⟨rfl, ?_, ?_, ?_, ?_, ?_, rfl, rfl⟩
      · exact congrArg some
          (by decide : avtp_pdu_get_subtype 0x03800000 = AVTP_SUBTYPE_CVF)
      · rw [Cvf.cvf_get_char _ _ (by decide)]
        refine congrArg some ?_
        simp [Cvf.AVTP_CVF_FIELD_SV, Cvf.AVTP_CVF_FIELD_FORMAT,
          Cvf.AVTP_CVF_FIELD_FORMAT_SUBTYPE, Cvf.descOf, Stream.descOf,
          descGet, getW, BITMAP_GET_VALUE]
        try decide
      · rw [Cvf.cvf_get_char _ _ (by decide)]
        refine congrArg some ?_
        simp [Cvf.AVTP_CVF_FIELD_SV, Cvf.AVTP_CVF_FIELD_FORMAT,
          Cvf.AVTP_CVF_FIELD_FORMAT_SUBTYPE, Cvf.descOf, Stream.descOf,
          descGet, getW, BITMAP_GET_VALUE]
        try decide
      · rw [Cvf.cvf_get_char _ _ (by decide)]
        refine congrArg some ?_
        simp [Cvf.AVTP_CVF_FIELD_SV, Cvf.AVTP_CVF_FIELD_FORMAT,
          Cvf.AVTP_CVF_FIELD_FORMAT_SUBTYPE, Cvf.descOf, Stream.descOf,
          descGet, getW, BITMAP_GET_VALUE]
        try decide
      · intro f hf hn0 hn8 hn9 hn13
        have hfl : f < 14 := hf
        clear hf
        interval_cases f <;>
          first
            | exact absurd rfl hn0
            | exact absurd rfl hn8
            | exact absurd rfl hn9
            | exact absurd rfl hn13
            | (rw [Cvf.cvf_get_char _ _ (by decide)]
               refine congrArg some ?_
               simp [Cvf.AVTP_CVF_FIELD_SV, Cvf.AVTP_CVF_FIELD_FORMAT,
                 Cvf.AVTP_CVF_FIELD_FORMAT_SUBTYPE, Cvf.descOf,
                 Stream.descOf, descGet, getW, BITMAP_GET_VALUE]
               try decide)
    · rw [Cvf.cvf_init_char p 2 (by decide)]
      dsimp only
      refine ⟨rfl, ?_, ?_, ?_, ?_, ?_, rfl, rfl⟩
      · exact congrArg some
          (by decide : avtp_pdu_get_subtype 0x03800000 = AVTP_SUBTYPE_CVF)
      · rw [Cvf.cvf_get_char _ _ (by decide)]
        refine congrArg some ?_
        simp [Cvf.AVTP_CVF_FIELD_SV, Cvf.AVTP_CVF_FIELD_FORMAT,
          Cvf.AVTP_CVF_FIELD_FORMAT_SUBTYPE, Cvf.descOf, Stream.descOf,
          descGet, getW, BITMAP_GET_VALUE]
        try decide
      · rw [Cvf.cvf_get_char _ _ (by decide)]
        refine congrArg some ?_
        simp [Cvf.AVTP_CVF_FIELD_SV, Cvf.AVTP_CVF_FIELD_FORMAT,
          Cvf.AVTP_CVF_FIELD_FORMAT_SUBTYPE, Cvf.descOf, Stream.descOf,
          descGet, getW, BITMAP_GET_VALUE]
        try decide
      · rw [Cvf.cvf_get_char _ _ (by decide)]
        refine congrArg some ?_
        simp [Cvf.AVTP_CVF_FIELD_SV, Cvf.AVTP_CVF_FIELD_FORMAT,
          Cvf.AVTP_CVF_FIELD_FORMAT_SUBTYPE, Cvf.descOf, Stream.descOf,
          descGet, getW, BITMAP_GET_VALUE]
        try decide
      · intro f hf hn0 hn8 hn9 hn13
        have hfl : f < 14 := hf
        clear hf
        interval_cases f <;>
          first
            | exact absurd rfl hn0
            | exact absurd rfl hn8
            | exact absurd rfl hn9
            | exact absurd rfl hn13
            | (rw [Cvf.cvf_get_char _ _ (by decide)]
               refine congrArg some ?_
               simp [Cvf.AVTP_CVF_FIELD_SV, Cvf.AVTP_CVF_FIELD_FORMAT,
                 Cvf.AVTP_CVF_FIELD_FORMAT_SUBTYPE, Cvf.descOf,
                 Stream.descOf, descGet, getW, BITMAP_GET_VALUE]
               try decide)
  · intro p tag htag
    have ht2 : tag ≤ 1 := htag
    interval_cases tag
    · rw [Ieciidc.ieciidc_init_char p 0 (by decide)]
      dsimp only
      refine ⟨rfl, ?_, ?_, ?_, ?_, ?_, rfl, rfl⟩
      · exact congrArg some
          (by decide :
            avtp_pdu_get_subtype 0x00800000 = AVTP_SUBTYPE_61883_IIDC)
      · rw [Ieciidc.ieciidc_get_char _ _ (by decide)]
        refine congrArg some ?_
        simp [Ieciidc.AVTP_IECIIDC_FIELD_SV, Ieciidc.AVTP_IECIIDC_FIELD_TCODE,
          Ieciidc.AVTP_IECIIDC_FIELD_TAG, Ieciidc.descOf, Stream.descOf,
          descGet, getW, BITMAP_GET_VALUE]
        try decide
      · rw [Ieciidc.ieciidc_get_char _ _ (by decide)]
        refine congrArg some ?_
        simp [Ieciidc.AVTP_IECIIDC_FIELD_SV, Ieciidc.AVTP_IECIIDC_FIELD_TCODE,
          Ieciidc.AVTP_IECIIDC_FIELD_TAG, Ieciidc.descOf, Stream.descOf,
          descGet, getW, BITMAP_GET_VALUE]
        try decide
      · rw [Ieciidc.ieciidc_get_char _ _ (by decide)]
        refine congrArg some ?_
        simp [Ieciidc.AVTP_IECIIDC_FIELD_SV, Ieciidc.AVTP_IECIIDC_FIELD_TCODE,
          Ieciidc.AVTP_IECIIDC_FIELD_TAG, Ieciidc.descOf, Stream.descOf,
          descGet, getW, BITMAP_GET_VALUE]
        try decide
      · intro f hf hn0 hn10 hn12
        have hfl : f < 14 := hf
        clear hf
        interval_cases f <;>
          first
            | exact absurd rfl hn0
            | exact absurd rfl hn10
            | exact absurd rfl hn12
            | (rw [Ieciidc.ieciidc_get_char _ _ (by decide)]
               refine congrArg some ?_
               simp [Ieciidc.AVTP_IECIIDC_FIELD_SV,
                 Ieciidc.AVTP_IECIIDC_FIELD_TCODE,
                 Ieciidc.AVTP_IECIIDC_FIELD_TAG, Ieciidc.descOf,
                 Stream.descOf, descGet, getW, BITMAP_GET_VALUE]
               try decide)
    · rw [Ieciidc.ieciidc_init_char p 1 (by decide)]
      dsimp only
      refine ⟨rfl, ?_, ?_, ?_, ?_, ?_, rfl, rfl⟩
      · exact congrArg some
          (by decide :
            avtp_pdu_get_subtype 0x00800000 = AVTP_SUBTYPE_61883_IIDC)
      · rw [Ieciidc.ieciidc_get_char _ _ (by decide)]
        refine congrArg some ?_
        simp [Ieciidc.AVTP_IECIIDC_FIELD_SV, Ieciidc.AVTP_IECIIDC_FIELD_TCODE,
          Ieciidc.AVTP_IECIIDC_FIELD_TAG, Ieciidc.descOf, Stream.descOf,
          descGet, getW, BITMAP_GET_VALUE]
        try decide
      · rw [Ieciidc.ieciidc_get_char _ _ (by decide)]
        refine congrArg some ?_
        simp [Ieciidc.AVTP_IECIIDC_FIELD_SV, Ieciidc.AVTP_IECIIDC_FIELD_TCODE,
          Ieciidc.AVTP_IECIIDC_FIELD_TAG, Ieciidc.descOf, Stream.descOf,
          descGet, getW, BITMAP_GET_VALUE]
        try decide
      · rw [Ieciidc.ieciidc_get_char _ _ (by decide)]
        refine congrArg some ?_
        simp [Ieciidc.AVTP_IECIIDC_FIELD_SV, Ieciidc.AVTP_IECIIDC_FIELD_TCODE,
          Ieciidc.AVTP_IECIIDC_FIELD_TAG, Ieciidc.descOf, Stream.descOf,
          descGet, getW, BITMAP_GET_VALUE]
        try decide
      · intro f hf hn0 hn10 hn12
        have hfl : f < 14 := hf
        clear hf
        interval_cases f <;>
          first
            | exact absurd rfl hn0
            | exact absurd rfl hn10
            | exact absurd rfl hn12
            | (rw [Ieciidc.ieciidc_get_char _ _ (by decide)]
               refine congrArg some ?_
               simp [Ieciidc.AVTP_IECIIDC_FIELD_SV,
                 Ieciidc.AVTP_IECIIDC_FIELD_TCODE,
                 Ieciidc.AVTP_IECIIDC_FIELD_TAG, Ieciidc.descOf,
                 Stream.descOf, descGet, getW, BITMAP_GET_VALUE]
               try decide)
  · intro p
    rw [Rvf.rvf_init_char p]
    dsimp only
    refine ⟨rfl, ?_, ?_, ?_, rfl, rfl⟩
    · exact congrArg some
        (by decide : avtp_pdu_get_subtype 0x07800000 = AVTP_SUBTYPE_RVF)
    · rw [Rvf.rvf_get_char _ _ (by decide)]
      refine congrArg some ?_
      simp [Rvf.AVTP_RVF_FIELD_SV, Rvf.descOf, Stream.descOf, descGet,
        getW, BITMAP_GET_VALUE]
      try decide
    · intro f hf hne
      interval_cases f <;>
        first
          | exact absurd rfl hne
          | (rw [Rvf.rvf_get_char _ _ (by decide)]
             refine congrArg some ?_
             simp [Rvf.AVTP_RVF_FIELD_SV, Rvf.descOf, Stream.descOf, descGet,
               getW, BITMAP_GET_VALUE]
             try decide)
  · intro p
    rw [Vsf.vsf_init_char p]
    dsimp only
    refine ⟨rfl, ?_, ?_, ?_, rfl, rfl⟩
    · exact congrArg some
        (by decide :
          avtp_pdu_get_subtype 0x6F800000 = AVTP_SUBTYPE_VSF_STREAM)
    · rw [Vsf.vsf_get_char _ _ (by decide)]
      refine congrArg some ?_
      simp [Vsf.AVTP_VSF_STREAM_FIELD_SV, Vsf.descOf, Stream.descOf,
        descGet, getW, BITMAP_GET_VALUE]
      try decide
    · intro f hf hne
      have hfl : f < 9 := hf
      clear hf
      interval_cases f <;>
        first
          | exact absurd rfl hne
          | (rw [Vsf.vsf_get_char _ _ (by decide)]
             refine congrArg some ?_
             simp [Vsf.AVTP_VSF_STREAM_FIELD_SV, Vsf.descOf, Stream.descOf,
               descGet, getW, BITMAP_GET_VALUE]
             try decide)
  · intro p
    rw [Crf.crf_init_char p]
    dsimp only
    refine ⟨rfl, ?_, ?_, ?_⟩
    · exact congrArg some
        (by decide : avtp_pdu_get_subtype 0x04800000 = AVTP_SUBTYPE_CRF)
    · rw [Crf.crf_get_char _ _ (by decide)]
      refine congrArg some ?_
      simp [Crf.AVTP_CRF_FIELD_SV, Crf.descOf, cdescGet, BITMAP_GET_VALUE]
      try decide
    · intro f hf hne
      have hfl : f < 11 := hf
      clear hf
      interval_cases f <;>
        first
          | exact absurd rfl hne
          | (rw [Crf.crf_get_char _ _ (by decide)]
             refine congrArg some ?_
             simp [Crf.AVTP_CRF_FIELD_SV, Crf.descOf, cdescGet, BITMAP_GET_VALUE]
             try decide)

/-- Witness for C4 at the AAF initializer on a zeroed PDU, reading `mr`. -/
theorem claim_C4_witness :
    (Aaf.AVTP_AAF_FIELD_MR < Aaf.AVTP_AAF_FIELD_MAX
      ∧ Aaf.AVTP_AAF_FIELD_MR ≠ Aaf.AVTP_AAF_FIELD_SV)
    ∧ Aaf.avtp_aaf_pdu_get (Aaf.avtp_aaf_pdu_init (some zeroStream)).2
        Aaf.AVTP_AAF_FIELD_MR = some 0 :=
  ⟨⟨by decide, by decide⟩,
    (claim_C4.1 zeroStream).2.2.2.1 Aaf.AVTP_AAF_FIELD_MR (by decide)
      (by decide)⟩


/-- C5: every getter/setter returns `-EINVAL` exactly when the PDU pointer is
null or the field is unrecognized (out of the subtype's enum range); a
failing setter leaves the PDU unchanged; and the CVF and IEC 61883/IIDC
initializers additionally validate their argument (`format_subtype`
at most JPEG2000, `tag` at most 1), returning `-EINVAL` without touching
the buffer when it is out of range. -/
theorem claim_C5 :
    (∀ (p : StreamPdu) (f : Nat),
      (Stream.avtp_stream_pdu_get (some p) f = none
        ↔ Stream.AVTP_STREAM_FIELD_MAX ≤ f)
      ∧ Stream.avtp_stream_pdu_get none f = none)
    ∧ (∀ (p : StreamPdu) (f v : Nat),
      ((Stream.avtp_stream_pdu_set (some p) f v).1 = -EINVAL
        ↔ Stream.AVTP_STREAM_FIELD_MAX ≤ f)
      ∧ (Stream.AVTP_STREAM_FIELD_MAX ≤ f →
          Stream.avtp_stream_pdu_set (some p) f v = (-EINVAL, some p))
      ∧ Stream.avtp_stream_pdu_set none f v = (-EINVAL, none))
    ∧ (∀ (p : StreamPdu) (f : Nat),
      (Aaf.avtp_aaf_pdu_get (some p) f = none ↔ Aaf.AVTP_AAF_FIELD_MAX ≤ f)
      ∧ Aaf.avtp_aaf_pdu_get none f = none)
    ∧ (∀ (p : StreamPdu) (f v : Nat),
      ((Aaf.avtp_aaf_pdu_set (some p) f v).1 = -EINVAL
        ↔ Aaf.AVTP_AAF_FIELD_MAX ≤ f)
      ∧ (Aaf.AVTP_AAF_FIELD_MAX ≤ f →
          Aaf.avtp_aaf_pdu_set (some p) f v = (-EINVAL, some p))
      ∧ Aaf.avtp_aaf_pdu_set none f v = (-EINVAL, none))
    ∧ (∀ (p : StreamPdu) (f : Nat),
      (Cvf.avtp_cvf_pdu_get (some p) f = none ↔ Cvf.AVTP_CVF_FIELD_MAX ≤ f)
      ∧ Cvf.avtp_cvf_pdu_get none f = none)
    ∧ (∀ (p : StreamPdu) (f v : Nat),
      ((Cvf.avtp_cvf_pdu_set (some p) f v).1 = -EINVAL
        ↔ Cvf.AVTP_CVF_FIELD_MAX ≤ f)
      ∧ (Cvf.AVTP_CVF_FIELD_MAX ≤ f →
          Cvf.avtp_cvf_pdu_set (some p) f v = (-EINVAL, some p))
      ∧ Cvf.avtp_cvf_pdu_set none f v = (-EINVAL, none))
    ∧ (∀ (p : StreamPdu) (f : Nat),
      (Ieciidc.avtp_ieciidc_pdu_get (some p) f = none
        ↔ Ieciidc.AVTP_IECIIDC_FIELD_MAX ≤ f)
      ∧ Ieciidc.avtp_ieciidc_pdu_get none f = none)
    ∧ (∀ (p : StreamPdu) (f v : Nat),
      ((Ieciidc.avtp_ieciidc_pdu_set (some p) f v).1 = -EINVAL
        ↔ Ieciidc.AVTP_IECIIDC_FIELD_MAX ≤ f)
      ∧ (Ieciidc.AVTP_IECIIDC_FIELD_MAX ≤ f →
          Ieciidc.avtp_ieciidc_pdu_set (some p) f v = (-EINVAL, some p))
      ∧ Ieciidc.avtp_ieciidc_pdu_set none f v = (-EINVAL, none))
    ∧ (∀ (p : StreamPdu) (f : Nat),
      (Rvf.avtp_rvf_pdu_get (some p) f = none ↔ Rvf.AVTP_RVF_FIELD_MAX ≤ f)
      ∧ Rvf.avtp_rvf_pdu_get none f = none)
    ∧ (∀ (p : StreamPdu) (f v : Nat),
      ((Rvf.avtp_rvf_pdu_set (some p) f v).1 = -EINVAL
        ↔ Rvf.AVTP_RVF_FIELD_MAX ≤ f)
      ∧ (Rvf.AVTP_RVF_FIELD_MAX ≤ f →
          Rvf.avtp_rvf_pdu_set (some p) f v = (-EINVAL, some p))
      ∧ Rvf.avtp_rvf_pdu_set none f v = (-EINVAL, none))
    ∧ (∀ (p : StreamPdu) (f : Nat),
      (Vsf.avtp_vsf_stream_pdu_get (some p) f = none
        ↔ Vsf.AVTP_VSF_STREAM_FIELD_MAX ≤ f)
      ∧ Vsf.avtp_vsf_stream_pdu_get none f = none)
    ∧ (∀ (p : StreamPdu) (f v : Nat),
      ((Vsf.avtp_vsf_stream_pdu_set (some p) f v).1 = -EINVAL
        ↔ Vsf.AVTP_VSF_STREAM_FIELD_MAX ≤ f)
      ∧ (Vsf.AVTP_VSF_STREAM_FIELD_MAX ≤ f →
          Vsf.avtp_vsf_stream_pdu_set (some p) f v = (-EINVAL, some p))
      ∧ Vsf.avtp_vsf_stream_pdu_set none f v = (-EINVAL, none))
    ∧ (∀ (p : CrfPdu) (f : Nat),
      (Crf.avtp_crf_pdu_get (some p) f = none ↔ Crf.AVTP_CRF_FIELD_MAX ≤ f)
      ∧ Crf.avtp_crf_pdu_get none f = none)
    ∧ (∀ (p : CrfPdu) (f v : Nat),
      ((Crf.avtp_crf_pdu_set (some p) f v).1 = -EINVAL
        ↔ Crf.AVTP_CRF_FIELD_MAX ≤ f)
      ∧ (Crf.AVTP_CRF_FIELD_MAX ≤ f →
          Crf.avtp_crf_pdu_set (some p) f v = (-EINVAL, some p))
      ∧ Crf.avtp_crf_pdu_set none f v = (-EINVAL, none))
    ∧ (∀ p : StreamPdu, (Aaf.avtp_aaf_pdu_init (some p)).1 = 0)
    ∧ (Aaf.avtp_aaf_pdu_init none = (-EINVAL, none)
      ∧ ∀ (p : StreamPdu) (st : Nat),
        ((Cvf.avtp_cvf_pdu_init (some p) st).1 = -EINVAL
          ↔ Cvf.AVTP_CVF_FORMAT_SUBTYPE_JPEG2000 < st)
        ∧ (Cvf.AVTP_CVF_FORMAT_SUBTYPE_JPEG2000 < st →
            Cvf.avtp_cvf_pdu_init (some p) st = (-EINVAL, some p))
        ∧ Cvf.avtp_cvf_pdu_init none st = (-EINVAL, none))
    ∧ (∀ (p : StreamPdu) (tag : Nat),
      ((Ieciidc.avtp_ieciidc_pdu_init (some p) tag).1 = -EINVAL ↔ 1 < tag)
      ∧ (1 < tag →
          Ieciidc.avtp_ieciidc_pdu_init (some p) tag = (-EINVAL, some p))
      ∧ Ieciidc.avtp_ieciidc_pdu_init none tag = (-EINVAL, none))
    ∧ (∀ p : StreamPdu, (Rvf.avtp_rvf_pdu_init (some p)).1 = 0)
    ∧ (Rvf.avtp_rvf_pdu_init none = (-EINVAL, none)
      ∧ ∀ p : StreamPdu, (Vsf.avtp_vsf_stream_pdu_init (some p)).1 = 0)
    ∧ (Vsf.avtp_vsf_stream_pdu_init none = (-EINVAL, none)
      ∧ ∀ p : CrfPdu, (Crf.avtp_crf_pdu_init (some p)).1 = 0)
    ∧ Crf.avtp_crf_pdu_init none = (-EINVAL, none) := by
  refine ⟨?_, ?_, ?_, ?_, ?_, ?_, ?_, ?_, ?_, ?_, ?_, ?_, ?_, ?_, ?_,
    ⟨rfl, ?_⟩, ?_, ?_, ⟨rfl, ?_⟩, ⟨rfl, ?_⟩, rfl⟩
  · intro p f
    refine ⟨⟨?_, Stream.stream_get_none p f⟩, rfl⟩
    intro hn
    by_contra hlt
    rw [Stream.stream_get_char p f (Nat.lt_of_not_le hlt)] at hn
    exact Option.some_ne_none _ hn
  · intro p f v
    refine ⟨⟨?_, ?_⟩, Stream.stream_set_none p f v, rfl⟩
    · intro h
      by_contra hlt
      rw [Stream.stream_set_char p f v (Nat.lt_of_not_le hlt)] at h
      simp [EINVAL] at h
    · intro hf
      rw [Stream.stream_set_none p f v hf]
  · intro p f
    refine ⟨⟨?_, Aaf.aaf_get_none p f⟩, rfl⟩
    intro hn
    by_contra hlt
    rw [Aaf.aaf_get_char p f (Nat.lt_of_not_le hlt)] at hn
    exact Option.some_ne_none _ hn
  · intro p f v
    refine ⟨⟨?_, ?_⟩, Aaf.aaf_set_none p f v, rfl⟩
    · intro h
      by_contra hlt
      rw [Aaf.aaf_set_char p f v (Nat.lt_of_not_le hlt)] at h
      simp [EINVAL] at h
    · intro hf
      rw [Aaf.aaf_set_none p f v hf]
  · intro p f
    refine ⟨⟨?_, Cvf.cvf_get_none p f⟩, rfl⟩
    intro hn
    by_contra hlt
    rw [Cvf.cvf_get_char p f (Nat.lt_of_not_le hlt)] at hn
    exact Option.some_ne_none _ hn
  · intro p f v
    refine ⟨⟨?_, ?_⟩, Cvf.cvf_set_none p f v, rfl⟩
    · intro h
      by_contra hlt
      rw [Cvf.cvf_set_char p f v (Nat.lt_of_not_le hlt)] at h
      simp [EINVAL] at h
    · intro hf
      rw [Cvf.cvf_set_none p f v hf]
  · intro p f
    refine ⟨⟨?_, Ieciidc.ieciidc_get_none p f⟩, rfl⟩
    intro hn
    by_contra hlt
    rw [Ieciidc.ieciidc_get_char p f (Nat.lt_of_not_le hlt)] at hn
    exact Option.some_ne_none _ hn
  · intro p f v
    refine ⟨⟨?_, ?_⟩, Ieciidc.ieciidc_set_none p f v, rfl⟩
    · intro h
      by_contra hlt
      rw [Ieciidc.ieciidc_set_char p f v (Nat.lt_of_not_le hlt)] at h
      simp [EINVAL] at h
    · intro hf
      rw [Ieciidc.ieciidc_set_none p f v hf]
  · intro p f
    refine ⟨⟨?_, Rvf.rvf_get_none p f⟩, rfl⟩
    intro hn
    by_contra hlt
    rw [Rvf.rvf_get_char p f (Nat.lt_of_not_le hlt)] at hn
    exact Option.some_ne_none _ hn
  · intro p f v
    refine ⟨⟨?_, ?_⟩, Rvf.rvf_set_none p f v, rfl⟩
    · intro h
      by_contra hlt
      rw [Rvf.rvf_set_char p f v (Nat.lt_of_not_le hlt)] at h
      simp [EINVAL] at h
    · intro hf
      rw [Rvf.rvf_set_none p f v hf]
  · intro p f
    refine ⟨⟨?_, Vsf.vsf_get_none p f⟩, rfl⟩
    intro hn
    by_contra hlt
    rw [Vsf.vsf_get_char p f (Nat.lt_of_not_le hlt)] at hn
    exact Option.some_ne_none _ hn
  · intro p f v
    refine ⟨⟨?_, ?_⟩, Vsf.vsf_set_none p f v, rfl⟩
    · intro h
      by_contra hlt
      rw [Vsf.vsf_set_char p f v (Nat.lt_of_not_le hlt)] at h
      simp [EINVAL] at h
    · intro hf
      rw [Vsf.vsf_set_none p f v hf]
  · intro p f
    refine ⟨⟨?_, Crf.crf_get_none p f⟩, rfl⟩
    intro hn
    by_contra hlt
    rw [Crf.crf_get_char p f (Nat.lt_of_not_le hlt)] at hn
    exact Option.some_ne_none _ hn
  · intro p f v
    refine ⟨⟨?_, ?_⟩, Crf.crf_set_none p f v, rfl⟩
    · intro h
      by_contra hlt
      rw [Crf.crf_set_char p f v (Nat.lt_of_not_le hlt)] at h
      simp [EINVAL] at h
    · intro hf
      rw [Crf.crf_set_none p f v hf]
  · intro p
    rw [Aaf.aaf_init_char p]
  · intro p st
    refine ⟨⟨?_, ?_⟩, ?_, rfl⟩
    · intro h
      by_contra hgt
      rw [Cvf.cvf_init_char p st (Nat.le_of_not_lt hgt)] at h
      simp [EINVAL] at h
    · intro hst
      simp only [Cvf.avtp_cvf_pdu_init]
      rw [if_pos hst]
    · intro hst
      simp only [Cvf.avtp_cvf_pdu_init]
      rw [if_pos hst]
  · intro p tag
    refine ⟨⟨?_, ?_⟩, ?_, rfl⟩
    · intro h
      by_contra hgt
      rw [Ieciidc.ieciidc_init_char p tag (Nat.le_of_not_lt hgt)] at h
      simp [EINVAL] at h
    · intro ht
      simp only [Ieciidc.avtp_ieciidc_pdu_init]
      rw [if_pos ht]
    · intro ht
      simp only [Ieciidc.avtp_ieciidc_pdu_init]
      rw [if_pos ht]
  · intro p
    rw [Rvf.rvf_init_char p]
  · intro p
    rw [Vsf.vsf_init_char p]
  · intro p
    rw [Crf.crf_init_char p]

/-- Witness for C5: on a valid PDU, field 8 is out of range for the shared
stream accessor and the setter fails leaving the PDU unchanged. -/
theorem claim_C5_witness :
    Stream.AVTP_STREAM_FIELD_MAX ≤ 8
    ∧ Stream.avtp_stream_pdu_set (some zeroStream) 8 5
      = (-EINVAL, some zeroStream) :=
  ⟨by decide, (claim_C5.2.1 zeroStream 8 5).2.1 (by decide)⟩


/-- C6: setting CRF `sv` on a zeroed CRF PDU yields first word 0x00800000
(big-endian); the CRF initializer produces first word 0x04800000 on any
buffer; and the common-header subtype setter preserves the low 24 bits of
the first word (so `sv` and its neighbours survive a subtype write). -/
theorem claim_C6 :
    Crf.avtp_crf_pdu_set (some zeroCrf) Crf.AVTP_CRF_FIELD_SV 1
      = (0, some (CrfPdu.mk 0x00800000 0 0))
    ∧ (∀ p : CrfPdu,
        Crf.avtp_crf_pdu_init (some p)
          = (0, some (CrfPdu.mk 0x04800000 0 0)))
    ∧ (∀ w v : Nat,
        avtp_pdu_set_subtype w v &&& BITMASK 24 = w &&& BITMASK 24) :=
  ⟨by decide, fun p => Crf.crf_init_char p,
    fun w v => setValue_and_disjoint 32 w v MASK_SUBTYPE SHIFT_SUBTYPE
      (BITMASK 24) (by decide) (by decide)⟩

/-- C7: the VSF `vendor_id` getter returns
`(field_specific_data << 16) | (high 16 bits of packet_info field)` — the
48-bit value split 32/16 across the two words; the setter writes
`val >> 16` and `val & 0xFFFF` into those words, leaves
`stream_data_length` unchanged, and a concrete 48-bit round-trip holds. -/
theorem claim_C7 :
    (∀ p : StreamPdu,
      Vsf.avtp_vsf_stream_pdu_get (some p) Vsf.AVTP_VSF_STREAM_FIELD_VENDOR_ID
        = some ((BITMAP_GET_VALUE (getW p .fs) Vsf.MASK_VENDOR_ID_1
              Vsf.SHIFT_VENDOR_ID_1 <<< 16)
            ||| BITMAP_GET_VALUE (getW p .pi) Vsf.MASK_VENDOR_ID_2
              Vsf.SHIFT_VENDOR_ID_2))
    ∧ (∀ (p : StreamPdu) (v : Nat),
      Vsf.avtp_vsf_stream_pdu_get
          (Vsf.avtp_vsf_stream_pdu_set (some p)
            Vsf.AVTP_VSF_STREAM_FIELD_VENDOR_ID v).2
          Vsf.AVTP_VSF_STREAM_FIELD_STREAM_DATA_LEN
        = Vsf.avtp_vsf_stream_pdu_get (some p)
            Vsf.AVTP_VSF_STREAM_FIELD_STREAM_DATA_LEN)
    ∧ Vsf.avtp_vsf_stream_pdu_set (some zeroStream)
        Vsf.AVTP_VSF_STREAM_FIELD_VENDOR_ID 0xABCDEF234567
      = (0, some (StreamPdu.mk 0 0 0 0xABCDEF23 0x00004567 0 0))
    ∧ Vsf.avtp_vsf_stream_pdu_get
        (Vsf.avtp_vsf_stream_pdu_set (some zeroStream)
          Vsf.AVTP_VSF_STREAM_FIELD_VENDOR_ID 0xABCDEF234567).2
        Vsf.AVTP_VSF_STREAM_FIELD_VENDOR_ID = some 0xABCDEF234567 := by
  refine ⟨fun p => rfl, ?_, by decide, by decide⟩
  intro p v
  rw [Vsf.vsf_set_char p Vsf.AVTP_VSF_STREAM_FIELD_VENDOR_ID v (by decide)]
  show Vsf.avtp_vsf_stream_pdu_get
      (some (descSet p v (Vsf.descOf Vsf.AVTP_VSF_STREAM_FIELD_VENDOR_ID)))
      Vsf.AVTP_VSF_STREAM_FIELD_STREAM_DATA_LEN = _
  rw [Vsf.vsf_get_char _ _ (by decide), Vsf.vsf_get_char p _ (by decide)]
  exact congrArg some (descPreserve _ _ p v
    (Vsf.vsf_descOf_wf Vsf.AVTP_VSF_STREAM_FIELD_VENDOR_ID (by decide))
    (Vsf.vsf_descOf_wf Vsf.AVTP_VSF_STREAM_FIELD_STREAM_DATA_LEN (by decide))
    (Vsf.vsf_descOf_compat Vsf.AVTP_VSF_STREAM_FIELD_VENDOR_ID (by decide)
      Vsf.AVTP_VSF_STREAM_FIELD_STREAM_DATA_LEN (by decide))
    (by decide))

/-- The §4.6 AAF row as the spec words it (refinement comparison definition,
written from the spec's words, not from the code): a field occupying
big-endian bits `start .. start+len-1` of a 32-bit word (bit 0 = MSB) has
mask `BITMASK len` shifted by `32 - start - len`. -/
def beMask (start len : Nat) : Nat := BITMASK len <<< (32 - start - len)

/-- C8 counterexample: §4.6 places AAF `channels_per_frame` at big-endian
bits 20..29 of `format_specific` (mask `BITMASK 10 << 2`); the code puts it
at big-endian bits 14..23 (`BITMASK(10) << (31 - 23)`), so on a zeroed PDU
the word written by the code differs from the word the spec's position
dictates. -/
theorem claim_C8_counterexample :
    (Aaf.avtp_aaf_pdu_set (some zeroStream) Aaf.AVTP_AAF_FIELD_CHAN_PER_FRAME
        1).2.map StreamPdu.format_specific
      ≠ some (BITMAP_SET_VALUE 32 0 1 (beMask 20 10) (32 - 20 - 10)) := by
  decide

/-- C8 amended: the masks and shifts the AAF accessor actually uses (for
both get and set, which share the `sel` table) are, as big-endian bit
ranges of the stated word: `format` 0..7 and `nsr` 8..11 and
`channels_per_frame` 14..23 and `bit_depth` 24..31 of `format_specific`;
`sp` 19 and `evt` 20..23 of `packet_info`. -/
theorem claim_C8_amended :
    Aaf.sel Aaf.AVTP_AAF_FIELD_FORMAT = some (beMask 0 8, 32 - 0 - 8, .fs)
    ∧ Aaf.sel Aaf.AVTP_AAF_FIELD_NSR = some (beMask 8 4, 32 - 8 - 4, .fs)
    ∧ Aaf.sel Aaf.AVTP_AAF_FIELD_CHAN_PER_FRAME
      = some (beMask 14 10, 32 - 14 - 10, .fs)
    ∧ Aaf.sel Aaf.AVTP_AAF_FIELD_BIT_DEPTH
      = some (beMask 24 8, 32 - 24 - 8, .fs)
    ∧ Aaf.sel Aaf.AVTP_AAF_FIELD_SP = some (beMask 19 1, 32 - 19 - 1, .pi)
    ∧ Aaf.sel Aaf.AVTP_AAF_FIELD_EVT
      = some (beMask 20 4, 32 - 20 - 4, .pi) := by decide

/-- C10: the CRF `fs` field is read and written at big-endian bit 14 of the
first 32-bit word (mask `BITMASK 1 << 17`, shift 17), the same table entry
serving `get` and both setters; its mask is disjoint from every other
`subtype_data` field of the CRF accessor; and a set/get round-trip on it
succeeds for any in-range value on any PDU. -/
theorem claim_C10 :
    Crf.getsel Crf.AVTP_CRF_FIELD_FS
      = some (BITMASK 1 <<< (31 - 14), 31 - 14, false)
    ∧ Crf.setsel32 Crf.AVTP_CRF_FIELD_FS
      = some (BITMASK 1 <<< (31 - 14), 31 - 14)
    ∧ (Crf.MASK_FS &&& Crf.MASK_SV = 0 ∧ Crf.MASK_FS &&& Crf.MASK_MR = 0
      ∧ Crf.MASK_FS &&& Crf.MASK_TU = 0
      ∧ Crf.MASK_FS &&& Crf.MASK_SEQ_NUM = 0
      ∧ Crf.MASK_FS &&& Crf.MASK_TYPE = 0)
    ∧ (∀ (p : CrfPdu) (v : Nat), v < 2 →
      (Crf.avtp_crf_pdu_set (some p) Crf.AVTP_CRF_FIELD_FS v).1 = 0
      ∧ Crf.avtp_crf_pdu_get
          (Crf.avtp_crf_pdu_set (some p) Crf.AVTP_CRF_FIELD_FS v).2
          Crf.AVTP_CRF_FIELD_FS = some v) := by
  refine ⟨by decide, by decide, by decide, ?_⟩
  intro p v hv
  rw [Crf.crf_set_char p Crf.AVTP_CRF_FIELD_FS v (by decide)]
  refine ⟨rfl, ?_⟩
  show Crf.avtp_crf_pdu_get
      (some (cdescSet p v (Crf.descOf Crf.AVTP_CRF_FIELD_FS)))
      Crf.AVTP_CRF_FIELD_FS = some v
  rw [Crf.crf_get_char _ _ (by decide),
    crf_descRoundtrip _ _ v (Crf.crf_descOf_wf Crf.AVTP_CRF_FIELD_FS
      (by decide)) hv]

/-- Witness for C10's round-trip at `v = 1` on a zeroed CRF PDU. -/
theorem claim_C10_witness :
    (1 : Nat) < 2
    ∧ ((Crf.avtp_crf_pdu_set (some zeroCrf) Crf.AVTP_CRF_FIELD_FS 1).1 = 0
      ∧ Crf.avtp_crf_pdu_get
          (Crf.avtp_crf_pdu_set (some zeroCrf) Crf.AVTP_CRF_FIELD_FS 1).2
          Crf.AVTP_CRF_FIELD_FS = some 1) :=
  ⟨by decide, claim_C10.2.2.2 zeroCrf 1 (by decide)⟩


/-- Writing all-ones through a descriptor saturates the field at its width's
maximum. -/
theorem desc_saturate (p : StreamPdu) (d : Desc) (hwf : descWf d = true)
    (h64 : descWidth d ≤ 64) :
    descGet (descSet p (2 ^ 64 - 1) d) d = 2 ^ descWidth d - 1 := by
  rw [descTrunc d p (2 ^ 64 - 1) hwf,
    descRoundtrip d p _ hwf
      (Nat.mod_lt _ (Nat.pos_pow_of_pos _ (by norm_num)))]
  exact ones_mod h64

/-- CRF version of `desc_saturate`. -/
theorem cdesc_saturate (p : CrfPdu) (d : CDesc) (hwf : cdescWf d = true)
    (h64 : cdescWidth d ≤ 64) :
    cdescGet (cdescSet p (2 ^ 64 - 1) d) d = 2 ^ cdescWidth d - 1 := by
  rw [crf_descTrunc d p (2 ^ 64 - 1) hwf,
    crf_descRoundtrip d p _ hwf
      (Nat.mod_lt _ (Nat.pos_pow_of_pos _ (by norm_num)))]
  exact ones_mod h64

/-- C9: for every accessor and recognized field, (i) `set` truncates the
64-bit argument to the field's width — writing `v` and writing
`v mod 2^width` produce identical results; (ii) writing all-ones
(`2^64 - 1`) saturates the field at `2^width - 1` when read back; and
(iii) the all-ones write still leaves every field with a disjoint registry
footprint unchanged. -/
theorem claim_C9 :
    (∀ (p : StreamPdu) (f v : Nat), f < Stream.AVTP_STREAM_FIELD_MAX →
      Stream.avtp_stream_pdu_set (some p) f v
        = Stream.avtp_stream_pdu_set (some p) f
            (v % 2 ^ descWidth (Stream.descOf f)))
    ∧ (∀ (p : StreamPdu) (f : Nat), f < Stream.AVTP_STREAM_FIELD_MAX →
      Stream.avtp_stream_pdu_get
          (Stream.avtp_stream_pdu_set (some p) f (2 ^ 64 - 1)).2 f
        = some (2 ^ descWidth (Stream.descOf f) - 1))
    ∧ (∀ (p : StreamPdu) (f g : Nat), f < Stream.AVTP_STREAM_FIELD_MAX →
      g < Stream.AVTP_STREAM_FIELD_MAX →
      fpDisjoint (Stream.descOf f) (Stream.descOf g) = true →
      Stream.avtp_stream_pdu_get
          (Stream.avtp_stream_pdu_set (some p) f (2 ^ 64 - 1)).2 g
        = Stream.avtp_stream_pdu_get (some p) g)
    ∧ (∀ (p : StreamPdu) (f v : Nat), f < Aaf.AVTP_AAF_FIELD_MAX →
      Aaf.avtp_aaf_pdu_set (some p) f v
        = Aaf.avtp_aaf_pdu_set (some p) f
            (v % 2 ^ descWidth (Aaf.descOf f)))
    ∧ (∀ (p : StreamPdu) (f : Nat), f < Aaf.AVTP_AAF_FIELD_MAX →
      Aaf.avtp_aaf_pdu_get
          (Aaf.avtp_aaf_pdu_set (some p) f (2 ^ 64 - 1)).2 f
        = some (2 ^ descWidth (Aaf.descOf f) - 1))
    ∧ (∀ (p : StreamPdu) (f g : Nat), f < Aaf.AVTP_AAF_FIELD_MAX →
      g < Aaf.AVTP_AAF_FIELD_MAX →
      fpDisjoint (Aaf.descOf f) (Aaf.descOf g) = true →
      Aaf.avtp_aaf_pdu_get
          (Aaf.avtp_aaf_pdu_set (some p) f (2 ^ 64 - 1)).2 g
        = Aaf.avtp_aaf_pdu_get (some p) g)
    ∧ (∀ (p : CrfPdu) (f v : Nat), f < Crf.AVTP_CRF_FIELD_MAX →
      Crf.avtp_crf_pdu_set (some p) f v
        = Crf.avtp_crf_pdu_set (some p) f
            (v % 2 ^ cdescWidth (Crf.descOf f)))
    ∧ (∀ (p : CrfPdu) (f : Nat), f < Crf.AVTP_CRF_FIELD_MAX →
      Crf.avtp_crf_pdu_get
          (Crf.avtp_crf_pdu_set (some p) f (2 ^ 64 - 1)).2 f
        = some (2 ^ cdescWidth (Crf.descOf f) - 1))
    ∧ (∀ (p : CrfPdu) (f g : Nat), f < Crf.AVTP_CRF_FIELD_MAX →
      g < Crf.AVTP_CRF_FIELD_MAX →
      cfpDisjoint (Crf.descOf f) (Crf.descOf g) = true →
      Crf.avtp_crf_pdu_get
          (Crf.avtp_crf_pdu_set (some p) f (2 ^ 64 - 1)).2 g
        = Crf.avtp_crf_pdu_get (some p) g)
    ∧ (∀ (p : StreamPdu) (f v : Nat), f < Cvf.AVTP_CVF_FIELD_MAX →
      Cvf.avtp_cvf_pdu_set (some p) f v
        = Cvf.avtp_cvf_pdu_set (some p) f
            (v % 2 ^ descWidth (Cvf.descOf f)))
    ∧ (∀ (p : StreamPdu) (f : Nat), f < Cvf.AVTP_CVF_FIELD_MAX →
      Cvf.avtp_cvf_pdu_get
          (Cvf.avtp_cvf_pdu_set (some p) f (2 ^ 64 - 1)).2 f
        = some (2 ^ descWidth (Cvf.descOf f) - 1))
    ∧ (∀ (p : StreamPdu) (f g : Nat), f < Cvf.AVTP_CVF_FIELD_MAX →
      g < Cvf.AVTP_CVF_FIELD_MAX →
      fpDisjoint (Cvf.descOf f) (Cvf.descOf g) = true →
      Cvf.avtp_cvf_pdu_get
          (Cvf.avtp_cvf_pdu_set (some p) f (2 ^ 64 - 1)).2 g
        = Cvf.avtp_cvf_pdu_get (some p) g)
    ∧ (∀ (p : StreamPdu) (f v : Nat), f < Ieciidc.AVTP_IECIIDC_FIELD_MAX →
      Ieciidc.avtp_ieciidc_pdu_set (some p) f v
        = Ieciidc.avtp_ieciidc_pdu_set (some p) f
            (v % 2 ^ descWidth (Ieciidc.descOf f)))
    ∧ (∀ (p : StreamPdu) (f : Nat), f < Ieciidc.AVTP_IECIIDC_FIELD_MAX →
      Ieciidc.avtp_ieciidc_pdu_get
          (Ieciidc.avtp_ieciidc_pdu_set (some p) f (2 ^ 64 - 1)).2 f
        = some (2 ^ descWidth (Ieciidc.descOf f) - 1))
    ∧ (∀ (p : StreamPdu) (f g : Nat), f < Ieciidc.AVTP_IECIIDC_FIELD_MAX →
      g < Ieciidc.AVTP_IECIIDC_FIELD_MAX →
      fpDisjoint (Ieciidc.descOf f) (Ieciidc.descOf g) = true →
      Ieciidc.avtp_ieciidc_pdu_get
          (Ieciidc.avtp_ieciidc_pdu_set (some p) f (2 ^ 64 - 1)).2 g
        = Ieciidc.avtp_ieciidc_pdu_get (some p) g)
    ∧ (∀ (p : StreamPdu) (f v : Nat), f < Rvf.AVTP_RVF_FIELD_MAX →
      Rvf.avtp_rvf_pdu_set (some p) f v
        = Rvf.avtp_rvf_pdu_set (some p) f
            (v % 2 ^ descWidth (Rvf.descOf f)))
    ∧ (∀ (p : StreamPdu) (f : Nat), f < Rvf.AVTP_RVF_FIELD_MAX →
      Rvf.avtp_rvf_pdu_get
          (Rvf.avtp_rvf_pdu_set (some p) f (2 ^ 64 - 1)).2 f
        = some (2 ^ descWidth (Rvf.descOf f) - 1))
    ∧ (∀ (p : StreamPdu) (f g : Nat), f < Rvf.AVTP_RVF_FIELD_MAX →
      g < Rvf.AVTP_RVF_FIELD_MAX →
      fpDisjoint (Rvf.descOf f) (Rvf.descOf g) = true →
      Rvf.avtp_rvf_pdu_get
          (Rvf.avtp_rvf_pdu_set (some p) f (2 ^ 64 - 1)).2 g
        = Rvf.avtp_rvf_pdu_get (some p) g)
    ∧ (∀ (p : StreamPdu) (f v : Nat), f < Vsf.AVTP_VSF_STREAM_FIELD_MAX →
      Vsf.avtp_vsf_stream_pdu_set (some p) f v
        = Vsf.avtp_vsf_stream_pdu_set (some p) f
            (v % 2 ^ descWidth (Vsf.descOf f)))
    ∧ (∀ (p : StreamPdu) (f : Nat), f < Vsf.AVTP_VSF_STREAM_FIELD_MAX →
      Vsf.avtp_vsf_stream_pdu_get
          (Vsf.avtp_vsf_stream_pdu_set (some p) f (2 ^ 64 - 1)).2 f
        = some (2 ^ descWidth (Vsf.descOf f) - 1))
    ∧ (∀ (p : StreamPdu) (f g : Nat), f < Vsf.AVTP_VSF_STREAM_FIELD_MAX →
      g < Vsf.AVTP_VSF_STREAM_FIELD_MAX →
      fpDisjoint (Vsf.descOf f) (Vsf.descOf g) = true →
      Vsf.avtp_vsf_stream_pdu_get
          (Vsf.avtp_vsf_stream_pdu_set (some p) f (2 ^ 64 - 1)).2 g
        = Vsf.avtp_vsf_stream_pdu_get (some p) g) := by
  have h64s : ∀ f0, f0 < 8 → descWidth (Stream.descOf f0) ≤ 64 := by decide
  have h64a : ∀ f0, f0 < 14 → descWidth (Aaf.descOf f0) ≤ 64 := by decide
  have h64c : ∀ f0, f0 < 11 → cdescWidth (Crf.descOf f0) ≤ 64 := by decide
  have h64v : ∀ f0, f0 < 14 → descWidth (Cvf.descOf f0) ≤ 64 := by decide
  have h64i : ∀ f0, f0 < 30 → descWidth (Ieciidc.descOf f0) ≤ 64 := by decide
  have h64r : ∀ f0, f0 < 23 → descWidth (Rvf.descOf f0) ≤ 64 := by decide
  have h64w : ∀ f0, f0 < 9 → descWidth (Vsf.descOf f0) ≤ 64 := by decide
  refine ⟨?_, ?_, ?_, ?_, ?_, ?_, ?_, ?_, ?_, ?_, ?_, ?_, ?_, ?_, ?_, ?_,
    ?_, ?_, ?_, ?_, ?_⟩
  · intro p f v hf
    rw [Stream.stream_set_char p f v hf, Stream.stream_set_char p f _ hf,
      descTrunc _ p v (Stream.stream_descOf_wf f hf)]
  · intro p f hf
    rw [Stream.stream_set_char p f _ hf]
    show Stream.avtp_stream_pdu_get
      (some (descSet p (2 ^ 64 - 1) (Stream.descOf f))) f = _
    rw [Stream.stream_get_char _ f hf]
    exact congrArg some
      (desc_saturate p _ (Stream.stream_descOf_wf f hf) (h64s f hf))
  · intro p f g hf hg hd
    rw [Stream.stream_set_char p f _ hf]
    show Stream.avtp_stream_pdu_get
      (some (descSet p (2 ^ 64 - 1) (Stream.descOf f))) g = _
    rw [Stream.stream_get_char _ g hg, Stream.stream_get_char p g hg]
    exact congrArg some (descPreserve _ _ p _
      (Stream.stream_descOf_wf f hf) (Stream.stream_descOf_wf g hg)
      (Stream.stream_descOf_compat f hf g hg) hd)
  · intro p f v hf
    rw [Aaf.aaf_set_char p f v hf, Aaf.aaf_set_char p f _ hf,
      descTrunc _ p v (Aaf.aaf_descOf_wf f hf)]
  · intro p f hf
    rw [Aaf.aaf_set_char p f _ hf]
    show Aaf.avtp_aaf_pdu_get
      (some (descSet p (2 ^ 64 - 1) (Aaf.descOf f))) f = _
    rw [Aaf.aaf_get_char _ f hf]
    exact congrArg some
      (desc_saturate p _ (Aaf.aaf_descOf_wf f hf) (h64a f hf))
  · intro p f g hf hg hd
    rw [Aaf.aaf_set_char p f _ hf]
    show Aaf.avtp_aaf_pdu_get
      (some (descSet p (2 ^ 64 - 1) (Aaf.descOf f))) g = _
    rw [Aaf.aaf_get_char _ g hg, Aaf.aaf_get_char p g hg]
    exact congrArg some (descPreserve _ _ p _
      (Aaf.aaf_descOf_wf f hf) (Aaf.aaf_descOf_wf g hg)
      (Aaf.aaf_descOf_compat f hf g hg) hd)
  · intro p f v hf
    rw [Crf.crf_set_char p f v hf, Crf.crf_set_char p f _ hf,
      crf_descTrunc _ p v (Crf.crf_descOf_wf f hf)]
  · intro p f hf
    rw [Crf.crf_set_char p f _ hf]
    show Crf.avtp_crf_pdu_get
      (some (cdescSet p (2 ^ 64 - 1) (Crf.descOf f))) f = _
    rw [Crf.crf_get_char _ f hf]
    exact congrArg some
      (cdesc_saturate p _ (Crf.crf_descOf_wf f hf) (h64c f hf))
  · intro p f g hf hg hd
    rw [Crf.crf_set_char p f _ hf]
    show Crf.avtp_crf_pdu_get
      (some (cdescSet p (2 ^ 64 - 1) (Crf.descOf f))) g = _
    rw [Crf.crf_get_char _ g hg, Crf.crf_get_char p g hg]
    exact congrArg some (crf_descPreserve _ _ p _
      (Crf.crf_descOf_wf f hf) (Crf.crf_descOf_wf g hg) hd)
  · intro p f v hf
    rw [Cvf.cvf_set_char p f v hf, Cvf.cvf_set_char p f _ hf,
      descTrunc _ p v (Cvf.cvf_descOf_wf f hf)]
  · intro p f hf
    rw [Cvf.cvf_set_char p f _ hf]
    show Cvf.avtp_cvf_pdu_get
      (some (descSet p (2 ^ 64 - 1) (Cvf.descOf f))) f = _
    rw [Cvf.cvf_get_char _ f hf]
    exact congrArg some
      (desc_saturate p _ (Cvf.cvf_descOf_wf f hf) (h64v f hf))
  · intro p f g hf hg hd
    rw [Cvf.cvf_set_char p f _ hf]
    show Cvf.avtp_cvf_pdu_get
      (some (descSet p (2 ^ 64 - 1) (Cvf.descOf f))) g = _
    rw [Cvf.cvf_get_char _ g hg, Cvf.cvf_get_char p g hg]
    exact congrArg some (descPreserve _ _ p _
      (Cvf.cvf_descOf_wf f hf) (Cvf.cvf_descOf_wf g hg)
      (Cvf.cvf_descOf_compat f hf g hg) hd)
  · intro p f v hf
    rw [Ieciidc.ieciidc_set_char p f v hf, Ieciidc.ieciidc_set_char p f _ hf,
      descTrunc _ p v (Ieciidc.ieciidc_descOf_wf f hf)]
  · intro p f hf
    rw [Ieciidc.ieciidc_set_char p f _ hf]
    show Ieciidc.avtp_ieciidc_pdu_get
      (some (descSet p (2 ^ 64 - 1) (Ieciidc.descOf f))) f = _
    rw [Ieciidc.ieciidc_get_char _ f hf]
    exact congrArg some
      (desc_saturate p _ (Ieciidc.ieciidc_descOf_wf f hf) (h64i f hf))
  · intro p f g hf hg hd
    rw [Ieciidc.ieciidc_set_char p f _ hf]
    show Ieciidc.avtp_ieciidc_pdu_get
      (some (descSet p (2 ^ 64 - 1) (Ieciidc.descOf f))) g = _
    rw [Ieciidc.ieciidc_get_char _ g hg, Ieciidc.ieciidc_get_char p g hg]
    exact congrArg some (descPreserve _ _ p _
      (Ieciidc.ieciidc_descOf_wf f hf) (Ieciidc.ieciidc_descOf_wf g hg)
      (Ieciidc.ieciidc_descOf_compat f hf g hg) hd)
  · intro p f v hf
    rw [Rvf.rvf_set_char p f v hf, Rvf.rvf_set_char p f _ hf,
      descTrunc _ p v (Rvf.rvf_descOf_wf f hf)]
  · intro p f hf
    rw [Rvf.rvf_set_char p f _ hf]
    show Rvf.avtp_rvf_pdu_get
      (some (descSet p (2 ^ 64 - 1) (Rvf.descOf f))) f = _
    rw [Rvf.rvf_get_char _ f hf]
    exact congrArg some
      (desc_saturate p _ (Rvf.rvf_descOf_wf f hf) (h64r f hf))
  · intro p f g hf hg hd
    rw [Rvf.rvf_set_char p f _ hf]
    show Rvf.avtp_rvf_pdu_get
      (some (descSet p (2 ^ 64 - 1) (Rvf.descOf f))) g = _
    rw [Rvf.rvf_get_char _ g hg, Rvf.rvf_get_char p g hg]
    exact congrArg some (descPreserve _ _ p _
      (Rvf.rvf_descOf_wf f hf) (Rvf.rvf_descOf_wf g hg)
      (Rvf.rvf_descOf_compat f hf g hg) hd)
  · intro p f v hf
    rw [Vsf.vsf_set_char p f v hf, Vsf.vsf_set_char p f _ hf,
      descTrunc _ p v (Vsf.vsf_descOf_wf f hf)]
  · intro p f hf
    rw [Vsf.vsf_set_char p f _ hf]
    show Vsf.avtp_vsf_stream_pdu_get
      (some (descSet p (2 ^ 64 - 1) (Vsf.descOf f))) f = _
    rw [Vsf.vsf_get_char _ f hf]
    exact congrArg some
      (desc_saturate p _ (Vsf.vsf_descOf_wf f hf) (h64w f hf))
  · intro p f g hf hg hd
    rw [Vsf.vsf_set_char p f _ hf]
    show Vsf.avtp_vsf_stream_pdu_get
      (some (descSet p (2 ^ 64 - 1) (Vsf.descOf f))) g = _
    rw [Vsf.vsf_get_char _ g hg, Vsf.vsf_get_char p g hg]
    exact congrArg some (descPreserve _ _ p _
      (Vsf.vsf_descOf_wf f hf) (Vsf.vsf_descOf_wf g hg)
      (Vsf.vsf_descOf_compat f hf g hg) hd)

/-- Witness for C9 at AAF `nsr` (width 4) with an oversized value. -/
theorem claim_C9_witness :
    (Aaf.AVTP_AAF_FIELD_NSR < Aaf.AVTP_AAF_FIELD_MAX)
    ∧ Aaf.avtp_aaf_pdu_set (some zeroStream) Aaf.AVTP_AAF_FIELD_NSR 0x123
      = Aaf.avtp_aaf_pdu_set (some zeroStream) Aaf.AVTP_AAF_FIELD_NSR
          (0x123 % 2 ^ descWidth (Aaf.descOf Aaf.AVTP_AAF_FIELD_NSR)) :=
  ⟨by decide,
    claim_C9.2.2.2.1 zeroStream Aaf.AVTP_AAF_FIELD_NSR 0x123 (by decide)⟩

end Avtp
